import Mathlib

/-!
MedEmo emergency coordination: a shallow embedding.

Sources embedded here:

* `src/server/models/Emergency.js`: the schema (enumerations, required paths),
  the `pre('save')` hook, `updateResponseTimes`, `addTimelineEvent`, `isActive`;
* `src/server/routes/emergency.js`: the handlers `POST /create`,
  `PUT /:id/update-status`, `PUT /:id/assign-ambulance`,
  `PUT /:id/update-location`, `POST /:id/chat`, `DELETE /:id`, and the query
  of `GET /active`;
* `src/server/models/User.js`: `userType` and the `fullName` virtual;
* `src/server/index.js`: the order of `require('./routes/emergency')` and
  `module.exports = { app, io }`.

Conventions.

* Strings stay strings: statuses, event kinds and user types are JavaScript
  strings in the source and `String` here.
* A `Date` is its number of milliseconds since the epoch, an `Int`.
* A JavaScript `Number` that results from arithmetic (the response-time
  metrics) is an exact rational.
* The database is explicit state: a handler maps a `Db` and a request to a
  `Response` and the `Db` after the request.
* Every `new Date()` / `Date.now()` of a request reads the request's clock:
  `clock i` is the value of the `i`-th reading.
* `doc.save()` is Mongoose's: the document is first validated against the
  schema (the built-in validation hook precedes every user `pre('save')`
  hook), then the user `pre('save')` hook runs, then the document is written.
  A rejected `save` throws into the handler's `catch`, which answers 500.
* `this.isModified('status')` holds when the status the handler assigned
  differs from the status that was loaded; it is false for the schema default
  of a document that was just built.
* `Model.findById(id)` is Mongoose's: a string that does not cast to an
  ObjectId makes the query reject with `CastError`, which the handler's
  `catch` answers with 500; a string that casts and names no document gives
  `null`.
* The route module binds `io` with `const { io } = require('../index')`
  while `index.js` is still loading it (`index.js` requires the routes before
  it assigns `module.exports`), so `io` is `undefined` in every handler:
  `io.emit(...)` and `io.to(...)` throw, after the `save` calls that precede
  them, and the `catch` answers 500.
* Schema paths that no handler of `routes/emergency.js` reads or writes
  (vital signs, symptoms, hospital assignment, AI triage, cost, insurance,
  follow-up, address lines, the patient age / blood group snapshot) are left
  out of the record.
-/

namespace MedEmo

/-! ## Data model -/

/-- An element of a user's `emergencyContacts` array. -/
structure EmergencyContact where
  name : String
  relationship : String
  phone : String
deriving DecidableEq, Repr

/-- A user document (`models/User.js`), restricted to the paths the emergency
routes read: names, phone, `userType` and the registered contacts. -/
structure User where
  firstName : String
  lastName : String
  phone : String
  userType : String
  emergencyContacts : List EmergencyContact
deriving DecidableEq, Repr

/-- The `fullName` virtual of `models/User.js`. -/
def User.fullName (u : User) : String :=
  u.firstName ++ " " ++ u.lastName

/-- An element of the `timeline` array. `userId` and `userType` are optional
paths of the sub-schema. -/
structure TimelineEvent where
  event : String
  timestamp : Int
  description : String
  userId : Option String
  userType : Option String
deriving DecidableEq, Repr

/-- An element of the `chatMessages` array. -/
structure ChatMessage where
  senderId : String
  senderType : String
  message : String
  timestamp : Int
  isRead : Bool
deriving DecidableEq, Repr

/-- An element of the `contactsNotified` array. -/
structure ContactNotified where
  name : String
  relationship : String
  phone : String
  notificationStatus : String
deriving DecidableEq, Repr

/-- The `currentLocation` of an assigned ambulance. -/
structure LiveLocation where
  latitude : Int
  longitude : Int
  timestamp : Int
deriving DecidableEq, Repr

/-- The `assignedAmbulance` nested path. -/
structure AmbulanceAssignment where
  ambulanceId : String
  driverName : String
  driverPhone : String
  estimatedArrival : Int
  currentLocation : Option LiveLocation
deriving DecidableEq, Repr

/-- The `location` nested path. Coordinates are kept as opaque numbers
(micro-degrees); no handler computes with them. -/
structure Location where
  latitude : Int
  longitude : Int
  accuracy : Option Int
  timestamp : Option Int
deriving DecidableEq, Repr

/-- The `responseTime` nested path: three durations in seconds, each unset
until computed. -/
structure ResponseTime where
  alertToAssignment : Option ℚ
  assignmentToArrival : Option ℚ
  totalResponseTime : Option ℚ
deriving DecidableEq, Repr

/-- An emergency document. `emergencyId = ""` stands for an identifier that
is not set (both `!this.emergencyId` and the `required` validator treat the
empty string and `undefined` alike). -/
structure Emergency where
  emergencyId : String
  type : String
  severity : String
  priority : String
  patientId : String
  patientName : String
  patientPhone : String
  location : Location
  description : String
  assignedAmbulance : Option AmbulanceAssignment
  status : String
  timeline : List TimelineEvent
  responseTime : ResponseTime
  chatMessages : List ChatMessage
  contactsNotified : List ContactNotified
  createdBy : Option String
  updatedBy : Option String
  completedAt : Option Int
  cancelledAt : Option Int
deriving DecidableEq, Repr

/-! ## Schema enumerations (`models/Emergency.js`) -/

/-- The `enum` of the `type` path. -/
def typeEnum : List String :=
  ["medical", "trauma", "cardiac", "respiratory", "neurological", "pediatric",
   "obstetric", "other"]

/-- The `enum` of the `severity` path. -/
def severityEnum : List String := ["low", "medium", "high", "critical"]

/-- The `enum` of the `priority` path. -/
def priorityEnum : List String := ["routine", "urgent", "emergency", "immediate"]

/-- The `enum` of the `status` path. -/
def statusEnum : List String :=
  ["pending", "assigned", "en-route", "arrived", "in-transit", "completed",
   "cancelled"]

/-- The `enum` of the `timeline.event` path. -/
def timelineEventEnum : List String :=
  ["created", "assigned", "ambulance-dispatched", "ambulance-arrived",
   "patient-picked-up", "arrived-at-hospital", "completed"]

/-! ## Document methods (`models/Emergency.js`) -/

/-- The method `addTimelineEvent(event, description, userId)`; `now` is the
value of its `new Date()`. -/
def Emergency.addTimelineEvent (e : Emergency) (event description userId : String)
    (now : Int) : Emergency :=
  { e with
    timeline := e.timeline ++
      [{ event := event, timestamp := now, description := description,
         userId := some userId, userType := none }] }

/-- The method `updateResponseTimes()`. `Array.prototype.find` is
`List.find?`; a duration is a difference of millisecond timestamps divided by
1000. -/
def Emergency.updateResponseTimes (e : Emergency) : Emergency :=
  if 2 ≤ e.timeline.length then
    let created := e.timeline.find? (fun t => t.event == "created")
    let assigned := e.timeline.find? (fun t => t.event == "assigned")
    let arrived := e.timeline.find? (fun t => t.event == "ambulance-arrived")
    let r0 := e.responseTime
    let r1 :=
      match created, assigned with
      | some c, some a =>
          { r0 with alertToAssignment := some (((a.timestamp - c.timestamp : Int) : ℚ) / 1000) }
      | _, _ => r0
    let r2 :=
      match assigned, arrived with
      | some a, some v =>
          { r1 with assignmentToArrival := some (((v.timestamp - a.timestamp : Int) : ℚ) / 1000) }
      | _, _ => r1
    let r3 :=
      match created, arrived with
      | some c, some v =>
          { r2 with totalResponseTime := some (((v.timestamp - c.timestamp : Int) : ℚ) / 1000) }
      | _, _ => r2
    { e with responseTime := r3 }
  else e

/-- The method `isActive()`. -/
def Emergency.isActive (e : Emergency) : Bool :=
  ["pending", "assigned", "en-route", "arrived", "in-transit"].contains e.status

/-- The user `pre('save')` hook. `isNew` is Mongoose's `this.isNew`,
`statusModified` is `this.isModified('status')`; `idNow` is the value of
`Date.now()`, `random` the value of
`Math.random().toString(36).substr(2, 5).toUpperCase()`, `eventNow` the value
of `new Date()`. -/
def preSave (isNew statusModified : Bool) (idNow : Int) (random : String)
    (eventNow : Int) (e : Emergency) : Emergency :=
  let e1 :=
    if isNew && e.emergencyId == "" then
      { e with emergencyId := "EMG-" ++ toString idNow ++ "-" ++ random }
    else e
  if statusModified then
    { e1 with
      timeline := e1.timeline ++
        [{ event := e1.status, timestamp := eventNow,
           description := "Emergency status changed to " ++ e1.status,
           userId := none, userType := none }] }
  else e1

/-! ## Persistence: the database and `save` -/

/-- The two collections, keyed by `_id`, and the driver's cast of a string to
an ObjectId, consulted for the strings under which no document is stored. -/
structure Db where
  users : String → Option User
  emergencies : String → Option Emergency
  castsToObjectId : String → Bool

/-- What `Model.findById(id)` resolves to: a document, `null`, or a rejection
with `CastError`. -/
inductive Found (α : Type) where
  | doc (document : α)
  | null
  | castError

/-- The query `Model.findById(id)` on a collection: the document stored under
`id`; otherwise `null` when `id` casts to an ObjectId and a `CastError` when it
does not. -/
def findById {α : Type} (db : Db) (collection : String → Option α) (id : String) :
    Found α :=
  match collection id with
  | some document => .doc document
  | none => if db.castsToObjectId id then .null else .castError

/-- Schema validation of an emergency document, on the paths kept in the
record: `required` paths are set, enumerated paths hold a member of their
`enum`, and so does the `event` of every timeline element. -/
def schemaValid (e : Emergency) : Bool :=
  e.emergencyId != "" &&
  typeEnum.contains e.type &&
  severityEnum.contains e.severity &&
  priorityEnum.contains e.priority &&
  e.patientId != "" &&
  e.description != "" &&
  statusEnum.contains e.status &&
  e.timeline.all (fun t => timelineEventEnum.contains t.event)

/-- The call `doc.save()` on the document stored under `key`. Mongoose first
validates the document against the schema (its built-in validation hook is
the first `pre('save')` hook), then runs the user `pre('save')` hook, then
writes the document. `none` is a rejected promise: nothing is written. An
insert under an `_id` that is already taken is rejected by the store. -/
def save (db : Db) (key : String) (isNew statusModified : Bool) (idNow : Int)
    (random : String) (eventNow : Int) (doc : Emergency) : Option (Emergency × Db) :=
  if isNew && (db.emergencies key).isSome then none
  else if schemaValid doc then
    let saved := preSave isNew statusModified idNow random eventNow doc
    some (saved, { db with emergencies := Function.update db.emergencies key (some saved) })
  else none

/-! ## Requests and responses -/

/-- The error taxonomy. The handlers answer 400 (`validationError`), 403
(`forbidden`), 404 (`notFound`) and 500 (`serverError`, the `catch` branch of
every handler); `invalidTransition` and `conflict` are named by the design
and returned by no handler of `routes/emergency.js`. -/
inductive ErrorKind where
  | validationError
  | notFound
  | forbidden
  | invalidTransition
  | conflict
  | serverError
deriving DecidableEq, Repr

/-- What a handler answers: a success with the returned document (when the
body carries one) and message, or a failure with its messages. -/
inductive Response where
  | success (emergency : Option Emergency) (message : String)
  | failure (kind : ErrorKind) (errors : List String)
deriving DecidableEq, Repr

/-- The failure kind of a response, if it is a failure. -/
def Response.kind : Response → Option ErrorKind
  | .success _ _ => none
  | .failure k _ => some k

/-- Whether a response is a success. -/
def Response.isSuccess : Response → Bool
  | .success _ _ => true
  | .failure _ _ => false

/-- What is ambient in a request: the authenticated actor (`req.user.id`),
the clock, the random suffix drawn by the `pre('save')` hook, and the `_id`
Mongoose gives to a document built with `new Emergency(...)`. -/
structure Ctx where
  actorId : String
  clock : Nat → Int
  random : String
  newId : String

/-- The `catch` branch shared by the handlers. -/
def serverError : Response := .failure .serverError ["Server error"]

/-- The binding `io` of `routes/emergency.js` (line 7). `index.js` requires
the route module (line 113) before it assigns `module.exports = { app, io }`
(line 182), so the destructuring reads the still empty exports object and
`io` is `undefined`: `none`. -/
def io : Option Unit := none

/-- The calls `io.emit(...)` and `io.to(room).emit(...)`: reading a property
of `undefined` throws a `TypeError`, `none`; on a socket server the event is
sent. -/
def emit (socket : Option Unit) : Option Unit := socket

/-! ## `PUT /:id/update-status` -/

/-- The body of an update-status request. -/
structure UpdateStatusBody where
  status : Option String
  notes : Option String
deriving DecidableEq, Repr

/-- The `canUpdateStatus` condition of the handler. -/
def canUpdateStatus (user : User) (emergency : Emergency) (actorId : String) : Bool :=
  user.userType == "admin" ||
  user.userType == "ambulance" ||
  user.userType == "hospital" ||
  (user.userType == "patient" && emergency.patientId == actorId)

/-- The expression `notes || 'Status updated to ' + status`: an absent or
empty `notes` is falsy. -/
def notesOrDefault (notes : Option String) (status : String) : String :=
  match notes with
  | some n => if n == "" then "Status updated to " ++ status else n
  | none => "Status updated to " ++ status

/-- The in-memory mutation of the update-status handler, between the
authorization check and `save`. -/
def updateStatusDoc (c : Ctx) (emergency : Emergency) (status : String)
    (notes : Option String) : Emergency :=
  let d1 := { emergency with status := status, updatedBy := some c.actorId }
  let d2 := d1.addTimelineEvent status (notesOrDefault notes status) c.actorId (c.clock 0)
  if status == "completed" then
    ({ d2 with completedAt := some (c.clock 1) }).updateResponseTimes
  else if status == "cancelled" then
    { d2 with cancelledAt := some (c.clock 1) }
  else d2

/-- The index of the clock reading made by the `pre('save')` hook of an
update-status request. -/
def updateStatusHookTick (status : String) : Nat :=
  if status == "completed" || status == "cancelled" then 2 else 1

/-- The handler of `PUT /:id/update-status`. The socket call follows `save`:
when it throws, the `catch` answers 500 and the record stays written. -/
def updateStatus (c : Ctx) (db : Db) (id : String) (body : UpdateStatusBody) :
    Response × Db :=
  match body.status with
  | none => (.failure .validationError ["Status is required"], db)
  | some status =>
    if !statusEnum.contains status then
      (.failure .validationError ["Status is required"], db)
    else
      match findById db db.emergencies id with
      | .castError => (serverError, db)
      | .null => (.failure .notFound ["Emergency not found"], db)
      | .doc emergency =>
        match findById db db.users c.actorId with
        | .castError => (serverError, db)
        | .null => (.failure .notFound ["User not found"], db)
        | .doc user =>
          if !canUpdateStatus user emergency c.actorId then
            (.failure .forbidden ["Not authorized to update emergency status"], db)
          else
            match save db id false (emergency.status != status) 0 c.random
                (c.clock (updateStatusHookTick status))
                (updateStatusDoc c emergency status body.notes) with
            | none => (serverError, db)
            | some (saved, db1) =>
              match emit io with
              | none => (serverError, db1)
              | some _ =>
                (.success (some saved)
                  ("Emergency status updated from " ++ emergency.status ++ " to " ++ status),
                 db1)

/-! ## `PUT /:id/assign-ambulance` -/

/-- The body of an assign-ambulance request. `estimatedArrival` is the date
the field parses to; `none` when the field is absent or not ISO 8601. -/
structure AssignAmbulanceBody where
  ambulanceId : Option String
  estimatedArrival : Option Int
deriving DecidableEq, Repr

/-- The messages of the validators that reject the body. -/
def assignAmbulanceErrors (body : AssignAmbulanceBody) : List String :=
  (match body.ambulanceId with
   | some a => if a == "" then ["Ambulance ID is required"] else []
   | none => ["Ambulance ID is required"]) ++
  (match body.estimatedArrival with
   | some _ => []
   | none => ["Estimated arrival time is required"])

/-- The in-memory mutation of the assign-ambulance handler. -/
def assignAmbulanceDoc (c : Ctx) (emergency : Emergency) (ambulanceId : String)
    (ambulance : User) (estimatedArrival : Int) : Emergency :=
  let d1 := { emergency with
    assignedAmbulance := some
      { ambulanceId := ambulanceId, driverName := ambulance.fullName,
        driverPhone := ambulance.phone, estimatedArrival := estimatedArrival,
        currentLocation := none },
    status := "assigned" }
  let d2 := d1.addTimelineEvent "assigned" ("Ambulance assigned: " ++ ambulance.fullName)
    c.actorId (c.clock 0)
  { d2 with updatedBy := some c.actorId }

/-- The handler of `PUT /:id/assign-ambulance`. An actor that does not
resolve makes `user.userType` throw, which the `catch` branch answers. The
socket call follows `save`: when it throws, the `catch` answers 500 and the
record stays written. -/
def assignAmbulance (c : Ctx) (db : Db) (id : String) (body : AssignAmbulanceBody) :
    Response × Db :=
  match body.ambulanceId, body.estimatedArrival with
  | some ambulanceId, some estimatedArrival =>
    if ambulanceId == "" then (.failure .validationError (assignAmbulanceErrors body), db)
    else
      match findById db db.users c.actorId with
      | .castError => (serverError, db)
      | .null => (serverError, db)
      | .doc user =>
        if !(["admin", "hospital"].contains user.userType) then
          (.failure .forbidden ["Not authorized to assign ambulances"], db)
        else
          match findById db db.emergencies id with
          | .castError => (serverError, db)
          | .null => (.failure .notFound ["Emergency not found"], db)
          | .doc emergency =>
            match findById db db.users ambulanceId with
            | .castError => (serverError, db)
            | .null => (.failure .notFound ["Ambulance not found"], db)
            | .doc ambulance =>
              if ambulance.userType != "ambulance" then
                (.failure .notFound ["Ambulance not found"], db)
              else
                match save db id false (emergency.status != "assigned") 0 c.random
                    (c.clock 1)
                    (assignAmbulanceDoc c emergency ambulanceId ambulance estimatedArrival) with
                | none => (serverError, db)
                | some (saved, db1) =>
                  match emit io with
                  | none => (serverError, db1)
                  | some _ => (.success (some saved) "Ambulance assigned successfully", db1)
  | _, _ => (.failure .validationError (assignAmbulanceErrors body), db)

/-! ## `DELETE /:id` (cancel) -/

/-- The in-memory mutation of the cancel handler. -/
def cancelDoc (c : Ctx) (emergency : Emergency) : Emergency :=
  let d1 := { emergency with status := "cancelled", cancelledAt := some (c.clock 0) }
  let d2 := d1.addTimelineEvent "cancelled" "Emergency cancelled by user" c.actorId (c.clock 1)
  { d2 with updatedBy := some c.actorId }

/-- The part of the cancel handler after the authorization check: the
mutation, `save`, then the socket call. -/
def cancelSave (c : Ctx) (db : Db) (id : String) (emergency : Emergency) : Response × Db :=
  match save db id false (emergency.status != "cancelled") 0 c.random (c.clock 2)
      (cancelDoc c emergency) with
  | none => (serverError, db)
  | some (_, db1) =>
    match emit io with
    | none => (serverError, db1)
    | some _ => (.success none "Emergency cancelled successfully", db1)

/-- The handler of `DELETE /:id`. -/
def cancel (c : Ctx) (db : Db) (id : String) : Response × Db :=
  match findById db db.emergencies id with
  | .castError => (serverError, db)
  | .null => (.failure .notFound ["Emergency not found"], db)
  | .doc emergency =>
    if emergency.patientId != c.actorId then
      match findById db db.users c.actorId with
      | .castError => (serverError, db)
      | .null => (serverError, db)
      | .doc user =>
        if !(["admin"].contains user.userType) then
          (.failure .forbidden ["Not authorized to cancel emergency"], db)
        else cancelSave c db id emergency
    else cancelSave c db id emergency

/-! ## `PUT /:id/update-location` -/

/-- The body of an update-location request. A coordinate is `none` when the
field is absent or not a float. -/
structure UpdateLocationBody where
  latitude : Option Int
  longitude : Option Int
  accuracy : Option Int
deriving DecidableEq, Repr

/-- The messages of the validators that reject the body. -/
def updateLocationErrors (body : UpdateLocationBody) : List String :=
  (if body.latitude.isNone then ["Latitude is required"] else []) ++
  (if body.longitude.isNone then ["Longitude is required"] else [])

/-- The in-memory mutation of the update-location handler. -/
def updateLocationDoc (c : Ctx) (emergency : Emergency) (latitude longitude : Int)
    (accuracy : Option Int) : Emergency :=
  { emergency with
    location :=
      { latitude := latitude, longitude := longitude, accuracy := accuracy,
        timestamp := some (c.clock 0) },
    updatedBy := some c.actorId }

/-- The part of the update-location handler after the authorization check:
`save`, then the socket call. -/
def updateLocationSave (c : Ctx) (db : Db) (id : String) (emergency : Emergency)
    (latitude longitude : Int) (accuracy : Option Int) : Response × Db :=
  match save db id false false 0 c.random (c.clock 1)
      (updateLocationDoc c emergency latitude longitude accuracy) with
  | none => (serverError, db)
  | some (_, db1) =>
    match emit io with
    | none => (serverError, db1)
    | some _ => (.success none "Location updated successfully", db1)

/-- The handler of `PUT /:id/update-location`. -/
def updateLocation (c : Ctx) (db : Db) (id : String) (body : UpdateLocationBody) :
    Response × Db :=
  match body.latitude, body.longitude with
  | some latitude, some longitude =>
    match findById db db.emergencies id with
    | .castError => (serverError, db)
    | .null => (.failure .notFound ["Emergency not found"], db)
    | .doc emergency =>
      if emergency.patientId != c.actorId then
        match findById db db.users c.actorId with
        | .castError => (serverError, db)
        | .null => (serverError, db)
        | .doc user =>
          if !(["admin", "ambulance"].contains user.userType) then
            (.failure .forbidden ["Not authorized to update location"], db)
          else updateLocationSave c db id emergency latitude longitude body.accuracy
      else updateLocationSave c db id emergency latitude longitude body.accuracy
  | _, _ => (.failure .validationError (updateLocationErrors body), db)

/-! ## `POST /:id/chat` -/

/-- The in-memory mutation of the chat handler; `isRead` takes its schema
default. -/
def postChatMessageDoc (c : Ctx) (emergency : Emergency) (user : User)
    (message : String) : Emergency :=
  { emergency with
    chatMessages := emergency.chatMessages ++
      [{ senderId := c.actorId, senderType := user.userType, message := message,
         timestamp := c.clock 0, isRead := false }] }

/-- The handler of `POST /:id/chat`; `message` is the body's field. The
socket call follows `save`: when it throws, the `catch` answers 500 and the
message stays stored. -/
def postChatMessage (c : Ctx) (db : Db) (id : String) (message : Option String) :
    Response × Db :=
  match message with
  | none => (.failure .validationError ["Message is required"], db)
  | some text =>
    if text == "" then (.failure .validationError ["Message is required"], db)
    else
      match findById db db.emergencies id with
      | .castError => (serverError, db)
      | .null => (.failure .notFound ["Emergency not found"], db)
      | .doc emergency =>
        match findById db db.users c.actorId with
        | .castError => (serverError, db)
        | .null => (.failure .notFound ["User not found"], db)
        | .doc user =>
          match save db id false false 0 c.random (c.clock 1)
              (postChatMessageDoc c emergency user text) with
          | none => (serverError, db)
          | some (_, db1) =>
            match emit io with
            | none => (serverError, db1)
            | some _ => (.success none "Chat message sent successfully", db1)

/-! ## `POST /create` -/

/-- The body of a create request, on the paths kept in the record. A
coordinate is `none` when the field is absent or not a float. -/
structure CreateBody where
  type : Option String
  severity : Option String
  priority : Option String
  description : Option String
  latitude : Option Int
  longitude : Option Int
  accuracy : Option Int
deriving DecidableEq, Repr

/-- The validator `notEmpty()`. -/
def notEmpty (field : Option String) : Bool :=
  match field with
  | some v => v != ""
  | none => false

/-- The validator `isIn(values)`. -/
def isIn (values : List String) (field : Option String) : Bool :=
  match field with
  | some v => values.contains v
  | none => false

/-- The messages of the validators that reject the body, in the order of the
validation chain. -/
def createErrors (body : CreateBody) : List String :=
  (if notEmpty body.type then [] else ["Emergency type is required"]) ++
  (if isIn ["low", "medium", "high", "critical"] body.severity then []
   else ["Severity level is required"]) ++
  (if isIn ["routine", "urgent", "emergency", "immediate"] body.priority then []
   else ["Priority level is required"]) ++
  (if notEmpty body.description then [] else ["Emergency description is required"]) ++
  (if body.latitude.isSome then [] else ["Latitude is required"]) ++
  (if body.longitude.isSome then [] else ["Longitude is required"])

/-- The document `new Emergency(emergencyData)`: the request's data, the
subject's snapshot, and the schema defaults. -/
def newEmergency (c : Ctx) (user : User) (body : CreateBody) : Emergency :=
  { emergencyId := "",
    type := body.type.getD "",
    severity := body.severity.getD "",
    priority := body.priority.getD "",
    patientId := c.actorId,
    patientName := user.fullName,
    patientPhone := user.phone,
    location :=
      { latitude := body.latitude.getD 0, longitude := body.longitude.getD 0,
        accuracy := body.accuracy, timestamp := some (c.clock 0) },
    description := body.description.getD "",
    assignedAmbulance := none,
    status := "pending",
    timeline := [],
    responseTime :=
      { alertToAssignment := none, assignmentToArrival := none, totalResponseTime := none },
    chatMessages := [],
    contactsNotified := [],
    createdBy := some c.actorId,
    updatedBy := none,
    completedAt := none,
    cancelledAt := none }

/-- The loop that seeds `contactsNotified` from the subject's contacts. -/
def notifyContacts (emergency : Emergency) (contacts : List EmergencyContact) : Emergency :=
  { emergency with
    contactsNotified := emergency.contactsNotified ++
      contacts.map (fun k =>
        { name := k.name, relationship := k.relationship, phone := k.phone,
          notificationStatus := "pending" }) }

/-- The handler of `POST /create`: two `save` calls, the global socket call,
then the contacts loop and a third `save`; each may throw and leave what the
earlier `save` calls wrote. -/
def create (c : Ctx) (db : Db) (body : CreateBody) : Response × Db :=
  if createErrors body != [] then (.failure .validationError (createErrors body), db)
  else
    match findById db db.users c.actorId with
    | .castError => (serverError, db)
    | .null => (.failure .notFound ["User not found"], db)
    | .doc user =>
      match save db c.newId true false (c.clock 1) c.random (c.clock 1)
          (newEmergency c user body) with
      | none => (serverError, db)
      | some (e1, db1) =>
        match save db1 c.newId false false 0 c.random (c.clock 3)
            (e1.addTimelineEvent "created" "Emergency alert created" c.actorId (c.clock 2)) with
        | none => (serverError, db1)
        | some (e2, db2) =>
          match emit io with
          | none => (serverError, db2)
          | some _ =>
            if user.emergencyContacts.length > 0 then
              match save db2 c.newId false false 0 c.random (c.clock 3)
                  (notifyContacts e2 user.emergencyContacts) with
              | none => (serverError, db2)
              | some (e3, db3) =>
                (.success (some e3) "Emergency alert created successfully", db3)
            else (.success (some e2) "Emergency alert created successfully", db2)


/-! ## Auxiliary definitions for the statements -/

/-- The paths other than `status` and `timeline` that schema validation reads
are the same in `d` as in `e`. -/
def sameKeyPaths (e d : Emergency) : Prop :=
  d.emergencyId = e.emergencyId ∧ d.type = e.type ∧ d.severity = e.severity ∧
  d.priority = e.priority ∧ d.patientId = e.patientId ∧ d.description = e.description

/-- The document an authorized update-status request writes: the handler's
mutation followed by the `pre('save')` hook. -/
def updateStatusSaved (c : Ctx) (e : Emergency) (s : String) (notes : Option String) :
    Emergency :=
  preSave false (e.status != s) 0 c.random (c.clock (updateStatusHookTick s))
    (updateStatusDoc c e s notes)

/-- The document an authorized assign-ambulance request writes: the handler's
mutation followed by the `pre('save')` hook. -/
def assignAmbulanceSaved (c : Ctx) (e : Emergency) (a : String) (amb : User) (eta : Int) :
    Emergency :=
  preSave false (e.status != "assigned") 0 c.random (c.clock 1)
    (assignAmbulanceDoc c e a amb eta)

/-- The document a cancel request hands to the store: the handler's mutation
followed by the `pre('save')` hook. -/
def cancelSaved (c : Ctx) (e : Emergency) : Emergency :=
  preSave false (e.status != "cancelled") 0 c.random (c.clock 2) (cancelDoc c e)

/-! ## Sample data -/

/-- A sample user of the given type. -/
def sampleUser (first last userType : String) : User :=
  { firstName := first, lastName := last, phone := "555-0100", userType := userType,
    emergencyContacts := [] }

/-- A sample user collection: one user of each type the handlers tell apart. -/
def sampleUsers : String → Option User := fun k =>
  if k == "adm" then some (sampleUser "Ada" "Admin" "admin")
  else if k == "hos" then some (sampleUser "City" "Hospital" "hospital")
  else if k == "amb" then some (sampleUser "Max" "Driver" "ambulance")
  else if k == "amb2" then some (sampleUser "Eve" "Medic" "ambulance")
  else if k == "pat" then some (sampleUser "Pat" "Smith" "patient")
  else if k == "doc" then some (sampleUser "Dan" "Jones" "doctor")
  else none

/-- A sample stored emergency with the given subject, status and timeline. -/
def sampleRecord (patientId status : String) (timeline : List TimelineEvent) : Emergency :=
  { emergencyId := "EMG-1700000000000-AB12C", type := "cardiac", severity := "critical",
    priority := "immediate", patientId := patientId, patientName := "Pat Smith",
    patientPhone := "555-0100",
    location := { latitude := 48137000, longitude := 11575000, accuracy := none,
                  timestamp := some 0 },
    description := "chest pain", assignedAmbulance := none, status := status,
    timeline := timeline,
    responseTime :=
      { alertToAssignment := none, assignmentToArrival := none, totalResponseTime := none },
    chatMessages := [], contactsNotified := [], createdBy := some patientId,
    updatedBy := none, completedAt := none, cancelledAt := none }

/-- The timeline of a record that has only been created. -/
def sampleTimeline : List TimelineEvent :=
  [{ event := "created", timestamp := 0, description := "Emergency alert created",
     userId := some "pat", userType := none }]

/-- The usual cast of a string to an ObjectId: twenty-four hexadecimal
digits. -/
def isHexObjectId (s : String) : Bool :=
  s.data.length == 24 &&
  s.data.all (fun ch =>
    ('0' ≤ ch && ch ≤ '9') || ('a' ≤ ch && ch ≤ 'f') || ('A' ≤ ch && ch ≤ 'F'))

/-- A sample database: the sample users and one emergency, stored under
`"e1"` (the stored `_id`s are abbreviated); a string that names no stored
document casts to an ObjectId when it is twenty-four hexadecimal digits. -/
def sampleDb (e : Emergency) : Db :=
  { users := sampleUsers, emergencies := fun k => if k == "e1" then some e else none,
    castsToObjectId := isHexObjectId }

/-- A sample request context for the given actor; the `i`-th clock reading is
`1000 + i`. -/
def sampleCtx (actorId : String) : Ctx :=
  { actorId := actorId, clock := fun i => 1000 + i, random := "Z9Y8X", newId := "e2" }

/-- Every emergency stored in `db` is still stored in `db2`, under the same
`_id`, with a timeline that starts with its timeline in `db`. -/
def TimelineExtends (db db2 : Db) : Prop :=
  ∀ k e, db.emergencies k = some e →
    ∃ e2, db2.emergencies k = some e2 ∧ e.timeline <+: e2.timeline

/-- The event `t` is the earliest event of kind `kind` in `timeline`. -/
def FirstOfKind (timeline : List TimelineEvent) (kind : String) (t : TimelineEvent) : Prop :=
  ∃ before after, timeline = before ++ t :: after ∧ t.event = kind ∧
    ∀ x ∈ before, x.event ≠ kind

/-- A sample timeline with the three milestones: `created` at 1000 ms,
`assigned` at 61000 ms and `ambulance-arrived` at 481500 ms. -/
def milestoneTimeline : List TimelineEvent :=
  [{ event := "created", timestamp := 1000, description := "Emergency alert created",
     userId := some "pat", userType := none },
   { event := "assigned", timestamp := 61000, description := "Ambulance assigned: Max Driver",
     userId := some "adm", userType := none },
   { event := "ambulance-arrived", timestamp := 481500, description := "Ambulance on scene",
     userId := some "amb", userType := none }]

/-- A sample timeline in which the kind `assigned` occurs twice: at 61000 ms
and again at 90000 ms. -/
def duplicateTimeline : List TimelineEvent :=
  [{ event := "created", timestamp := 1000, description := "Emergency alert created",
     userId := some "pat", userType := none },
   { event := "assigned", timestamp := 61000, description := "Ambulance assigned: Max Driver",
     userId := some "adm", userType := none },
   { event := "assigned", timestamp := 90000, description := "Ambulance assigned: Eve Medic",
     userId := some "adm", userType := none },
   { event := "ambulance-arrived", timestamp := 481500, description := "Ambulance on scene",
     userId := some "amb2", userType := none }]

/-- A freshly created emergency as it is stored: status `pending`, a timeline
holding the `created` event, no assignment and no completion or cancellation
stamp. -/
def freshRecord : Emergency := sampleRecord "pat" "pending" sampleTimeline

/-- The documents the update-status handler builds along the sequence
`assigned`, `en-route`, `arrived`, `completed` from the fresh record, each
passed through the `pre('save')` hook, schema validation set aside. -/
def scenarioDoc : Emergency :=
  updateStatusSaved (sampleCtx "adm")
    (updateStatusSaved (sampleCtx "adm")
      (updateStatusSaved (sampleCtx "adm")
        (updateStatusSaved (sampleCtx "adm") freshRecord "assigned" none)
        "en-route" none)
      "arrived" none)
    "completed" none

/-- The document the create handler would have written when it reaches
`io.emit`, were its two `save` calls to resolve: `new Emergency(...)` through
the hook of the first `save`, then the `created` event and the hook of the
second. It is an auxiliary document: the handler itself does not get past its
first `save`. -/
def createFinalDoc (c : Ctx) (user : User) (body : CreateBody) : Emergency :=
  let e1 := preSave true false (c.clock 1) c.random (c.clock 1) (newEmergency c user body)
  preSave false false 0 c.random (c.clock 3)
    (e1.addTimelineEvent "created" "Emergency alert created" c.actorId (c.clock 2))

/-- The creation request of the scenario: type cardiac, severity critical,
priority immediate, a description and valid coordinates. -/
def scenarioBody : CreateBody :=
  { type := some "cardiac", severity := some "critical", priority := some "immediate",
    description := some "chest pain", latitude := some 48137000,
    longitude := some 11575000, accuracy := none }

/-- Every emergency stored in `db` satisfies `P`. -/
def Db.All (P : Emergency → Prop) (db : Db) : Prop :=
  ∀ k e, db.emergencies k = some e → P e

/-- Every emergency stored in `db` is still stored in `db2`, under the same
`_id`, as a document related to it by `R`. -/
def Db.Rel (R : Emergency → Emergency → Prop) (db db2 : Db) : Prop :=
  ∀ k e, db.emergencies k = some e → ∃ e2, db2.emergencies k = some e2 ∧ R e e2

/-- A record whose status is `completed` has a completion stamp, and a record
whose status is `cancelled` has a cancellation stamp. -/
def Stamped (e : Emergency) : Prop :=
  (e.status = "completed" → e.completedAt.isSome = true) ∧
  (e.status = "cancelled" → e.cancelledAt.isSome = true)

/-- A stamp that is set in `e` is set in `e2`. -/
def KeepsStamps (e e2 : Emergency) : Prop :=
  (e.completedAt.isSome = true → e2.completedAt.isSome = true) ∧
  (e.cancelledAt.isSome = true → e2.cancelledAt.isSome = true)

/-- The databases reached from `db0` by a sequence of create, update-status,
assign-ambulance and cancel requests, with any actors, bodies and clocks. -/
inductive Reachable (db0 : Db) : Db → Prop where
  | start : Reachable db0 db0
  | byCreate {db : Db} (c : Ctx) (body : CreateBody) :
      Reachable db0 db → Reachable db0 (create c db body).2
  | byUpdateStatus {db : Db} (c : Ctx) (id : String) (body : UpdateStatusBody) :
      Reachable db0 db → Reachable db0 (updateStatus c db id body).2
  | byAssignAmbulance {db : Db} (c : Ctx) (id : String) (body : AssignAmbulanceBody) :
      Reachable db0 db → Reachable db0 (assignAmbulance c db id body).2
  | byCancel {db : Db} (c : Ctx) (id : String) :
      Reachable db0 db → Reachable db0 (cancel c db id).2

/-- A request context like `sampleCtx` whose clock reads `5000 + i`: a later
request. -/
def laterCtx (actorId : String) : Ctx :=
  { actorId := actorId, clock := fun i => 5000 + i, random := "Q7W6E", newId := "e3" }

/-- A sample patient with two registered emergency contacts, stored under
`"pat"` in `contactsDb`. -/
def sampleUserWithContacts : User :=
  { firstName := "Pat", lastName := "Smith", phone := "555-0100", userType := "patient",
    emergencyContacts :=
      [{ name := "Sam Smith", relationship := "spouse", phone := "555-0101" },
       { name := "Kim Smith", relationship := "sibling", phone := "555-0102" }] }

/-- The document the update-location handler hands to `save`; the hook leaves
it as it is, the status not being modified. -/
def updateLocationSaved (c : Ctx) (e : Emergency) (latitude longitude : Int)
    (accuracy : Option Int) : Emergency :=
  preSave false false 0 c.random (c.clock 1)
    (updateLocationDoc c e latitude longitude accuracy)

/-- The document the chat handler hands to `save`; the hook leaves it as it
is, the status not being modified. -/
def postChatMessageSaved (c : Ctx) (e : Emergency) (user : User) (text : String) :
    Emergency :=
  preSave false false 0 c.random (c.clock 1) (postChatMessageDoc c e user text)

/-- The document `e2` has the identifier of `e`. -/
def KeepsIdentity (e e2 : Emergency) : Prop :=
  e2.emergencyId = e.emergencyId

/-- When `e` has an ambulance assignment, so has `e2`. -/
def KeepsAssignment (e e2 : Emergency) : Prop :=
  e.assignedAmbulance.isSome = true → e2.assignedAmbulance.isSome = true

/-- The document `e2` keeps the identifier of `e` and, when `e` has an
ambulance assignment, has one too. -/
def Frame (e e2 : Emergency) : Prop :=
  KeepsIdentity e e2 ∧ KeepsAssignment e e2

/-- A stored emergency to which the ambulance user `amb` has been
assigned. -/
def assignedRecord : Emergency :=
  { sampleRecord "pat" "assigned"
      (sampleTimeline ++
        [{ event := "assigned", timestamp := 500, description := "Ambulance assigned: Max Driver",
           userId := some "adm", userType := none }]) with
    assignedAmbulance := some
      { ambulanceId := "amb", driverName := "Max Driver", driverPhone := "555-0100",
        estimatedArrival := 900000, currentLocation := none } }

/-- The databases reached from `db0` by a sequence of requests to any of the
six handlers, with any actors, bodies and clocks. -/
inductive ReachableByAny (db0 : Db) : Db → Prop where
  | start : ReachableByAny db0 db0
  | byCreate {db : Db} (c : Ctx) (body : CreateBody) :
      ReachableByAny db0 db → ReachableByAny db0 (create c db body).2
  | byUpdateStatus {db : Db} (c : Ctx) (id : String) (body : UpdateStatusBody) :
      ReachableByAny db0 db → ReachableByAny db0 (updateStatus c db id body).2
  | byAssignAmbulance {db : Db} (c : Ctx) (id : String) (body : AssignAmbulanceBody) :
      ReachableByAny db0 db → ReachableByAny db0 (assignAmbulance c db id body).2
  | byUpdateLocation {db : Db} (c : Ctx) (id : String) (body : UpdateLocationBody) :
      ReachableByAny db0 db → ReachableByAny db0 (updateLocation c db id body).2
  | byPostChatMessage {db : Db} (c : Ctx) (id : String) (message : Option String) :
      ReachableByAny db0 db → ReachableByAny db0 (postChatMessage c db id message).2
  | byCancel {db : Db} (c : Ctx) (id : String) :
      ReachableByAny db0 db → ReachableByAny db0 (cancel c db id).2

/-- The `$in` list of the query of `GET /active` (`routes/emergency.js`). -/
def activeQueryStatuses : List String :=
  ["pending", "assigned", "en-route", "arrived", "in-transit"]

/-- Whether the query of `GET /active` selects the document. -/
def matchesActiveQuery (e : Emergency) : Bool :=
  activeQueryStatuses.contains e.status

/-- A sample database whose patient `"pat"` has two registered emergency
contacts; no emergency is stored. -/
def contactsDb : Db :=
  { users := fun k => if k == "pat" then some sampleUserWithContacts else none,
    emergencies := fun _ => none,
    castsToObjectId := isHexObjectId }

/-- The required fields of a creation request that are missing or malformed,
in the words of the design rather than of the validation chain: `type`,
`severity` and `priority` must be members of their enumerations (for `type`
the eight types of the schema), `description` must be a non-empty text and
the two coordinates must be numbers. The list names the offending fields in
the order of the validation chain. -/
def missingOrMalformedFields (body : CreateBody) : List String :=
  (if isIn typeEnum body.type then [] else ["type"]) ++
  (if isIn severityEnum body.severity then [] else ["severity"]) ++
  (if isIn priorityEnum body.priority then [] else ["priority"]) ++
  (if notEmpty body.description then [] else ["description"]) ++
  (if body.latitude.isSome then [] else ["latitude"]) ++
  (if body.longitude.isSome then [] else ["longitude"])

/-! ## Lemmas on the document methods and the handlers -/

theorem findById_doc {α : Type} (db : Db) (collection : String → Option α) (id : String)
    (a : α) (h : collection id = some a) : findById db collection id = .doc a := by
  simp [findById, h]

theorem findById_eq_doc {α : Type} {db : Db} {collection : String → Option α} {id : String}
    {a : α} (h : findById db collection id = .doc a) : collection id = some a := by
  unfold findById at h
  split at h
  · rename_i d hd
    cases h
    exact hd
  · split at h <;> cases h

theorem findById_null {α : Type} (db : Db) (collection : String → Option α) (id : String)
    (h : collection id = none) (hc : db.castsToObjectId id = true) :
    findById db collection id = .null := by
  simp [findById, h, hc]

theorem findById_castError {α : Type} (db : Db) (collection : String → Option α)
    (id : String) (h : collection id = none) (hc : db.castsToObjectId id = false) :
    findById db collection id = .castError := by
  simp [findById, h, hc]

theorem emit_io : emit io = none := rfl


theorem schemaValid_iff (e : Emergency) :
    schemaValid e = true ↔
      e.emergencyId ≠ "" ∧ e.type ∈ typeEnum ∧ e.severity ∈ severityEnum ∧
      e.priority ∈ priorityEnum ∧ e.patientId ≠ "" ∧ e.description ≠ "" ∧
      e.status ∈ statusEnum ∧ ∀ t ∈ e.timeline, t.event ∈ timelineEventEnum := by
  simp [schemaValid, and_assoc]

theorem schemaValid_transfer (e d : Emergency) (hk : sameKeyPaths e d)
    (hv : schemaValid e = true) (hs : d.status ∈ statusEnum)
    (ht : ∀ t ∈ d.timeline, t.event ∈ timelineEventEnum) : schemaValid d = true := by
  rw [schemaValid_iff] at hv ⊢
  obtain ⟨h1, h2, h3, h4, h5, h6⟩ := hk
  rw [h1, h2, h3, h4, h5, h6]
  exact ⟨hv.1, hv.2.1, hv.2.2.1, hv.2.2.2.1, hv.2.2.2.2.1, hv.2.2.2.2.2.1, hs, ht⟩

theorem updateResponseTimes_timeline (e : Emergency) :
    e.updateResponseTimes.timeline = e.timeline := by
  unfold Emergency.updateResponseTimes
  split <;> rfl

theorem updateResponseTimes_status (e : Emergency) :
    e.updateResponseTimes.status = e.status := by
  unfold Emergency.updateResponseTimes
  split <;> rfl

theorem updateResponseTimes_sameKeyPaths (e : Emergency) :
    sameKeyPaths e e.updateResponseTimes := by
  unfold Emergency.updateResponseTimes sameKeyPaths
  split <;> simp

theorem updateStatusDoc_status (c : Ctx) (e : Emergency) (s : String) (notes : Option String) :
    (updateStatusDoc c e s notes).status = s := by
  unfold updateStatusDoc
  simp only []
  split
  · rw [updateResponseTimes_status]; rfl
  · split <;> rfl

theorem updateStatusDoc_timeline (c : Ctx) (e : Emergency) (s : String) (notes : Option String) :
    (updateStatusDoc c e s notes).timeline = e.timeline ++
      [{ event := s, timestamp := c.clock 0, description := notesOrDefault notes s,
         userId := some c.actorId, userType := none }] := by
  unfold updateStatusDoc
  simp only []
  split
  · rw [updateResponseTimes_timeline]; rfl
  · split <;> rfl

theorem updateStatusDoc_sameKeyPaths (c : Ctx) (e : Emergency) (s : String)
    (notes : Option String) : sameKeyPaths e (updateStatusDoc c e s notes) := by
  unfold updateStatusDoc
  simp only []
  split
  · exact updateResponseTimes_sameKeyPaths _
  · split <;> simp [sameKeyPaths, Emergency.addTimelineEvent]

theorem schemaValid_updateStatusDoc (c : Ctx) (e : Emergency) (s : String) (notes : Option String)
    (hv : schemaValid e = true) (hs : s = "assigned" ∨ s = "completed") :
    schemaValid (updateStatusDoc c e s notes) = true := by
  apply schemaValid_transfer e _ (updateStatusDoc_sameKeyPaths c e s notes) hv
  · rw [updateStatusDoc_status]
    rcases hs with rfl | rfl <;> simp [statusEnum]
  · rw [updateStatusDoc_timeline]
    intro t ht
    rcases List.mem_append.mp ht with h | h
    · exact ((schemaValid_iff e).mp hv).2.2.2.2.2.2.2 t h
    · rw [List.mem_singleton] at h
      subst h
      rcases hs with rfl | rfl <;> simp [timelineEventEnum]

theorem save_existing (db : Db) (key : String) (m : Bool) (i : Int) (r : String) (t : Int)
    (doc : Emergency) :
    save db key false m i r t doc =
      if schemaValid doc = true then
        some (preSave false m i r t doc,
          { db with emergencies :=
              Function.update db.emergencies key (some (preSave false m i r t doc)) })
      else none := by
  simp [save]

theorem preSave_status (n m : Bool) (i : Int) (r : String) (t : Int) (e : Emergency) :
    (preSave n m i r t e).status = e.status := by
  unfold preSave
  simp only []
  split <;> split <;> rfl

theorem preSave_timeline (n m : Bool) (i : Int) (r : String) (t : Int) (e : Emergency) :
    (preSave n m i r t e).timeline = e.timeline ++
      (if m = true then
        [{ event := e.status, timestamp := t,
           description := "Emergency status changed to " ++ e.status,
           userId := none, userType := none }]
       else []) := by
  unfold preSave
  simp only []
  split <;> split <;> simp


theorem updateStatus_eq (c : Ctx) (db : Db) (id : String) (e : Emergency) (u : User)
    (body : UpdateStatusBody) (s : String) (hs : body.status = some s)
    (hin : s ∈ statusEnum) (he : db.emergencies id = some e)
    (hu : db.users c.actorId = some u) :
    updateStatus c db id body =
      if canUpdateStatus u e c.actorId = true then
        if schemaValid (updateStatusDoc c e s body.notes) = true then
          (serverError,
           { db with emergencies :=
               Function.update db.emergencies id (some (updateStatusSaved c e s body.notes)) })
        else (serverError, db)
      else (.failure .forbidden ["Not authorized to update emergency status"], db) := by
  have hc : statusEnum.contains s = true := by simpa using hin
  unfold updateStatus
  simp only [hs, hc, findById_doc db _ _ _ he, findById_doc db _ _ _ hu, save_existing,
    updateStatusSaved, emit_io]
  by_cases ha : canUpdateStatus u e c.actorId = true
  · by_cases hv : schemaValid (updateStatusDoc c e s body.notes) = true
    · simp [ha, hv]
    · simp [ha, hv]
  · simp [ha]

theorem updateStatus_kind_ne_invalidTransition (c : Ctx) (db : Db) (id : String)
    (body : UpdateStatusBody) :
    (updateStatus c db id body).1.kind ≠ some .invalidTransition := by
  unfold updateStatus
  repeat' split
  all_goals simp [Response.kind, serverError]


theorem assignAmbulanceErrors_nil (body : AssignAmbulanceBody)
    (h : assignAmbulanceErrors body = []) :
    ∃ a eta, body.ambulanceId = some a ∧ a ≠ "" ∧ body.estimatedArrival = some eta := by
  obtain ⟨a, eta⟩ := body
  cases a with
  | none => simp [assignAmbulanceErrors] at h
  | some a =>
    cases eta with
    | none => simp [assignAmbulanceErrors] at h
    | some eta =>
      refine ⟨a, eta, rfl, ?_, rfl⟩
      intro ha
      simp [assignAmbulanceErrors, ha] at h


theorem assignAmbulance_eq (c : Ctx) (db : Db) (id : String) (u : User)
    (body : AssignAmbulanceBody) (a : String) (eta : Int)
    (ha : body.ambulanceId = some a) (hne : a ≠ "") (heta : body.estimatedArrival = some eta)
    (hu : db.users c.actorId = some u) :
    assignAmbulance c db id body =
      if ["admin", "hospital"].contains u.userType = true then
        match findById db db.emergencies id with
        | .castError => (serverError, db)
        | .null => (.failure .notFound ["Emergency not found"], db)
        | .doc e =>
          match findById db db.users a with
          | .castError => (serverError, db)
          | .null => (.failure .notFound ["Ambulance not found"], db)
          | .doc amb =>
            if amb.userType = "ambulance" then
              if schemaValid (assignAmbulanceDoc c e a amb eta) = true then
                (serverError,
                 { db with
                   emergencies := Function.update db.emergencies id
                     (some (assignAmbulanceSaved c e a amb eta)) })
              else (serverError, db)
            else (.failure .notFound ["Ambulance not found"], db)
      else (.failure .forbidden ["Not authorized to assign ambulances"], db) := by
  obtain ⟨a0, eta0⟩ := body
  simp only at ha heta
  subst ha heta
  unfold assignAmbulance
  simp only [findById_doc db _ _ _ hu, save_existing, assignAmbulanceSaved, emit_io]
  by_cases hr : ["admin", "hospital"].contains u.userType = true
  · simp only [hr, if_true]
    cases he : findById db db.emergencies id with
    | castError => simp [hne]
    | null => simp [hne]
    | doc e =>
      cases hamb : findById db db.users a with
      | castError => simp [hne]
      | null => simp [hne]
      | doc amb =>
        by_cases hk : amb.userType = "ambulance"
        · by_cases hv : schemaValid (assignAmbulanceDoc c e a amb eta) = true
          · simp [hne, hk, hv]
          · simp [hne, hk, hv]
        · simp [hne, hk]
  · have hr2 := hr
    simp only [List.contains_cons, List.contains_nil, Bool.or_false, Bool.or_eq_true,
      beq_iff_eq, not_or] at hr2
    simp [hne, hr2.1, hr2.2]

theorem assignAmbulance_kind_ne_invalidTransition (c : Ctx) (db : Db) (id : String)
    (body : AssignAmbulanceBody) :
    (assignAmbulance c db id body).1.kind ≠ some .invalidTransition := by
  unfold assignAmbulance
  repeat' split
  all_goals simp [Response.kind, serverError]

theorem cancel_kind_ne_invalidTransition (c : Ctx) (db : Db) (id : String) :
    (cancel c db id).1.kind ≠ some .invalidTransition := by
  unfold cancel cancelSave
  repeat' split
  all_goals simp [Response.kind, serverError]

theorem cancel_forbidden (c : Ctx) (db : Db) (id : String) (e : Emergency) (u : User)
    (he : db.emergencies id = some e) (hu : db.users c.actorId = some u)
    (hp : e.patientId ≠ c.actorId) (hr : u.userType ≠ "admin") :
    cancel c db id = (.failure .forbidden ["Not authorized to cancel emergency"], db) := by
  unfold cancel
  simp [findById_doc db _ _ _ he, findById_doc db _ _ _ hu, hp, hr]

theorem assignAmbulanceDoc_sameKeyPaths (c : Ctx) (e : Emergency) (a : String) (amb : User)
    (eta : Int) : sameKeyPaths e (assignAmbulanceDoc c e a amb eta) := by
  simp [sameKeyPaths, assignAmbulanceDoc, Emergency.addTimelineEvent]

theorem schemaValid_assignAmbulanceDoc (c : Ctx) (e : Emergency) (a : String) (amb : User)
    (eta : Int) (hv : schemaValid e = true) :
    schemaValid (assignAmbulanceDoc c e a amb eta) = true := by
  apply schemaValid_transfer e _ (assignAmbulanceDoc_sameKeyPaths c e a amb eta) hv
  · simp [assignAmbulanceDoc, Emergency.addTimelineEvent, statusEnum]
  · intro t ht
    simp only [assignAmbulanceDoc, Emergency.addTimelineEvent, List.mem_append,
      List.mem_singleton] at ht
    rcases ht with h | h
    · exact ((schemaValid_iff e).mp hv).2.2.2.2.2.2.2 t h
    · subst h
      simp [timelineEventEnum]


theorem preSave_existing (m : Bool) (i : Int) (r : String) (t : Int) (e : Emergency) :
    preSave false m i r t e =
      { e with
        timeline := e.timeline ++
          (if m = true then
            [{ event := e.status, timestamp := t,
               description := "Emergency status changed to " ++ e.status,
               userId := none, userType := none }]
           else []) } := by
  cases m <;> simp [preSave]

theorem assignAmbulance_db (c : Ctx) (db : Db) (id : String) (body : AssignAmbulanceBody) :
    (assignAmbulance c db id body).2 = db ∨
    ∃ e a amb eta,
      db.emergencies id = some e ∧ body.ambulanceId = some a ∧
      body.estimatedArrival = some eta ∧ db.users a = some amb ∧
      amb.userType = "ambulance" ∧
      (assignAmbulance c db id body).2 =
        { db with
          emergencies := Function.update db.emergencies id
            (some (assignAmbulanceSaved c e a amb eta)) } := by
  obtain ⟨oa, oeta⟩ := body
  cases oa with
  | none => exact Or.inl (by simp [assignAmbulance])
  | some a =>
    cases oeta with
    | none => exact Or.inl (by simp [assignAmbulance])
    | some eta =>
      by_cases hne : a = ""
      · exact Or.inl (by simp [assignAmbulance, hne])
      · cases hu : db.users c.actorId with
        | none =>
          refine Or.inl ?_
          by_cases hcast : db.castsToObjectId c.actorId = true
          · simp [assignAmbulance, hne, findById, hu, hcast]
          · simp [assignAmbulance, hne, findById, hu, hcast]
        | some u =>
          rw [assignAmbulance_eq c db id u _ a eta rfl hne rfl hu]
          by_cases hr : ["admin", "hospital"].contains u.userType = true
          · rw [if_pos hr]
            cases he : findById db db.emergencies id with
            | castError => exact Or.inl rfl
            | null => exact Or.inl rfl
            | doc e =>
              cases hamb : findById db db.users a with
              | castError => exact Or.inl rfl
              | null => exact Or.inl rfl
              | doc amb =>
                by_cases hk : amb.userType = "ambulance"
                · by_cases hv : schemaValid (assignAmbulanceDoc c e a amb eta) = true
                  · refine Or.inr ⟨e, a, amb, eta, findById_eq_doc he, rfl, rfl,
                      findById_eq_doc hamb, hk, ?_⟩
                    simp only [if_pos hk, if_pos hv]
                  · refine Or.inl ?_
                    simp only [if_pos hk, if_neg hv]
                · refine Or.inl ?_
                  simp only [if_neg hk]
          · rw [if_neg hr]
            exact Or.inl rfl

theorem assignAmbulance_stores (c : Ctx) (db : Db) (id : String) (e : Emergency)
    (u amb : User) (a : String) (eta : Int)
    (he : db.emergencies id = some e) (hu : db.users c.actorId = some u)
    (hr : u.userType = "admin" ∨ u.userType = "hospital") (hne : a ≠ "")
    (hamb : db.users a = some amb) (hk : amb.userType = "ambulance")
    (hv : schemaValid e = true) :
    assignAmbulance c db id { ambulanceId := some a, estimatedArrival := some eta } =
      (serverError,
       { db with
         emergencies := Function.update db.emergencies id
           (some (assignAmbulanceSaved c e a amb eta)) }) := by
  have hc : ["admin", "hospital"].contains u.userType = true := by
    rcases hr with h | h <;> simp [h]
  rw [assignAmbulance_eq c db id u _ a eta rfl hne rfl hu, if_pos hc]
  simp only [findById_doc db _ _ _ he, findById_doc db _ _ _ hamb, if_pos hk,
    if_pos (schemaValid_assignAmbulanceDoc c e a amb eta hv)]

theorem assignAmbulanceSaved_timeline (c : Ctx) (e : Emergency) (a : String) (amb : User)
    (eta : Int) :
    (assignAmbulanceSaved c e a amb eta).timeline =
      e.timeline ++
        [{ event := "assigned", timestamp := c.clock 0,
           description := "Ambulance assigned: " ++ amb.fullName,
           userId := some c.actorId, userType := none }] ++
        (if e.status = "assigned" then []
         else [{ event := "assigned", timestamp := c.clock 1,
                 description := "Emergency status changed to assigned",
                 userId := none, userType := none }]) := by
  by_cases h : e.status = "assigned" <;>
    simp [assignAmbulanceSaved, preSave_existing, assignAmbulanceDoc,
      Emergency.addTimelineEvent, h]

theorem updateStatus_db (c : Ctx) (db : Db) (id : String) (body : UpdateStatusBody) :
    (updateStatus c db id body).2 = db ∨
    ∃ e s,
      db.emergencies id = some e ∧ body.status = some s ∧ s ∈ statusEnum ∧
      (updateStatus c db id body).2 =
        { db with
          emergencies := Function.update db.emergencies id
            (some (updateStatusSaved c e s body.notes)) } := by
  cases hs : body.status with
  | none => exact Or.inl (by simp [updateStatus, hs])
  | some s =>
    by_cases hin : s ∈ statusEnum
    · cases he : db.emergencies id with
      | none =>
        refine Or.inl ?_
        by_cases hcast : db.castsToObjectId id = true
        · simp [updateStatus, hs, hin, findById, he, hcast]
        · simp [updateStatus, hs, hin, findById, he, hcast]
      | some e =>
        cases hu : db.users c.actorId with
        | none =>
          refine Or.inl ?_
          by_cases hcast : db.castsToObjectId c.actorId = true
          · simp [updateStatus, hs, hin, findById, he, hu, hcast]
          · simp [updateStatus, hs, hin, findById, he, hu, hcast]
        | some u =>
          rw [updateStatus_eq c db id e u body s hs hin he hu]
          by_cases ha : canUpdateStatus u e c.actorId = true
          · rw [if_pos ha]
            by_cases hv : schemaValid (updateStatusDoc c e s body.notes) = true
            · rw [if_pos hv]
              exact Or.inr ⟨e, s, rfl, rfl, hin, rfl⟩
            · rw [if_neg hv]
              exact Or.inl rfl
          · rw [if_neg ha]
            exact Or.inl rfl
    · exact Or.inl (by simp [updateStatus, hs, hin])

theorem updateStatus_stores (c : Ctx) (db : Db) (id : String) (e : Emergency) (u : User)
    (body : UpdateStatusBody) (s : String)
    (he : db.emergencies id = some e) (hu : db.users c.actorId = some u)
    (ha : canUpdateStatus u e c.actorId = true) (hs : body.status = some s)
    (hv : schemaValid e = true) (hs2 : s = "assigned" ∨ s = "completed") :
    updateStatus c db id body =
      (serverError,
       { db with
         emergencies := Function.update db.emergencies id
           (some (updateStatusSaved c e s body.notes)) }) := by
  have hin : s ∈ statusEnum := by
    rcases hs2 with h | h <;> rw [h] <;> decide
  rw [updateStatus_eq c db id e u body s hs hin he hu, if_pos ha,
    if_pos (schemaValid_updateStatusDoc c e s body.notes hv hs2)]

theorem updateStatusSaved_status (c : Ctx) (e : Emergency) (s : String)
    (notes : Option String) : (updateStatusSaved c e s notes).status = s := by
  rw [updateStatusSaved, preSave_status, updateStatusDoc_status]

theorem updateStatusSaved_timeline (c : Ctx) (e : Emergency) (s : String)
    (notes : Option String) :
    (updateStatusSaved c e s notes).timeline =
      e.timeline ++
        [{ event := s, timestamp := c.clock 0, description := notesOrDefault notes s,
           userId := some c.actorId, userType := none }] ++
        (if e.status = s then []
         else [{ event := s, timestamp := c.clock (updateStatusHookTick s),
                 description := "Emergency status changed to " ++ s,
                 userId := none, userType := none }]) := by
  rw [updateStatusSaved, preSave_timeline, updateStatusDoc_timeline, updateStatusDoc_status]
  by_cases h : e.status = s <;> simp [h]

theorem cancelSaved_timeline (c : Ctx) (e : Emergency) :
    (cancelSaved c e).timeline =
      e.timeline ++
        [{ event := "cancelled", timestamp := c.clock 1,
           description := "Emergency cancelled by user",
           userId := some c.actorId, userType := none }] ++
        (if e.status = "cancelled" then []
         else [{ event := "cancelled", timestamp := c.clock 2,
                 description := "Emergency status changed to cancelled",
                 userId := none, userType := none }]) := by
  by_cases h : e.status = "cancelled" <;>
    simp [cancelSaved, preSave_existing, cancelDoc, Emergency.addTimelineEvent, h]

theorem cancelSave_eq (c : Ctx) (db : Db) (id : String) (e : Emergency) :
    cancelSave c db id e =
      if schemaValid (cancelDoc c e) = true then
        (serverError,
         { db with
           emergencies := Function.update db.emergencies id (some (cancelSaved c e)) })
      else (serverError, db) := by
  unfold cancelSave
  rw [save_existing]
  by_cases hv : schemaValid (cancelDoc c e) = true
  · simp [hv, cancelSaved, emit_io]
  · simp [hv]

theorem schemaValid_cancelDoc (c : Ctx) (e : Emergency) :
    schemaValid (cancelDoc c e) = false := by
  simp [schemaValid, cancelDoc, Emergency.addTimelineEvent, timelineEventEnum]

theorem cancelSave_db (c : Ctx) (db : Db) (id : String) (e : Emergency) :
    cancelSave c db id e = (serverError, db) := by
  rw [cancelSave_eq, schemaValid_cancelDoc]
  simp

theorem cancel_not_success (c : Ctx) (db : Db) (id : String) :
    (cancel c db id).1.isSuccess = false := by
  unfold cancel
  simp only [cancelSave_db]
  repeat' split
  all_goals rfl

theorem cancel_db (c : Ctx) (db : Db) (id : String) : (cancel c db id).2 = db := by
  unfold cancel
  simp only [cancelSave_db]
  repeat' split
  all_goals rfl

theorem TimelineExtends.refl (db : Db) : TimelineExtends db db :=
  fun _ e he => ⟨e, he, List.prefix_refl _⟩

theorem TimelineExtends.trans {db1 db2 db3 : Db} (h12 : TimelineExtends db1 db2)
    (h23 : TimelineExtends db2 db3) : TimelineExtends db1 db3 := by
  intro k e he
  obtain ⟨e2, he2, hp2⟩ := h12 k e he
  obtain ⟨e3, he3, hp3⟩ := h23 k e2 he2
  exact ⟨e3, he3, hp2.trans hp3⟩

theorem preSave_timeline_extends (n m : Bool) (i : Int) (r : String) (t : Int)
    (e : Emergency) : e.timeline <+: (preSave n m i r t e).timeline := by
  rw [preSave_timeline]
  exact List.prefix_append _ _

theorem save_result {db db1 : Db} {key : String} {n m : Bool} {i : Int} {r : String}
    {t : Int} {doc saved : Emergency}
    (h : save db key n m i r t doc = some (saved, db1)) :
    saved = preSave n m i r t doc ∧
    db1.emergencies = Function.update db.emergencies key (some saved) ∧
    (n = true → db.emergencies key = none) := by
  unfold save at h
  split at h
  · exact absurd h (by simp)
  · rename_i hn
    split at h
    · simp only [Option.some.injEq, Prod.mk.injEq] at h
      obtain ⟨h1, h2⟩ := h
      subst h1
      subst h2
      refine ⟨rfl, rfl, ?_⟩
      intro hnew
      cases hk : db.emergencies key with
      | none => rfl
      | some x => simp [hnew, hk] at hn
    · exact absurd h (by simp)

theorem save_extends {db db1 : Db} {key : String} {n m : Bool} {i : Int} {r : String}
    {t : Int} {doc saved : Emergency}
    (h : save db key n m i r t doc = some (saved, db1))
    (hp : ∀ e, db.emergencies key = some e → e.timeline <+: doc.timeline) :
    TimelineExtends db db1 := by
  obtain ⟨hs, hdb, _⟩ := save_result h
  intro k e he
  by_cases hk : k = key
  · subst hk
    refine ⟨saved, by rw [hdb]; simp, ?_⟩
    rw [hs]
    exact (hp e he).trans (preSave_timeline_extends _ _ _ _ _ _)
  · exact ⟨e, by rw [hdb, Function.update_noteq hk]; exact he, List.prefix_refl _⟩

theorem updateStatusDoc_timeline_extends (c : Ctx) (e : Emergency) (s : String)
    (notes : Option String) : e.timeline <+: (updateStatusDoc c e s notes).timeline := by
  rw [updateStatusDoc_timeline]
  exact List.prefix_append _ _

theorem updateStatus_extends (c : Ctx) (db : Db) (id : String) (body : UpdateStatusBody) :
    TimelineExtends db (updateStatus c db id body).2 := by
  unfold updateStatus
  repeat' split
  all_goals first
    | exact TimelineExtends.refl db
    | (have he := findById_eq_doc ‹findById db db.emergencies id = Found.doc _›
       refine save_extends (by assumption) ?_
       intro e0 he0
       rw [he] at he0
       cases he0
       exact updateStatusDoc_timeline_extends _ _ _ _)

theorem assignAmbulance_extends (c : Ctx) (db : Db) (id : String)
    (body : AssignAmbulanceBody) : TimelineExtends db (assignAmbulance c db id body).2 := by
  unfold assignAmbulance
  repeat' split
  all_goals first
    | exact TimelineExtends.refl db
    | (have he := findById_eq_doc ‹findById db db.emergencies id = Found.doc _›
       refine save_extends (by assumption) ?_
       intro e0 he0
       rw [he] at he0
       cases he0
       simp [assignAmbulanceDoc, Emergency.addTimelineEvent])

theorem cancelSave_extends (c : Ctx) (db : Db) (id : String) (e : Emergency)
    (he : db.emergencies id = some e) : TimelineExtends db (cancelSave c db id e).2 := by
  unfold cancelSave
  split
  · exact TimelineExtends.refl db
  · refine save_extends (by assumption) ?_
    intro e0 he0
    rw [he] at he0
    cases he0
    simp [cancelDoc, Emergency.addTimelineEvent]

theorem cancel_extends (c : Ctx) (db : Db) (id : String) :
    TimelineExtends db (cancel c db id).2 := by
  unfold cancel
  repeat' split
  all_goals first
    | exact TimelineExtends.refl db
    | exact cancelSave_extends c db id _ (findById_eq_doc (by assumption))

theorem updateLocationSave_extends (c : Ctx) (db : Db) (id : String) (e : Emergency)
    (lat lon : Int) (acc : Option Int) (he : db.emergencies id = some e) :
    TimelineExtends db (updateLocationSave c db id e lat lon acc).2 := by
  unfold updateLocationSave
  split
  · exact TimelineExtends.refl db
  · refine save_extends (by assumption) ?_
    intro e0 he0
    rw [he] at he0
    cases he0
    simp [updateLocationDoc]

theorem updateLocation_extends (c : Ctx) (db : Db) (id : String)
    (body : UpdateLocationBody) : TimelineExtends db (updateLocation c db id body).2 := by
  unfold updateLocation
  repeat' split
  all_goals first
    | exact TimelineExtends.refl db
    | exact updateLocationSave_extends c db id _ _ _ _ (findById_eq_doc (by assumption))

theorem postChatMessage_extends (c : Ctx) (db : Db) (id : String)
    (message : Option String) : TimelineExtends db (postChatMessage c db id message).2 := by
  unfold postChatMessage
  repeat' split
  all_goals first
    | exact TimelineExtends.refl db
    | (have he := findById_eq_doc ‹findById db db.emergencies id = Found.doc _›
       refine save_extends (by assumption) ?_
       intro e0 he0
       rw [he] at he0
       cases he0
       simp [postChatMessageDoc])

theorem create_extends (c : Ctx) (db : Db) (body : CreateBody) :
    TimelineExtends db (create c db body).2 := by
  unfold create
  split
  · exact TimelineExtends.refl db
  · split
    · exact TimelineExtends.refl db
    · exact TimelineExtends.refl db
    · split
      · exact TimelineExtends.refl db
      · rename_i e1 db1 h1
        have x1 : TimelineExtends db db1 :=
          save_extends h1 (fun e0 he0 => by
            rw [(save_result h1).2.2 rfl] at he0
            cases he0)
        have hdb1 : db1.emergencies c.newId = some e1 := by
          rw [(save_result h1).2.1]
          simp
        split
        · exact x1
        · rename_i e2 db2 h2
          have x2 : TimelineExtends db1 db2 :=
            save_extends h2 (fun e0 he0 => by
              rw [hdb1] at he0
              cases he0
              simp [Emergency.addTimelineEvent])
          have hdb2 : db2.emergencies c.newId = some e2 := by
            rw [(save_result h2).2.1]
            simp
          split
          · exact x1.trans x2
          · split
            · split
              · exact x1.trans x2
              · rename_i e3 db3 h3
                have x3 : TimelineExtends db2 db3 :=
                  save_extends h3 (fun e0 he0 => by
                    rw [hdb2] at he0
                    cases he0
                    simp [notifyContacts])
                exact (x1.trans x2).trans x3
            · exact x1.trans x2

theorem find?_firstOfKind (timeline : List TimelineEvent) (kind : String)
    (h : ∃ t ∈ timeline, t.event = kind) :
    ∃ t, timeline.find? (fun x => x.event == kind) = some t ∧ FirstOfKind timeline kind t := by
  cases hf : timeline.find? (fun x => x.event == kind) with
  | none =>
    obtain ⟨t, ht, hk⟩ := h
    rw [List.find?_eq_none] at hf
    exact absurd (by simpa using hk) (hf t ht)
  | some t =>
    refine ⟨t, rfl, ?_⟩
    obtain ⟨hp, before, after, hsplit, hbefore⟩ := List.find?_eq_some.mp hf
    refine ⟨before, after, hsplit, by simpa using hp, ?_⟩
    intro x hx
    simpa using hbefore x hx

theorem two_le_length_of_two_kinds (timeline : List TimelineEvent) (c v : TimelineEvent)
    (hc : c ∈ timeline) (hv : v ∈ timeline) (hne : c.event ≠ v.event) :
    2 ≤ timeline.length := by
  match timeline, hc, hv with
  | [], hc, _ => simp at hc
  | [x], hc, hv =>
    simp only [List.mem_singleton] at hc hv
    rw [hc, hv] at hne
    exact absurd rfl hne
  | _ :: _ :: _, _, _ => simp

theorem firstOfKind_find? {timeline : List TimelineEvent} {kind : String}
    {t : TimelineEvent} (h : FirstOfKind timeline kind t) :
    timeline.find? (fun x => x.event == kind) = some t := by
  obtain ⟨before, after, hsplit, hk, hbefore⟩ := h
  rw [List.find?_eq_some]
  refine ⟨by simpa using hk, before, after, hsplit, ?_⟩
  intro x hx
  simpa using hbefore x hx

theorem firstOfKind_mem {timeline : List TimelineEvent} {kind : String}
    {t : TimelineEvent} (h : FirstOfKind timeline kind t) : t ∈ timeline := by
  obtain ⟨before, after, hsplit, _, _⟩ := h
  rw [hsplit]
  simp

theorem find?_absent (timeline : List TimelineEvent) (kind : String)
    (h : ∀ t ∈ timeline, t.event ≠ kind) :
    timeline.find? (fun x => x.event == kind) = none := by
  rw [List.find?_eq_none]
  intro x hx
  simpa using h x hx

theorem schemaValid_newEmergency (c : Ctx) (user : User) (body : CreateBody) :
    schemaValid (newEmergency c user body) = false := by
  simp [schemaValid, newEmergency]

theorem save_newEmergency (db : Db) (key : String) (m : Bool) (i : Int) (r : String)
    (t : Int) (c : Ctx) (user : User) (body : CreateBody) :
    save db key true m i r t (newEmergency c user body) = none := by
  unfold save
  split
  · rfl
  · simp [schemaValid_newEmergency]

theorem create_eq (c : Ctx) (db : Db) (body : CreateBody) :
    create c db body =
      if createErrors body = [] then
        match findById db db.users c.actorId with
        | .castError => (serverError, db)
        | .null => (.failure .notFound ["User not found"], db)
        | .doc _ => (serverError, db)
      else (.failure .validationError (createErrors body), db) := by
  unfold create
  by_cases h : createErrors body = []
  · simp only [h, bne_self_eq_false, Bool.false_eq_true, if_false, if_true]
    cases findById db db.users c.actorId with
    | castError => rfl
    | null => rfl
    | doc user => simp only [save_newEmergency]
  · simp [h]

theorem preSave_stamps (n m : Bool) (i : Int) (r : String) (t : Int) (e : Emergency) :
    (preSave n m i r t e).completedAt = e.completedAt ∧
    (preSave n m i r t e).cancelledAt = e.cancelledAt := by
  unfold preSave
  simp only []
  split <;> split <;> exact ⟨rfl, rfl⟩

theorem updateResponseTimes_stamps (e : Emergency) :
    e.updateResponseTimes.completedAt = e.completedAt ∧
    e.updateResponseTimes.cancelledAt = e.cancelledAt := by
  unfold Emergency.updateResponseTimes
  split <;> exact ⟨rfl, rfl⟩

theorem updateStatusDoc_completedAt (c : Ctx) (e : Emergency) (s : String)
    (notes : Option String) :
    (updateStatusDoc c e s notes).completedAt =
      if s = "completed" then some (c.clock 1) else e.completedAt := by
  unfold updateStatusDoc
  simp only []
  by_cases h1 : s = "completed"
  · simp only [h1, beq_self_eq_true, if_true]
    rw [(updateResponseTimes_stamps _).1]
  · have hb : (s == "completed") = false := by simpa using h1
    simp only [hb, h1, if_false, Bool.false_eq_true]
    split <;> rfl

theorem updateStatusDoc_cancelledAt (c : Ctx) (e : Emergency) (s : String)
    (notes : Option String) :
    (updateStatusDoc c e s notes).cancelledAt =
      if s = "cancelled" then some (c.clock 1) else e.cancelledAt := by
  unfold updateStatusDoc
  simp only []
  by_cases h1 : s = "completed"
  · simp only [h1, beq_self_eq_true, if_true]
    rw [(updateResponseTimes_stamps _).2]
    simp [Emergency.addTimelineEvent]
  · have hb : (s == "completed") = false := by simpa using h1
    simp only [hb, if_false, Bool.false_eq_true]
    by_cases h2 : s = "cancelled"
    · simp [h2]
    · have hb2 : (s == "cancelled") = false := by simpa using h2
      simp [hb2, h2, Emergency.addTimelineEvent]

theorem stamped_updateStatusSaved (c : Ctx) (e : Emergency) (s : String)
    (notes : Option String) :
    Stamped (updateStatusSaved c e s notes) ∧ KeepsStamps e (updateStatusSaved c e s notes) := by
  unfold Stamped KeepsStamps updateStatusSaved
  rw [preSave_status, (preSave_stamps _ _ _ _ _ _).1, (preSave_stamps _ _ _ _ _ _).2,
    updateStatusDoc_status, updateStatusDoc_completedAt, updateStatusDoc_cancelledAt]
  refine ⟨⟨?_, ?_⟩, ⟨?_, ?_⟩⟩
  · intro h
    simp [h]
  · intro h
    simp [h]
  · intro h
    split
    · rfl
    · exact h
  · intro h
    split
    · rfl
    · exact h

theorem stamped_assignAmbulanceSaved (c : Ctx) (e : Emergency) (a : String) (amb : User)
    (eta : Int) :
    Stamped (assignAmbulanceSaved c e a amb eta) ∧
    KeepsStamps e (assignAmbulanceSaved c e a amb eta) := by
  simp [Stamped, KeepsStamps, assignAmbulanceSaved, preSave_existing, assignAmbulanceDoc,
    Emergency.addTimelineEvent]

theorem stamped_cancelSaved (c : Ctx) (e : Emergency) :
    Stamped (cancelSaved c e) ∧ KeepsStamps e (cancelSaved c e) := by
  simp [Stamped, KeepsStamps, cancelSaved, preSave_existing, cancelDoc,
    Emergency.addTimelineEvent]

theorem keepsStamps_refl (e : Emergency) : KeepsStamps e e := ⟨id, id⟩

theorem keepsStamps_trans {e1 e2 e3 : Emergency} (h12 : KeepsStamps e1 e2)
    (h23 : KeepsStamps e2 e3) : KeepsStamps e1 e3 :=
  ⟨fun h => h23.1 (h12.1 h), fun h => h23.2 (h12.2 h)⟩

theorem save_step {P : Emergency → Prop} {R : Emergency → Emergency → Prop}
    (hrefl : ∀ e, R e e)
    {db db1 : Db} {key : String} {n m : Bool} {i : Int} {r : String} {t : Int}
    {doc saved : Emergency}
    (h : save db key n m i r t doc = some (saved, db1))
    (hall : Db.All P db) (hP : P (preSave n m i r t doc))
    (hR : ∀ e, db.emergencies key = some e → R e (preSave n m i r t doc)) :
    Db.All P db1 ∧ Db.Rel R db db1 := by
  obtain ⟨hs, hdb, _⟩ := save_result h
  subst hs
  constructor
  · intro k e he
    rw [hdb] at he
    by_cases hk : k = key
    · subst hk
      simp only [Function.update_same, Option.some.injEq] at he
      rw [← he]
      exact hP
    · rw [Function.update_noteq hk] at he
      exact hall k e he
  · intro k e he
    by_cases hk : k = key
    · subst hk
      exact ⟨_, by rw [hdb]; simp, hR e he⟩
    · exact ⟨e, by rw [hdb, Function.update_noteq hk]; exact he, hrefl e⟩

theorem dbRel_refl {R : Emergency → Emergency → Prop} (hrefl : ∀ e, R e e) (db : Db) :
    Db.Rel R db db :=
  fun _ e he => ⟨e, he, hrefl e⟩

theorem updateStatus_stamps (c : Ctx) (db : Db) (id : String) (body : UpdateStatusBody)
    (hall : Db.All Stamped db) :
    Db.All Stamped (updateStatus c db id body).2 ∧
    Db.Rel KeepsStamps db (updateStatus c db id body).2 := by
  unfold updateStatus
  repeat' split
  all_goals first
    | exact ⟨hall, dbRel_refl keepsStamps_refl db⟩
    | (have he := findById_eq_doc ‹findById db db.emergencies id = Found.doc _›
       refine save_step keepsStamps_refl (by assumption) hall ?_ ?_
       · exact (stamped_updateStatusSaved _ _ _ _).1
       · intro e0 he0
         rw [he] at he0
         cases he0
         exact (stamped_updateStatusSaved _ _ _ _).2)

theorem assignAmbulance_stamps (c : Ctx) (db : Db) (id : String)
    (body : AssignAmbulanceBody) (hall : Db.All Stamped db) :
    Db.All Stamped (assignAmbulance c db id body).2 ∧
    Db.Rel KeepsStamps db (assignAmbulance c db id body).2 := by
  unfold assignAmbulance
  repeat' split
  all_goals first
    | exact ⟨hall, dbRel_refl keepsStamps_refl db⟩
    | (have he := findById_eq_doc ‹findById db db.emergencies id = Found.doc _›
       refine save_step keepsStamps_refl (by assumption) hall ?_ ?_
       · exact (stamped_assignAmbulanceSaved _ _ _ _ _).1
       · intro e0 he0
         rw [he] at he0
         cases he0
         exact (stamped_assignAmbulanceSaved _ _ _ _ _).2)

theorem cancelSave_stamps (c : Ctx) (db : Db) (id : String) (e : Emergency)
    (he : db.emergencies id = some e) (hall : Db.All Stamped db) :
    Db.All Stamped (cancelSave c db id e).2 ∧
    Db.Rel KeepsStamps db (cancelSave c db id e).2 := by
  unfold cancelSave
  split
  · exact ⟨hall, dbRel_refl keepsStamps_refl db⟩
  · refine save_step keepsStamps_refl (by assumption) hall ?_ ?_
    · exact (stamped_cancelSaved _ _).1
    · intro e0 he0
      rw [he] at he0
      cases he0
      exact (stamped_cancelSaved _ _).2

theorem cancel_stamps (c : Ctx) (db : Db) (id : String) (hall : Db.All Stamped db) :
    Db.All Stamped (cancel c db id).2 ∧ Db.Rel KeepsStamps db (cancel c db id).2 := by
  unfold cancel
  repeat' split
  all_goals first
    | exact ⟨hall, dbRel_refl keepsStamps_refl db⟩
    | exact cancelSave_stamps c db id _ (findById_eq_doc (by assumption)) hall

theorem create_db (c : Ctx) (db : Db) (body : CreateBody) : (create c db body).2 = db := by
  rw [create_eq]
  split
  · split <;> rfl
  · rfl

theorem dbRel_trans {R : Emergency → Emergency → Prop}
    (htrans : ∀ a b d : Emergency, R a b → R b d → R a d) {db1 db2 db3 : Db}
    (h12 : Db.Rel R db1 db2) (h23 : Db.Rel R db2 db3) : Db.Rel R db1 db3 := by
  intro k e he
  obtain ⟨e2, he2, hr2⟩ := h12 k e he
  obtain ⟨e3, he3, hr3⟩ := h23 k e2 he2
  exact ⟨e3, he3, htrans _ _ _ hr2 hr3⟩

theorem updateLocationSave_eq (c : Ctx) (db : Db) (id : String) (e : Emergency)
    (lat lon : Int) (acc : Option Int) :
    updateLocationSave c db id e lat lon acc =
      if schemaValid e = true then
        (serverError,
         { db with
           emergencies := Function.update db.emergencies id
             (some (updateLocationSaved c e lat lon acc)) })
      else (serverError, db) := by
  have hv : schemaValid (updateLocationDoc c e lat lon acc) = schemaValid e := by
    simp [schemaValid, updateLocationDoc]
  unfold updateLocationSave
  rw [save_existing, hv]
  by_cases h : schemaValid e = true
  · simp [h, updateLocationSaved, emit_io]
  · simp [h]

theorem updateLocation_eq (c : Ctx) (db : Db) (id : String) (e : Emergency)
    (body : UpdateLocationBody) (lat lon : Int)
    (he : db.emergencies id = some e)
    (hlat : body.latitude = some lat) (hlon : body.longitude = some lon) :
    updateLocation c db id body =
      if e.patientId = c.actorId then updateLocationSave c db id e lat lon body.accuracy
      else
        match findById db db.users c.actorId with
        | .castError => (serverError, db)
        | .null => (serverError, db)
        | .doc u =>
          if u.userType = "admin" ∨ u.userType = "ambulance" then
            updateLocationSave c db id e lat lon body.accuracy
          else (.failure .forbidden ["Not authorized to update location"], db) := by
  unfold updateLocation
  simp only [hlat, hlon, findById_doc db db.emergencies id e he]
  by_cases hp : e.patientId = c.actorId
  · simp [hp]
  · simp only [hp, if_false]
    cases hu : findById db db.users c.actorId with
    | castError => simp [hp]
    | null => simp [hp]
    | doc u =>
      by_cases hr : u.userType = "admin" ∨ u.userType = "ambulance"
      · rcases hr with h | h <;> simp [hp, h]
      · have h1 : u.userType ≠ "admin" := fun h => hr (Or.inl h)
        have h2 : u.userType ≠ "ambulance" := fun h => hr (Or.inr h)
        simp [hp, h1, h2]

theorem updateLocationSave_kind (c : Ctx) (db : Db) (id : String) (e : Emergency)
    (lat lon : Int) (acc : Option Int) :
    (updateLocationSave c db id e lat lon acc).1.kind ≠ some ErrorKind.forbidden := by
  rw [updateLocationSave_eq]
  split <;> simp [Response.kind, serverError]

theorem postChatMessage_eq (c : Ctx) (db : Db) (id : String) (e : Emergency) (u : User)
    (text : String) (he : db.emergencies id = some e) (hu : db.users c.actorId = some u)
    (ht : text ≠ "") :
    postChatMessage c db id (some text) =
      if schemaValid e = true then
        (serverError,
         { db with
           emergencies := Function.update db.emergencies id
             (some (postChatMessageSaved c e u text)) })
      else (serverError, db) := by
  have hv : schemaValid (postChatMessageDoc c e u text) = schemaValid e := by
    simp [schemaValid, postChatMessageDoc]
  unfold postChatMessage
  simp only [findById_doc db db.emergencies id e he, findById_doc db db.users c.actorId u hu,
    save_existing, hv]
  by_cases h : schemaValid e = true
  · simp [h, ht, postChatMessageSaved, emit_io]
  · simp [h, ht]

theorem save_valid {db db1 : Db} {key : String} {n m : Bool} {i : Int} {r : String}
    {t : Int} {doc saved : Emergency}
    (h : save db key n m i r t doc = some (saved, db1))
    (hall : Db.All (fun e => schemaValid e = true) db)
    (hm : schemaValid doc = true → m = true → doc.status ∈ timelineEventEnum) :
    Db.All (fun e => schemaValid e = true) db1 := by
  have hv : schemaValid doc = true := by
    unfold save at h
    split at h
    · exact absurd h (by simp)
    · split at h
      · assumption
      · exact absurd h (by simp)
  refine (@save_step (fun e => schemaValid e = true) (fun _ _ => True) (fun _ => trivial)
    _ _ _ _ _ _ _ _ _ _ h hall ?_ (fun _ _ => trivial)).1
  have hv2 := (schemaValid_iff doc).mp hv
  have hid : (n && doc.emergencyId == "") = false := by
    have : (doc.emergencyId == "") = false := by simpa using hv2.1
    simp [this]
  apply schemaValid_transfer doc _ ?_ hv
  · rw [preSave_status]
    exact hv2.2.2.2.2.2.2.1
  · rw [preSave_timeline]
    intro x hx
    rcases List.mem_append.mp hx with hx | hx
    · exact hv2.2.2.2.2.2.2.2 x hx
    · split at hx
      · rename_i hmt
        rw [List.mem_singleton] at hx
        subst hx
        exact hm hv hmt
      · simp at hx
  · unfold preSave sameKeyPaths
    simp only [hid]
    split <;> simp

theorem last_event_valid {doc : Emergency} {t : TimelineEvent} {before : List TimelineEvent}
    (hv : schemaValid doc = true) (ht : doc.timeline = before ++ [t])
    (hs : t.event = doc.status) : doc.status ∈ timelineEventEnum := by
  rw [← hs]
  apply ((schemaValid_iff doc).mp hv).2.2.2.2.2.2.2
  rw [ht]
  simp

/-- Every stored emergency passes schema validation. -/
theorem handlers_keep_schemaValid (c : Ctx) (db : Db) (id : String)
    (hall : Db.All (fun e => schemaValid e = true) db) :
    (∀ body, Db.All (fun e => schemaValid e = true) (create c db body).2) ∧
    (∀ body, Db.All (fun e => schemaValid e = true) (updateStatus c db id body).2) ∧
    (∀ body, Db.All (fun e => schemaValid e = true) (assignAmbulance c db id body).2) ∧
    (∀ body, Db.All (fun e => schemaValid e = true) (updateLocation c db id body).2) ∧
    (∀ message, Db.All (fun e => schemaValid e = true) (postChatMessage c db id message).2) ∧
    Db.All (fun e => schemaValid e = true) (cancel c db id).2 := by
  refine ⟨?_, ?_, ?_, ?_, ?_, ?_⟩
  · intro body
    rw [create_db]
    exact hall
  · intro body
    unfold updateStatus
    repeat' split
    all_goals first
      | exact hall
      | (refine save_valid (by assumption) hall ?_
         intro hv _
         exact last_event_valid hv (updateStatusDoc_timeline _ _ _ _)
           (updateStatusDoc_status _ _ _ _).symm)
  · intro body
    unfold assignAmbulance
    repeat' split
    all_goals first
      | exact hall
      | (refine save_valid (by assumption) hall ?_
         intro _ _
         simp [assignAmbulanceDoc, Emergency.addTimelineEvent, timelineEventEnum])
  · intro body
    unfold updateLocation updateLocationSave
    repeat' split
    all_goals first
      | exact hall
      | (refine save_valid (by assumption) hall ?_
         intro _ hm
         simp at hm)
  · intro message
    unfold postChatMessage
    repeat' split
    all_goals first
      | exact hall
      | (refine save_valid (by assumption) hall ?_
         intro _ hm
         simp at hm)
  · unfold cancel cancelSave
    repeat' split
    all_goals first
      | exact hall
      | (refine save_valid (by assumption) hall ?_
         intro hv _
         exact last_event_valid hv
           (show (cancelDoc c _).timeline = _ ++ [_] from rfl) rfl)
theorem cancel_eq (c : Ctx) (db : Db) (id : String) (e : Emergency)
    (he : db.emergencies id = some e) :
    cancel c db id =
      if e.patientId = c.actorId then cancelSave c db id e
      else
        match findById db db.users c.actorId with
        | .castError => (serverError, db)
        | .null => (serverError, db)
        | .doc u =>
          if u.userType = "admin" then cancelSave c db id e
          else (.failure .forbidden ["Not authorized to cancel emergency"], db) := by
  unfold cancel
  simp only [findById_doc db db.emergencies id e he]
  by_cases hp : e.patientId = c.actorId
  · simp [hp]
  · simp only [hp, if_false]
    cases hu : findById db db.users c.actorId with
    | castError => simp [hp]
    | null => simp [hp]
    | doc u =>
      by_cases hr : u.userType = "admin"
      · simp [hp, hr]
      · simp [hp, hr]

theorem cancelSave_kind (c : Ctx) (db : Db) (id : String) (e : Emergency) :
    (cancelSave c db id e).1.kind ≠ some ErrorKind.forbidden := by
  rw [cancelSave_eq]
  split <;> simp [Response.kind, serverError]

theorem frame_refl (e : Emergency) : Frame e e := ⟨rfl, id⟩

theorem updateResponseTimes_assignedAmbulance (e : Emergency) :
    e.updateResponseTimes.assignedAmbulance = e.assignedAmbulance := by
  unfold Emergency.updateResponseTimes
  split <;> rfl

theorem updateStatusDoc_assignedAmbulance (c : Ctx) (e : Emergency) (s : String)
    (notes : Option String) :
    (updateStatusDoc c e s notes).assignedAmbulance = e.assignedAmbulance := by
  unfold updateStatusDoc
  simp only []
  split
  · rw [updateResponseTimes_assignedAmbulance]
    rfl
  · split <;> rfl

theorem frame_updateStatusSaved (c : Ctx) (e : Emergency) (s : String)
    (notes : Option String) : Frame e (updateStatusSaved c e s notes) := by
  have h1 := (updateStatusDoc_sameKeyPaths c e s notes).1
  have h2 := updateStatusDoc_assignedAmbulance c e s notes
  unfold Frame KeepsIdentity KeepsAssignment updateStatusSaved
  rw [preSave_existing]
  simp only [h1, h2]
  exact ⟨trivial, id⟩

theorem frame_assignAmbulanceSaved (c : Ctx) (e : Emergency) (a : String) (amb : User)
    (eta : Int) : Frame e (assignAmbulanceSaved c e a amb eta) := by
  simp [Frame, KeepsIdentity, KeepsAssignment, assignAmbulanceSaved, preSave_existing,
    assignAmbulanceDoc, Emergency.addTimelineEvent]

theorem frame_cancelSaved (c : Ctx) (e : Emergency) : Frame e (cancelSaved c e) := by
  simp [Frame, KeepsIdentity, KeepsAssignment, cancelSaved, preSave_existing, cancelDoc,
    Emergency.addTimelineEvent]

theorem frame_updateLocationSaved (c : Ctx) (e : Emergency) (lat lon : Int)
    (acc : Option Int) : Frame e (updateLocationSaved c e lat lon acc) := by
  simp [Frame, KeepsIdentity, KeepsAssignment, updateLocationSaved, preSave_existing,
    updateLocationDoc]

theorem frame_postChatMessageSaved (c : Ctx) (e : Emergency) (u : User) (text : String) :
    Frame e (postChatMessageSaved c e u text) := by
  simp [Frame, KeepsIdentity, KeepsAssignment, postChatMessageSaved, preSave_existing,
    postChatMessageDoc]

theorem save_frame {db db1 : Db} {key : String} {n m : Bool} {i : Int} {r : String}
    {t : Int} {doc saved : Emergency}
    (h : save db key n m i r t doc = some (saved, db1))
    (hR : ∀ e, db.emergencies key = some e → Frame e (preSave n m i r t doc)) :
    Db.Rel Frame db db1 :=
  (@save_step (fun _ => True) Frame frame_refl _ _ _ _ _ _ _ _ _ _ h
    (fun _ _ _ => trivial) trivial hR).2

theorem handlers_frame (c : Ctx) (db : Db) (id : String) :
    (∀ body, Db.Rel Frame db (create c db body).2) ∧
    (∀ body, Db.Rel Frame db (updateStatus c db id body).2) ∧
    (∀ body, Db.Rel Frame db (assignAmbulance c db id body).2) ∧
    (∀ body, Db.Rel Frame db (updateLocation c db id body).2) ∧
    (∀ message, Db.Rel Frame db (postChatMessage c db id message).2) ∧
    Db.Rel Frame db (cancel c db id).2 := by
  refine ⟨?_, ?_, ?_, ?_, ?_, ?_⟩
  · intro body
    rw [create_db]
    exact dbRel_refl frame_refl db
  · intro body
    unfold updateStatus
    repeat' split
    all_goals first
      | exact dbRel_refl frame_refl db
      | (have he := findById_eq_doc ‹findById db db.emergencies id = Found.doc _›
         refine save_frame (by assumption) ?_
         intro e0 he0
         rw [he] at he0
         cases he0
         exact frame_updateStatusSaved _ _ _ _)
  · intro body
    unfold assignAmbulance
    repeat' split
    all_goals first
      | exact dbRel_refl frame_refl db
      | (have he := findById_eq_doc ‹findById db db.emergencies id = Found.doc _›
         refine save_frame (by assumption) ?_
         intro e0 he0
         rw [he] at he0
         cases he0
         exact frame_assignAmbulanceSaved _ _ _ _ _)
  · intro body
    unfold updateLocation updateLocationSave
    repeat' split
    all_goals first
      | exact dbRel_refl frame_refl db
      | (have he := findById_eq_doc ‹findById db db.emergencies id = Found.doc _›
         refine save_frame (by assumption) ?_
         intro e0 he0
         rw [he] at he0
         cases he0
         exact frame_updateLocationSaved _ _ _ _ _)
  · intro message
    unfold postChatMessage
    repeat' split
    all_goals first
      | exact dbRel_refl frame_refl db
      | (have he := findById_eq_doc ‹findById db db.emergencies id = Found.doc _›
         refine save_frame (by assumption) ?_
         intro e0 he0
         rw [he] at he0
         cases he0
         exact frame_postChatMessageSaved _ _ _ _)
  · unfold cancel cancelSave
    repeat' split
    all_goals first
      | exact dbRel_refl frame_refl db
      | (have he := findById_eq_doc ‹findById db db.emergencies id = Found.doc _›
         refine save_frame (by assumption) ?_
         intro e0 he0
         rw [he] at he0
         cases he0
         exact frame_cancelSaved _ _)

theorem dbRel_mono {R S : Emergency → Emergency → Prop} (h : ∀ a b, R a b → S a b)
    {db db2 : Db} (hr : Db.Rel R db db2) : Db.Rel S db db2 := by
  intro k e he
  obtain ⟨e2, he2, hr2⟩ := hr k e he
  exact ⟨e2, he2, h _ _ hr2⟩

theorem save_statusEnum {db db1 : Db} {key : String} {n m : Bool} {i : Int} {r : String}
    {t : Int} {doc saved : Emergency}
    (h : save db key n m i r t doc = some (saved, db1))
    (hall : Db.All (fun e => e.status ∈ statusEnum) db) :
    Db.All (fun e => e.status ∈ statusEnum) db1 := by
  have hv : schemaValid doc = true := by
    unfold save at h
    split at h
    · exact absurd h (by simp)
    · split at h
      · assumption
      · exact absurd h (by simp)
  refine (@save_step (fun e => e.status ∈ statusEnum) (fun _ _ => True) (fun _ => trivial)
    _ _ _ _ _ _ _ _ _ _ h hall ?_ (fun _ _ => trivial)).1
  show (preSave n m i r t doc).status ∈ statusEnum
  rw [preSave_status]
  exact ((schemaValid_iff doc).mp hv).2.2.2.2.2.2.1

theorem handlers_keep_statusEnum (c : Ctx) (db : Db) (id : String)
    (hall : Db.All (fun e => e.status ∈ statusEnum) db) :
    (∀ body, Db.All (fun e => e.status ∈ statusEnum) (create c db body).2) ∧
    (∀ body, Db.All (fun e => e.status ∈ statusEnum) (updateStatus c db id body).2) ∧
    (∀ body, Db.All (fun e => e.status ∈ statusEnum) (assignAmbulance c db id body).2) ∧
    (∀ body, Db.All (fun e => e.status ∈ statusEnum) (updateLocation c db id body).2) ∧
    (∀ message,
      Db.All (fun e => e.status ∈ statusEnum) (postChatMessage c db id message).2) ∧
    Db.All (fun e => e.status ∈ statusEnum) (cancel c db id).2 := by
  refine ⟨?_, ?_, ?_, ?_, ?_, ?_⟩
  · intro body
    rw [create_db]
    exact hall
  · intro body
    unfold updateStatus
    repeat' split
    all_goals first
      | exact hall
      | exact save_statusEnum (by assumption) hall
  · intro body
    unfold assignAmbulance
    repeat' split
    all_goals first
      | exact hall
      | exact save_statusEnum (by assumption) hall
  · intro body
    unfold updateLocation updateLocationSave
    repeat' split
    all_goals first
      | exact hall
      | exact save_statusEnum (by assumption) hall
  · intro message
    unfold postChatMessage
    repeat' split
    all_goals first
      | exact hall
      | exact save_statusEnum (by assumption) hall
  · unfold cancel cancelSave
    repeat' split
    all_goals first
      | exact hall
      | exact save_statusEnum (by assumption) hall

theorem updateStatus_invalid_status (c : Ctx) (db : Db) (id : String)
    (body : UpdateStatusBody)
    (h : body.status = none ∨ ∃ s, body.status = some s ∧ s ∉ statusEnum) :
    updateStatus c db id body = (.failure .validationError ["Status is required"], db) := by
  unfold updateStatus
  rcases h with h | ⟨s, hs, hin⟩
  · simp [h]
  · simp [hs, hin]

/-- No handler answers with the `conflict` kind: `routes/emergency.js` has no
version check and no retry. -/
theorem handlers_never_answer_conflict (c : Ctx) (db : Db) (id : String) :
    (∀ body, (create c db body).1.kind ≠ some ErrorKind.conflict) ∧
    (∀ body, (updateStatus c db id body).1.kind ≠ some ErrorKind.conflict) ∧
    (∀ body, (assignAmbulance c db id body).1.kind ≠ some ErrorKind.conflict) ∧
    (∀ body, (updateLocation c db id body).1.kind ≠ some ErrorKind.conflict) ∧
    (∀ message, (postChatMessage c db id message).1.kind ≠ some ErrorKind.conflict) ∧
    (cancel c db id).1.kind ≠ some ErrorKind.conflict := by
  refine ⟨?_, ?_, ?_, ?_, ?_, ?_⟩
  · intro body
    rw [create_eq]
    repeat' split
    all_goals simp [Response.kind, serverError]
  · intro body
    unfold updateStatus
    repeat' split
    all_goals simp [Response.kind, serverError]
  · intro body
    unfold assignAmbulance
    repeat' split
    all_goals simp [Response.kind, serverError]
  · intro body
    unfold updateLocation updateLocationSave
    repeat' split
    all_goals simp [Response.kind, serverError]
  · intro message
    unfold postChatMessage
    repeat' split
    all_goals simp [Response.kind, serverError]
  · unfold cancel cancelSave
    repeat' split
    all_goals simp [Response.kind, serverError]

/-- With the metrics taken as exact rationals, the first two add up to the
third when the three milestones occur. The stored metrics are IEEE doubles,
each a rounded quotient, and this lemma says nothing about their sum. -/
theorem metrics_add_up_over_rationals (e : Emergency) (c a v : TimelineEvent)
    (hc : FirstOfKind e.timeline "created" c) (ha : FirstOfKind e.timeline "assigned" a)
    (hv : FirstOfKind e.timeline "ambulance-arrived" v) :
    ∃ x y z,
      e.updateResponseTimes.responseTime.alertToAssignment = some x ∧
      e.updateResponseTimes.responseTime.assignmentToArrival = some y ∧
      e.updateResponseTimes.responseTime.totalResponseTime = some z ∧ x + y = z := by
  have hlen : 2 ≤ e.timeline.length := by
    apply two_le_length_of_two_kinds e.timeline c a (firstOfKind_mem hc) (firstOfKind_mem ha)
    obtain ⟨_, _, _, h1, _⟩ := hc
    obtain ⟨_, _, _, h2, _⟩ := ha
    rw [h1, h2]
    decide
  unfold Emergency.updateResponseTimes
  simp only [hlen, if_true, firstOfKind_find? hc, firstOfKind_find? ha, firstOfKind_find? hv]
  refine ⟨_, _, _, rfl, rfl, rfl, ?_⟩
  push_cast
  ring

theorem schemaValid_assignAmbulanceSaved (c : Ctx) (e : Emergency) (a : String) (amb : User)
    (eta : Int) (hv : schemaValid e = true) :
    schemaValid (assignAmbulanceSaved c e a amb eta) = true := by
  apply schemaValid_transfer e _ ?_ hv
  · simp [assignAmbulanceSaved, preSave_status, assignAmbulanceDoc,
      Emergency.addTimelineEvent, statusEnum]
  · intro t ht
    rw [assignAmbulanceSaved_timeline] at ht
    rcases List.mem_append.mp ht with h | h
    · rcases List.mem_append.mp h with h | h
      · exact ((schemaValid_iff e).mp hv).2.2.2.2.2.2.2 t h
      · rw [List.mem_singleton] at h
        subst h
        simp [timelineEventEnum]
    · split at h
      · simp at h
      · rw [List.mem_singleton] at h
        subst h
        simp [timelineEventEnum]
  · simp [sameKeyPaths, assignAmbulanceSaved, preSave_existing, assignAmbulanceDoc,
      Emergency.addTimelineEvent]

theorem assignAmbulanceSaved_fields (c : Ctx) (e : Emergency) (a : String) (amb : User)
    (eta : Int) :
    (assignAmbulanceSaved c e a amb eta).assignedAmbulance = some
      { ambulanceId := a, driverName := amb.fullName, driverPhone := amb.phone,
        estimatedArrival := eta, currentLocation := none } ∧
    (assignAmbulanceSaved c e a amb eta).status = "assigned" ∧
    (assignAmbulanceSaved c e a amb eta).updatedBy = some c.actorId := by
  simp [assignAmbulanceSaved, preSave_existing, assignAmbulanceDoc, Emergency.addTimelineEvent]
/-! ## C1: terminal statuses -/

/-- C1 (counterexample). On a stored record whose status is `completed`, an
update-status request by an administrator with target `assigned` does not
fail with `InvalidTransition` and does not leave the status unchanged: the
stored status becomes `assigned`. The same holds of an assign-ambulance
request by the administrator, and a cancel request by the subject does not
fail with `InvalidTransition` either. -/
theorem completed_record_status_changes :
    ((sampleDb (sampleRecord "pat" "completed" sampleTimeline)).emergencies "e1").map
        (fun e => e.status) = some "completed" ∧
    (updateStatus (sampleCtx "adm") (sampleDb (sampleRecord "pat" "completed" sampleTimeline))
        "e1" { status := some "assigned", notes := none }).1.kind
      ≠ some ErrorKind.invalidTransition ∧
    ((updateStatus (sampleCtx "adm") (sampleDb (sampleRecord "pat" "completed" sampleTimeline))
        "e1" { status := some "assigned", notes := none }).2.emergencies "e1").map
        (fun e => e.status) = some "assigned" ∧
    (assignAmbulance (sampleCtx "adm")
        (sampleDb (sampleRecord "pat" "completed" sampleTimeline))
        "e1" { ambulanceId := some "amb", estimatedArrival := some 5000 }).1.kind
      ≠ some ErrorKind.invalidTransition ∧
    ((assignAmbulance (sampleCtx "adm")
        (sampleDb (sampleRecord "pat" "completed" sampleTimeline))
        "e1" { ambulanceId := some "amb", estimatedArrival := some 5000 }).2.emergencies
        "e1").map (fun e => e.status) = some "assigned" ∧
    (cancel (sampleCtx "pat") (sampleDb (sampleRecord "pat" "completed" sampleTimeline))
        "e1").1.kind ≠ some ErrorKind.invalidTransition := by
  refine ⟨by decide, by decide, by decide, by decide, by decide, by decide⟩

/-- C1 (amended). On a record whose status is `completed` or `cancelled`,
none of update-status, assign-ambulance and cancel fails with
`InvalidTransition`, and a terminal status does not block a change: when the
stored record is schema-valid, update-status to `assigned` by an authorized
actor, and assign-ambulance by an admin or hospital actor naming an ambulance
user, store the status `assigned` in place of the terminal value. -/
theorem terminal_status_not_enforced (c : Ctx) (db : Db) (id : String) (e : Emergency)
    (he : db.emergencies id = some e)
    (hterm : e.status = "completed" ∨ e.status = "cancelled") :
    (∀ body, (updateStatus c db id body).1.kind ≠ some ErrorKind.invalidTransition) ∧
    (∀ body, (assignAmbulance c db id body).1.kind ≠ some ErrorKind.invalidTransition) ∧
    (cancel c db id).1.kind ≠ some ErrorKind.invalidTransition ∧
    (∀ u notes, db.users c.actorId = some u → canUpdateStatus u e c.actorId = true →
      schemaValid e = true →
        ((updateStatus c db id { status := some "assigned", notes := notes }).2.emergencies
            id).map (fun d => d.status) = some "assigned" ∧
        e.status ≠ "assigned") ∧
    (∀ u a amb eta, db.users c.actorId = some u →
      (u.userType = "admin" ∨ u.userType = "hospital") →
      a ≠ "" → db.users a = some amb → amb.userType = "ambulance" →
      schemaValid e = true →
        ((assignAmbulance c db id
            { ambulanceId := some a, estimatedArrival := some eta }).2.emergencies
            id).map (fun d => d.status) = some "assigned" ∧
        e.status ≠ "assigned") := by
  have hne : e.status ≠ "assigned" := by
    rcases hterm with h | h <;> rw [h] <;> decide
  refine ⟨fun body => updateStatus_kind_ne_invalidTransition c db id body,
    fun body => assignAmbulance_kind_ne_invalidTransition c db id body,
    cancel_kind_ne_invalidTransition c db id, ?_, ?_⟩
  · intro u notes hu ha hv
    rw [updateStatus_stores c db id e u _ "assigned" he hu ha rfl hv (Or.inl rfl)]
    refine ⟨?_, hne⟩
    simp [updateStatusSaved_status]
  · intro u a amb eta hu hr hane hamb hk hv
    rw [assignAmbulance_stores c db id e u amb a eta he hu hr hane hamb hk hv]
    refine ⟨?_, hne⟩
    simp [assignAmbulanceSaved, preSave_status, assignAmbulanceDoc, Emergency.addTimelineEvent]

/-- C1 (witness). The amended statement at a stored `cancelled` record and an
administrator. -/
theorem terminal_status_not_enforced_witness :
    (sampleDb (sampleRecord "pat" "cancelled" sampleTimeline)).emergencies "e1" =
        some (sampleRecord "pat" "cancelled" sampleTimeline) ∧
    ((sampleRecord "pat" "cancelled" sampleTimeline).status = "completed" ∨
      (sampleRecord "pat" "cancelled" sampleTimeline).status = "cancelled") ∧
    ((updateStatus (sampleCtx "adm") (sampleDb (sampleRecord "pat" "cancelled" sampleTimeline))
        "e1" { status := some "assigned", notes := none }).2.emergencies "e1").map
        (fun d => d.status) = some "assigned" :=
  ⟨rfl, Or.inr rfl,
   ((terminal_status_not_enforced (sampleCtx "adm")
      (sampleDb (sampleRecord "pat" "cancelled" sampleTimeline)) "e1"
      (sampleRecord "pat" "cancelled" sampleTimeline) rfl (Or.inr rfl)).2.2.2.1
      (sampleUser "Ada" "Admin" "admin") none rfl (by decide) (by decide)).1⟩
/-! ## C2: the transition graph -/

/-- C2 (counterexample). The pair (`pending`, `completed`) is not an edge of
the graph and the target is not `cancelled`, yet an update-status request by
an administrator does not fail with `InvalidTransition` and the status does
not stay unchanged: the stored status becomes `completed`. -/
theorem pending_to_completed_stored :
    ((sampleDb (sampleRecord "pat" "pending" sampleTimeline)).emergencies "e1").map
        (fun e => e.status) = some "pending" ∧
    (updateStatus (sampleCtx "adm") (sampleDb (sampleRecord "pat" "pending" sampleTimeline))
        "e1" { status := some "completed", notes := none }).1.kind
      ≠ some ErrorKind.invalidTransition ∧
    ((updateStatus (sampleCtx "adm") (sampleDb (sampleRecord "pat" "pending" sampleTimeline))
        "e1" { status := some "completed", notes := none }).2.emergencies "e1").map
        (fun e => e.status) = some "completed" := by
  decide

/-- C2 (amended). Update-status by an authorized actor does not consult the
current status: for no pair (current status, new status) does it fail with
`InvalidTransition`, and on a schema-valid stored record a request for
`assigned` or `completed` stores the requested status whatever the current
status is. -/
theorem updateStatus_ignores_current_status (c : Ctx) (db : Db) (id : String)
    (e : Emergency) (u : User) (body : UpdateStatusBody) (s : String)
    (he : db.emergencies id = some e) (hu : db.users c.actorId = some u)
    (ha : canUpdateStatus u e c.actorId = true)
    (hs : body.status = some s) :
    (updateStatus c db id body).1.kind ≠ some ErrorKind.invalidTransition ∧
    (schemaValid e = true → (s = "assigned" ∨ s = "completed") →
      ((updateStatus c db id body).2.emergencies id).map (fun d => d.status) = some s) := by
  refine ⟨updateStatus_kind_ne_invalidTransition c db id body, ?_⟩
  intro hv hs2
  rw [updateStatus_stores c db id e u body s he hu ha hs hv hs2]
  simp [updateStatusSaved_status]

/-- C2 (witness). The amended statement at a stored `arrived` record, an
administrator and the target `assigned`, a step backwards in the graph. -/
theorem updateStatus_ignores_current_status_witness :
    (sampleDb (sampleRecord "pat" "arrived" sampleTimeline)).emergencies "e1" =
        some (sampleRecord "pat" "arrived" sampleTimeline) ∧
    (sampleDb (sampleRecord "pat" "arrived" sampleTimeline)).users (sampleCtx "adm").actorId =
        some (sampleUser "Ada" "Admin" "admin") ∧
    canUpdateStatus (sampleUser "Ada" "Admin" "admin")
        (sampleRecord "pat" "arrived" sampleTimeline) (sampleCtx "adm").actorId = true ∧
    ((updateStatus (sampleCtx "adm") (sampleDb (sampleRecord "pat" "arrived" sampleTimeline))
        "e1" { status := some "assigned", notes := none }).2.emergencies "e1").map
        (fun d => d.status) = some "assigned" :=
  ⟨rfl, rfl, by decide,
   (updateStatus_ignores_current_status (sampleCtx "adm")
      (sampleDb (sampleRecord "pat" "arrived" sampleTimeline)) "e1"
      (sampleRecord "pat" "arrived" sampleTimeline) (sampleUser "Ada" "Admin" "admin")
      { status := some "assigned", notes := none } "assigned" rfl rfl (by decide) rfl).2
      (by decide) (Or.inl rfl)⟩

/-! ## C3: who may update the status -/

/-- C3 (counterexample). A doctor who is the subject of the emergency (the
record's `patientId` is the doctor's own id) is refused with `Forbidden`: the
subject clause of `canUpdateStatus` also requires the user type `patient`. -/
theorem subject_of_other_type_is_forbidden :
    (sampleRecord "doc" "pending" sampleTimeline).patientId = (sampleCtx "doc").actorId ∧
    (sampleDb (sampleRecord "doc" "pending" sampleTimeline)).users "doc" =
        some (sampleUser "Dan" "Jones" "doctor") ∧
    (updateStatus (sampleCtx "doc") (sampleDb (sampleRecord "doc" "pending" sampleTimeline))
        "e1" { status := some "assigned", notes := none }).1.kind
      = some ErrorKind.forbidden := by
  decide

/-- C3 (amended). For an existing emergency, an existing actor and a status
of the enumeration, update-status fails with `Forbidden` exactly when the
actor's type is none of admin, ambulance, hospital and the actor is not a
user of type patient whose id is the record's `patientId`; in that case the
database is unchanged. -/
theorem updateStatus_forbidden_iff (c : Ctx) (db : Db) (id : String) (e : Emergency)
    (u : User) (body : UpdateStatusBody) (s : String)
    (he : db.emergencies id = some e) (hu : db.users c.actorId = some u)
    (hs : body.status = some s) (hin : s ∈ statusEnum) :
    ((updateStatus c db id body).1.kind = some ErrorKind.forbidden ↔
      ¬ (u.userType = "admin" ∨ u.userType = "ambulance" ∨ u.userType = "hospital" ∨
          (u.userType = "patient" ∧ e.patientId = c.actorId))) ∧
    ((updateStatus c db id body).1.kind = some ErrorKind.forbidden →
      (updateStatus c db id body).2 = db) := by
  have hcan : canUpdateStatus u e c.actorId = true ↔
      (u.userType = "admin" ∨ u.userType = "ambulance" ∨ u.userType = "hospital" ∨
          (u.userType = "patient" ∧ e.patientId = c.actorId)) := by
    simp [canUpdateStatus, or_assoc]
  rw [updateStatus_eq c db id e u body s hs hin he hu, ← hcan]
  by_cases ha : canUpdateStatus u e c.actorId = true
  · simp only [ha, if_true]
    split <;> simp [Response.kind, serverError]
  · simp [ha, Response.kind]

/-- C3 (witness). The amended statement at the subject of the record, a user
of type patient: the request is not refused. -/
theorem updateStatus_forbidden_iff_witness :
    (sampleDb (sampleRecord "pat" "pending" sampleTimeline)).emergencies "e1" =
        some (sampleRecord "pat" "pending" sampleTimeline) ∧
    (sampleDb (sampleRecord "pat" "pending" sampleTimeline)).users (sampleCtx "pat").actorId =
        some (sampleUser "Pat" "Smith" "patient") ∧
    "assigned" ∈ statusEnum ∧
    ¬ ((updateStatus (sampleCtx "pat") (sampleDb (sampleRecord "pat" "pending" sampleTimeline))
        "e1" { status := some "assigned", notes := none }).1.kind
        = some ErrorKind.forbidden) :=
  ⟨rfl, rfl, by decide,
   fun h => ((updateStatus_forbidden_iff (sampleCtx "pat")
      (sampleDb (sampleRecord "pat" "pending" sampleTimeline)) "e1"
      (sampleRecord "pat" "pending" sampleTimeline) (sampleUser "Pat" "Smith" "patient")
      { status := some "assigned", notes := none } "assigned" rfl rfl rfl
      (by decide)).1.mp h) (by decide)⟩

/-! ## C4: unauthorized actors change nothing -/

/-- C4. For an existing emergency and an existing actor outside the allowed
set of the operation, each of update-status (with a status of the
enumeration), assign-ambulance (with a body the validators accept) and cancel
answers `Forbidden` and returns the database it was given, so that every
field of the record is as it was. The allowed sets are: admin, ambulance,
hospital or the subject for update-status; admin or hospital for
assign-ambulance; admin or the subject for cancel. -/
theorem unauthorized_actor_changes_nothing (c : Ctx) (db : Db) (id : String)
    (e : Emergency) (u : User)
    (he : db.emergencies id = some e) (hu : db.users c.actorId = some u) :
    (∀ body s, body.status = some s → s ∈ statusEnum →
      u.userType ≠ "admin" → u.userType ≠ "ambulance" → u.userType ≠ "hospital" →
      e.patientId ≠ c.actorId →
        updateStatus c db id body =
          (.failure .forbidden ["Not authorized to update emergency status"], db)) ∧
    (∀ body, assignAmbulanceErrors body = [] →
      u.userType ≠ "admin" → u.userType ≠ "hospital" →
        assignAmbulance c db id body =
          (.failure .forbidden ["Not authorized to assign ambulances"], db)) ∧
    (u.userType ≠ "admin" → e.patientId ≠ c.actorId →
        cancel c db id = (.failure .forbidden ["Not authorized to cancel emergency"], db)) := by
  refine ⟨?_, ?_, ?_⟩
  · intro body s hs hin h1 h2 h3 h4
    rw [updateStatus_eq c db id e u body s hs hin he hu]
    simp [canUpdateStatus, h1, h2, h3, h4]
  · intro body hb h1 h2
    obtain ⟨a, eta, ha, hne, heta⟩ := assignAmbulanceErrors_nil body hb
    rw [assignAmbulance_eq c db id u body a eta ha hne heta hu]
    simp [h1, h2]
  · intro h1 h2
    exact cancel_forbidden c db id e u he hu h2 h1

/-- C4 (witness). A doctor who is not the subject cancels: `Forbidden`, and
the database is the one given. -/
theorem unauthorized_actor_changes_nothing_witness :
    (sampleDb (sampleRecord "pat" "pending" sampleTimeline)).emergencies "e1" =
        some (sampleRecord "pat" "pending" sampleTimeline) ∧
    (sampleDb (sampleRecord "pat" "pending" sampleTimeline)).users (sampleCtx "doc").actorId =
        some (sampleUser "Dan" "Jones" "doctor") ∧
    cancel (sampleCtx "doc") (sampleDb (sampleRecord "pat" "pending" sampleTimeline)) "e1" =
      (.failure .forbidden ["Not authorized to cancel emergency"],
       sampleDb (sampleRecord "pat" "pending" sampleTimeline)) :=
  ⟨rfl, rfl,
   (unauthorized_actor_changes_nothing (sampleCtx "doc")
      (sampleDb (sampleRecord "pat" "pending" sampleTimeline)) "e1"
      (sampleRecord "pat" "pending" sampleTimeline) (sampleUser "Dan" "Jones" "doctor")
      rfl rfl).2.2 (by decide) (by decide)⟩

/-! ## C5: who may assign an ambulance -/

/-- C5. For an existing actor: when the actor's type is neither admin nor
hospital, assign-ambulance (with a body the validators accept) answers
`Forbidden` and returns the database it was given; when the type is admin or
hospital, no request is answered `Forbidden`; in particular an actor of type
patient is refused and a `pending` record is still `pending`. -/
theorem assignAmbulance_forbidden_by_role (c : Ctx) (db : Db) (id : String) (u : User)
    (hu : db.users c.actorId = some u) :
    (∀ body, assignAmbulanceErrors body = [] →
      u.userType ≠ "admin" → u.userType ≠ "hospital" →
        assignAmbulance c db id body =
          (.failure .forbidden ["Not authorized to assign ambulances"], db)) ∧
    (∀ body, (u.userType = "admin" ∨ u.userType = "hospital") →
        (assignAmbulance c db id body).1.kind ≠ some ErrorKind.forbidden) ∧
    (∀ body e, assignAmbulanceErrors body = [] → u.userType = "patient" →
      db.emergencies id = some e → e.status = "pending" →
        (assignAmbulance c db id body).1.kind = some ErrorKind.forbidden ∧
        ((assignAmbulance c db id body).2.emergencies id).map (fun d => d.status)
          = some "pending") := by
  have hforb : ∀ body, assignAmbulanceErrors body = [] →
      u.userType ≠ "admin" → u.userType ≠ "hospital" →
        assignAmbulance c db id body =
          (.failure .forbidden ["Not authorized to assign ambulances"], db) := by
    intro body hb h1 h2
    obtain ⟨a, eta, ha, hne, heta⟩ := assignAmbulanceErrors_nil body hb
    rw [assignAmbulance_eq c db id u body a eta ha hne heta hu]
    simp [h1, h2]
  refine ⟨hforb, ?_, ?_⟩
  · intro body hr
    have hc : ["admin", "hospital"].contains u.userType = true := by
      rcases hr with h | h <;> simp [h]
    unfold assignAmbulance
    simp only [findById_doc db db.users c.actorId u hu, hc]
    repeat' split
    all_goals simp_all [Response.kind, serverError]
  · intro body e hb hp he hst
    rw [hforb body hb (by rw [hp]; decide) (by rw [hp]; decide)]
    simp [Response.kind, he, hst]

/-- C5 (witness). The patient of the sample record asks for an ambulance:
`Forbidden`, and the stored status is still `pending`. -/
theorem assignAmbulance_forbidden_by_role_witness :
    (sampleDb (sampleRecord "pat" "pending" sampleTimeline)).users (sampleCtx "pat").actorId =
        some (sampleUser "Pat" "Smith" "patient") ∧
    (assignAmbulance (sampleCtx "pat") (sampleDb (sampleRecord "pat" "pending" sampleTimeline))
        "e1" { ambulanceId := some "amb", estimatedArrival := some 5000 }).1.kind
      = some ErrorKind.forbidden ∧
    ((assignAmbulance (sampleCtx "pat") (sampleDb (sampleRecord "pat" "pending" sampleTimeline))
        "e1" { ambulanceId := some "amb", estimatedArrival := some 5000 }).2.emergencies
        "e1").map (fun d => d.status) = some "pending" :=
  ⟨rfl,
   (assignAmbulance_forbidden_by_role (sampleCtx "pat")
      (sampleDb (sampleRecord "pat" "pending" sampleTimeline)) "e1"
      (sampleUser "Pat" "Smith" "patient") rfl).2.2
      { ambulanceId := some "amb", estimatedArrival := some 5000 }
      (sampleRecord "pat" "pending" sampleTimeline) (by decide) rfl rfl rfl⟩
/-! ## C6: the resource must be an ambulance -/

/-- C6 (the code at the failing input). For an existing emergency, an actor
of type admin or hospital and a body the validators accept, the outcome of
assign-ambulance when the requested resource is no ambulance depends on the
shape of the resource id.
When the id resolves to a user whose type is not ambulance, or is a
well-formed id that resolves to no user, the answer is `NotFound`. When the
id resolves to no user and is not a well-formed ObjectId, `User.findById`
throws a cast error and the answer is the 500 of the `catch` branch, not
`NotFound`. In all three cases the database is the one given, so the record
(its assignment, status and timeline included) is unchanged. -/
theorem assignAmbulance_unresolved_resource (c : Ctx) (db : Db) (id : String)
    (e : Emergency) (u : User) (body : AssignAmbulanceBody) (a : String)
    (he : db.emergencies id = some e) (hu : db.users c.actorId = some u)
    (hr : u.userType = "admin" ∨ u.userType = "hospital")
    (hb : assignAmbulanceErrors body = []) (ha : body.ambulanceId = some a) :
    (∀ r, db.users a = some r → r.userType ≠ "ambulance" →
      assignAmbulance c db id body = (.failure .notFound ["Ambulance not found"], db)) ∧
    (db.users a = none → db.castsToObjectId a = true →
      assignAmbulance c db id body = (.failure .notFound ["Ambulance not found"], db)) ∧
    (db.users a = none → db.castsToObjectId a = false →
      assignAmbulance c db id body = (serverError, db) ∧
      (assignAmbulance c db id body).1.kind ≠ some ErrorKind.notFound) ∧
    ((∀ r, db.users a = some r → r.userType ≠ "ambulance") →
      (assignAmbulance c db id body).2.emergencies id = some e) := by
  have hc : ["admin", "hospital"].contains u.userType = true := by
    rcases hr with h | h <;> simp [h]
  obtain ⟨a2, eta, ha2, hne, heta⟩ := assignAmbulanceErrors_nil body hb
  have haa : a2 = a := by
    rw [ha] at ha2
    exact (Option.some.inj ha2).symm
  subst haa
  have key := assignAmbulance_eq c db id u body a2 eta ha hne heta hu
  rw [if_pos hc, findById_doc db db.emergencies id e he] at key
  have h1 : ∀ r, db.users a2 = some r → r.userType ≠ "ambulance" →
      assignAmbulance c db id body = (.failure .notFound ["Ambulance not found"], db) := by
    intro r h hk
    rw [key]
    simp only [findById_doc db db.users a2 r h, if_neg hk]
  have h2 : db.users a2 = none → db.castsToObjectId a2 = true →
      assignAmbulance c db id body = (.failure .notFound ["Ambulance not found"], db) := by
    intro h hcast
    rw [key]
    simp only [findById_null db db.users a2 h hcast]
  have h3 : db.users a2 = none → db.castsToObjectId a2 = false →
      assignAmbulance c db id body = (serverError, db) := by
    intro h hcast
    rw [key]
    simp only [findById_castError db db.users a2 h hcast]
  refine ⟨h1, h2, fun h hcast => ⟨h3 h hcast, ?_⟩, ?_⟩
  · rw [h3 h hcast]
    simp [serverError, Response.kind]
  · intro hall
    cases hres : db.users a2 with
    | some r => rw [h1 r hres (hall r hres)]; exact he
    | none =>
      cases hcast : db.castsToObjectId a2 with
      | true => rw [h2 hres hcast]; exact he
      | false => rw [h3 hres hcast]; exact he

/-- C6 (witness). An administrator names the resource `ghost`, which resolves
to no user and is no well-formed ObjectId: the answer is the 500 of the
`catch` branch, not `NotFound`, and the stored record is the one given. -/
theorem assignAmbulance_unresolved_resource_witness :
    (sampleDb (sampleRecord "pat" "pending" sampleTimeline)).users "ghost" = none ∧
    (sampleDb (sampleRecord "pat" "pending" sampleTimeline)).castsToObjectId "ghost" = false ∧
    assignAmbulance (sampleCtx "adm") (sampleDb (sampleRecord "pat" "pending" sampleTimeline))
        "e1" { ambulanceId := some "ghost", estimatedArrival := some 5000 } =
      (serverError, sampleDb (sampleRecord "pat" "pending" sampleTimeline)) ∧
    (assignAmbulance (sampleCtx "adm") (sampleDb (sampleRecord "pat" "pending" sampleTimeline))
        "e1" { ambulanceId := some "ghost", estimatedArrival := some 5000 }).1.kind
      ≠ some ErrorKind.notFound :=
  ⟨by decide, by decide,
   (assignAmbulance_unresolved_resource (sampleCtx "adm")
      (sampleDb (sampleRecord "pat" "pending" sampleTimeline)) "e1"
      (sampleRecord "pat" "pending" sampleTimeline) (sampleUser "Ada" "Admin" "admin")
      { ambulanceId := some "ghost", estimatedArrival := some 5000 } "ghost"
      rfl rfl (Or.inl rfl) (by decide) rfl).2.2.1 (by decide) (by decide)⟩
/-! ## C7: what an assignment writes -/

/-- C7 (the code at the failing input). On a schema-valid stored record,
assign-ambulance by an admin or hospital actor naming an ambulance user writes
the assignment and then fails. The stored record has `assignedAmbulance`
equal to the requested resource id, that user's full name and phone and the
requested estimated arrival; its status is `assigned`; its `updatedBy` is the actor; and
its timeline is the old timeline followed by an event of kind `assigned` whose
description names the resource (followed by the hook's event when the status
was not `assigned` before). A second call on the result overwrites the
assignment with the second resource in the same way and appends its own
naming event. Neither call succeeds: `io` is `undefined` in
`routes/emergency.js`, the socket call after `save` throws, and the `catch`
branch answers 500 with the record already written. -/
theorem assignAmbulance_writes_then_fails (c : Ctx) (db : Db) (id : String)
    (e : Emergency) (u amb : User) (a : String) (eta : Int)
    (he : db.emergencies id = some e) (hu : db.users c.actorId = some u)
    (hr : u.userType = "admin" ∨ u.userType = "hospital") (hne : a ≠ "")
    (hamb : db.users a = some amb) (hk : amb.userType = "ambulance")
    (hv : schemaValid e = true) :
    (assignAmbulance c db id { ambulanceId := some a, estimatedArrival := some eta }).1
      = serverError ∧
    (assignAmbulance c db id
        { ambulanceId := some a, estimatedArrival := some eta }).1.isSuccess = false ∧
    ∃ saved,
      (assignAmbulance c db id
          { ambulanceId := some a, estimatedArrival := some eta }).2.emergencies id
        = some saved ∧
      saved.assignedAmbulance = some
        { ambulanceId := a, driverName := amb.fullName, driverPhone := amb.phone,
          estimatedArrival := eta, currentLocation := none } ∧
      saved.status = "assigned" ∧
      saved.updatedBy = some c.actorId ∧
      saved.timeline =
        e.timeline ++
          [{ event := "assigned", timestamp := c.clock 0,
             description := "Ambulance assigned: " ++ amb.fullName,
             userId := some c.actorId, userType := none }] ++
          (if e.status = "assigned" then []
           else [{ event := "assigned", timestamp := c.clock 1,
                   description := "Emergency status changed to assigned",
                   userId := none, userType := none }]) ∧
      ∀ (c2 : Ctx) (u2 amb2 : User) (a2 : String) (eta2 : Int),
        db.users c2.actorId = some u2 →
        (u2.userType = "admin" ∨ u2.userType = "hospital") → a2 ≠ "" →
        db.users a2 = some amb2 → amb2.userType = "ambulance" →
        (assignAmbulance c2
            (assignAmbulance c db id
              { ambulanceId := some a, estimatedArrival := some eta }).2 id
            { ambulanceId := some a2, estimatedArrival := some eta2 }).1 = serverError ∧
        ∃ saved2,
          (assignAmbulance c2
              (assignAmbulance c db id
                { ambulanceId := some a, estimatedArrival := some eta }).2 id
              { ambulanceId := some a2, estimatedArrival := some eta2 }).2.emergencies id
            = some saved2 ∧
          saved2.assignedAmbulance = some
            { ambulanceId := a2, driverName := amb2.fullName, driverPhone := amb2.phone,
              estimatedArrival := eta2, currentLocation := none } ∧
          saved2.status = "assigned" ∧
          saved2.updatedBy = some c2.actorId ∧
          saved2.timeline =
            saved.timeline ++
              [{ event := "assigned", timestamp := c2.clock 0,
                 description := "Ambulance assigned: " ++ amb2.fullName,
                 userId := some c2.actorId, userType := none }] := by
  have h1 := assignAmbulance_stores c db id e u amb a eta he hu hr hne hamb hk hv
  have hf := assignAmbulanceSaved_fields c e a amb eta
  rw [h1]
  refine ⟨rfl, rfl, assignAmbulanceSaved c e a amb eta, by simp, hf.1, hf.2.1, hf.2.2,
    assignAmbulanceSaved_timeline c e a amb eta, ?_⟩
  intro c2 u2 amb2 a2 eta2 hu2 hr2 hne2 hamb2 hk2
  have h2 := assignAmbulance_stores c2
    { db with
      emergencies := Function.update db.emergencies id
        (some (assignAmbulanceSaved c e a amb eta)) }
    id (assignAmbulanceSaved c e a amb eta) u2 amb2 a2 eta2 (by simp) hu2 hr2 hne2 hamb2 hk2
    (schemaValid_assignAmbulanceSaved c e a amb eta hv)
  have hf2 := assignAmbulanceSaved_fields c2 (assignAmbulanceSaved c e a amb eta) a2 amb2 eta2
  rw [h2]
  refine ⟨rfl, assignAmbulanceSaved c2 (assignAmbulanceSaved c e a amb eta) a2 amb2 eta2,
    by simp, hf2.1, hf2.2.1, hf2.2.2, ?_⟩
  rw [assignAmbulanceSaved_timeline c2, if_pos hf.2.1]
  simp

/-- C7 (witness). An administrator assigns the ambulance user `amb` to the
pending sample record: the answer is the 500 of the `catch` branch, and the
stored record carries the assignment, the status `assigned` and the actor. -/
theorem assignAmbulance_writes_then_fails_witness :
    (sampleDb (sampleRecord "pat" "pending" sampleTimeline)).emergencies "e1" =
        some (sampleRecord "pat" "pending" sampleTimeline) ∧
    schemaValid (sampleRecord "pat" "pending" sampleTimeline) = true ∧
    (assignAmbulance (sampleCtx "adm") (sampleDb (sampleRecord "pat" "pending" sampleTimeline))
        "e1" { ambulanceId := some "amb", estimatedArrival := some 5000 }).1.isSuccess = false ∧
    ∃ saved,
      (assignAmbulance (sampleCtx "adm")
          (sampleDb (sampleRecord "pat" "pending" sampleTimeline))
          "e1" { ambulanceId := some "amb", estimatedArrival := some 5000 }).2.emergencies "e1"
        = some saved ∧
      saved.status = "assigned" ∧ saved.updatedBy = some "adm" := by
  obtain ⟨_, hfail, saved, h1, _, h2, h3, _⟩ :=
    assignAmbulance_writes_then_fails (sampleCtx "adm")
      (sampleDb (sampleRecord "pat" "pending" sampleTimeline)) "e1"
      (sampleRecord "pat" "pending" sampleTimeline) (sampleUser "Ada" "Admin" "admin")
      (sampleUser "Max" "Driver" "ambulance") "amb" 5000 rfl rfl (Or.inl rfl) (by decide)
      rfl rfl (by decide)
  exact ⟨rfl, by decide, hfail, saved, h1, h2, h3⟩
/-! ## C8: timeline events per status change -/

/-- C8 (counterexample). An update-status request from `pending` to
`assigned` is persisted (the stored status becomes `assigned`) and lengthens
the stored timeline by two events, not one: the handler's event and the event
pushed by the `pre('save')` hook. -/
theorem status_change_appends_two_events :
    ((sampleDb (sampleRecord "pat" "pending" sampleTimeline)).emergencies "e1").map
        (fun e => (e.status, e.timeline.length)) = some ("pending", 1) ∧
    ((updateStatus (sampleCtx "adm") (sampleDb (sampleRecord "pat" "pending" sampleTimeline))
        "e1" { status := some "assigned", notes := none }).2.emergencies "e1").map
        (fun e => (e.status, e.timeline.length)) = some ("assigned", 3) ∧
    ((updateStatus (sampleCtx "adm") (sampleDb (sampleRecord "pat" "pending" sampleTimeline))
        "e1" { status := some "assigned", notes := none }).2.emergencies "e1").map
        (fun e => e.timeline.map (fun t => t.event)) =
      some ["created", "assigned", "assigned"] := by
  decide

/-- C8 (amended). An update-status or assign-ambulance request that writes
to the database stores the old timeline followed by the handler's event, whose
kind is the new status, followed, when the stored status differed from the new
one, by one more event of the same kind pushed by the `pre('save')` hook: the
timeline grows by two events when the status value changes and by one when the
status is set to the value it already has. The document a cancel request hands
to the store is built the same way. -/
theorem status_change_timeline (c : Ctx) (db : Db) (id : String) :
    (∀ body, (updateStatus c db id body).2 ≠ db →
      ∃ e s saved,
        db.emergencies id = some e ∧ body.status = some s ∧
        (updateStatus c db id body).2.emergencies id = some saved ∧
        saved.status = s ∧
        saved.timeline =
          e.timeline ++
            [{ event := s, timestamp := c.clock 0,
               description := notesOrDefault body.notes s,
               userId := some c.actorId, userType := none }] ++
            (if e.status = s then []
             else [{ event := s, timestamp := c.clock (updateStatusHookTick s),
                     description := "Emergency status changed to " ++ s,
                     userId := none, userType := none }]) ∧
        saved.timeline.length = e.timeline.length + (if e.status = s then 1 else 2)) ∧
    (∀ body, (assignAmbulance c db id body).2 ≠ db →
      ∃ (e : Emergency) (amb : User) (saved : Emergency),
        db.emergencies id = some e ∧
        (assignAmbulance c db id body).2.emergencies id = some saved ∧
        saved.status = "assigned" ∧
        saved.timeline =
          e.timeline ++
            [{ event := "assigned", timestamp := c.clock 0,
               description := "Ambulance assigned: " ++ amb.fullName,
               userId := some c.actorId, userType := none }] ++
            (if e.status = "assigned" then []
             else [{ event := "assigned", timestamp := c.clock 1,
                     description := "Emergency status changed to assigned",
                     userId := none, userType := none }]) ∧
        saved.timeline.length =
          e.timeline.length + (if e.status = "assigned" then 1 else 2)) ∧
    (∀ e : Emergency,
      (cancelSaved c e).status = "cancelled" ∧
      (cancelSaved c e).timeline =
        e.timeline ++
          [{ event := "cancelled", timestamp := c.clock 1,
             description := "Emergency cancelled by user",
             userId := some c.actorId, userType := none }] ++
          (if e.status = "cancelled" then []
           else [{ event := "cancelled", timestamp := c.clock 2,
                   description := "Emergency status changed to cancelled",
                   userId := none, userType := none }]) ∧
      (cancelSaved c e).timeline.length =
        e.timeline.length + (if e.status = "cancelled" then 1 else 2)) := by
  refine ⟨?_, ?_, ?_⟩
  · intro body hne
    rcases updateStatus_db c db id body with h | ⟨e, s, he, hs, _, hdb⟩
    · exact absurd h hne
    · refine ⟨e, s, updateStatusSaved c e s body.notes, he, hs, ?_,
        updateStatusSaved_status c e s body.notes, updateStatusSaved_timeline c e s body.notes,
        ?_⟩
      · rw [hdb]
        simp
      · rw [updateStatusSaved_timeline]
        by_cases h : e.status = s <;> simp [h]
  · intro body hne
    rcases assignAmbulance_db c db id body with h | ⟨e, a, amb, eta, he, _, _, _, _, hdb⟩
    · exact absurd h hne
    · refine ⟨e, amb, assignAmbulanceSaved c e a amb eta, he, ?_, ?_,
        assignAmbulanceSaved_timeline c e a amb eta, ?_⟩
      · rw [hdb]
        simp
      · simp [assignAmbulanceSaved, preSave_existing, assignAmbulanceDoc,
          Emergency.addTimelineEvent]
      · rw [assignAmbulanceSaved_timeline]
        by_cases h : e.status = "assigned" <;> simp [h]
  · intro e
    refine ⟨?_, cancelSaved_timeline c e, ?_⟩
    · simp [cancelSaved, preSave_existing, cancelDoc, Emergency.addTimelineEvent]
    · rw [cancelSaved_timeline]
      by_cases h : e.status = "cancelled" <;> simp [h]

/-- C8 (witness). The amended statement at an update-status request that
sets the status `assigned` on a record that is already `assigned`: the request
writes, and one event is appended. -/
theorem status_change_timeline_witness :
    (updateStatus (sampleCtx "adm") (sampleDb (sampleRecord "pat" "assigned" sampleTimeline))
        "e1" { status := some "assigned", notes := none }).2 ≠
      sampleDb (sampleRecord "pat" "assigned" sampleTimeline) ∧
    ∃ saved,
      (updateStatus (sampleCtx "adm") (sampleDb (sampleRecord "pat" "assigned" sampleTimeline))
          "e1" { status := some "assigned", notes := none }).2.emergencies "e1" = some saved ∧
      saved.timeline.length = 2 := by
  have hne : (updateStatus (sampleCtx "adm")
      (sampleDb (sampleRecord "pat" "assigned" sampleTimeline))
      "e1" { status := some "assigned", notes := none }).2 ≠
      sampleDb (sampleRecord "pat" "assigned" sampleTimeline) := by
    intro h
    have h2 := congrArg (fun d => (d.emergencies "e1").map (fun e => e.timeline.length)) h
    revert h2
    decide
  obtain ⟨e, s, saved, he, hs, hsaved, _, _, hlen⟩ :=
    (status_change_timeline (sampleCtx "adm")
      (sampleDb (sampleRecord "pat" "assigned" sampleTimeline)) "e1").1
      { status := some "assigned", notes := none } hne
  refine ⟨hne, saved, hsaved, ?_⟩
  have he2 : e = sampleRecord "pat" "assigned" sampleTimeline := by
    have h : (sampleDb (sampleRecord "pat" "assigned" sampleTimeline)).emergencies "e1" =
        some (sampleRecord "pat" "assigned" sampleTimeline) := rfl
    rw [h] at he
    exact (Option.some.inj he).symm
  have hs2 : s = "assigned" := (Option.some.inj hs).symm
  subst he2 hs2
  simpa [sampleRecord, sampleTimeline] using hlen

/-! ## C9: the timeline is append-only -/

/-- C9. For every operation, the timeline before is a prefix of the timeline
after. For the six handlers: every emergency stored before the request is
stored after it under the same `_id` with a timeline that starts with its old
timeline (a record a create request inserts starts from the empty timeline).
For the document methods `addTimelineEvent` and `updateResponseTimes` and for
the `pre('save')` hook: the timeline of the argument is a prefix of the
timeline of the result. -/
theorem timeline_append_only (c : Ctx) (db : Db) (id : String) :
    (∀ body, TimelineExtends db (create c db body).2) ∧
    (∀ body, TimelineExtends db (updateStatus c db id body).2) ∧
    (∀ body, TimelineExtends db (assignAmbulance c db id body).2) ∧
    (∀ body, TimelineExtends db (updateLocation c db id body).2) ∧
    (∀ message, TimelineExtends db (postChatMessage c db id message).2) ∧
    TimelineExtends db (cancel c db id).2 ∧
    (∀ (e : Emergency) (event description userId : String) (now : Int),
      e.timeline <+: (e.addTimelineEvent event description userId now).timeline) ∧
    (∀ e : Emergency, e.timeline <+: e.updateResponseTimes.timeline) ∧
    (∀ (isNew statusModified : Bool) (idNow : Int) (random : String) (eventNow : Int)
        (e : Emergency),
      e.timeline <+: (preSave isNew statusModified idNow random eventNow e).timeline) ∧
    (∀ user body, (newEmergency c user body).timeline = []) := by
  refine ⟨create_extends c db, updateStatus_extends c db id, assignAmbulance_extends c db id,
    updateLocation_extends c db id, postChatMessage_extends c db id, cancel_extends c db id,
    ?_, ?_, ?_, ?_⟩
  · intro e event description userId now
    simp [Emergency.addTimelineEvent]
  · intro e
    rw [updateResponseTimes_timeline]
  · intro n m i r t e
    exact preSave_timeline_extends n m i r t e
  · intro user body
    rfl

/-! ## C10: the total response time -/

/-- C10. For every record whose timeline contains an event of kind `created`
and an event of kind `ambulance-arrived`, after `updateResponseTimes` the
metric `totalResponseTime` is set to the timestamp of the earliest
`ambulance-arrived` event minus the timestamp of the earliest `created` event,
a number of milliseconds, divided by 1000. -/
theorem totalResponseTime_exact (e : Emergency)
    (hcreated : ∃ t ∈ e.timeline, t.event = "created")
    (harrived : ∃ t ∈ e.timeline, t.event = "ambulance-arrived") :
    ∃ created arrived,
      FirstOfKind e.timeline "created" created ∧
      FirstOfKind e.timeline "ambulance-arrived" arrived ∧
      e.updateResponseTimes.responseTime.totalResponseTime =
        some (((arrived.timestamp - created.timestamp : Int) : ℚ) / 1000) := by
  obtain ⟨cr, hfc, hc1⟩ := find?_firstOfKind e.timeline "created" hcreated
  obtain ⟨ar, hfa, ha1⟩ := find?_firstOfKind e.timeline "ambulance-arrived" harrived
  refine ⟨cr, ar, hc1, ha1, ?_⟩
  have hlen : 2 ≤ e.timeline.length := by
    apply two_le_length_of_two_kinds e.timeline cr ar (List.mem_of_find?_eq_some hfc)
      (List.mem_of_find?_eq_some hfa)
    obtain ⟨_, _, _, h1, _⟩ := hc1
    obtain ⟨_, _, _, h2, _⟩ := ha1
    rw [h1, h2]
    decide
  unfold Emergency.updateResponseTimes
  simp only [hlen, if_true, hfc, hfa]

/-- C10 (witness). On the sample timeline (`created` at 1000 ms,
`ambulance-arrived` at 481500 ms) the hypotheses hold, and the total response
time is 480.5 s. -/
theorem totalResponseTime_exact_witness :
    (∃ t ∈ (sampleRecord "pat" "arrived" milestoneTimeline).timeline, t.event = "created") ∧
    (∃ t ∈ (sampleRecord "pat" "arrived" milestoneTimeline).timeline,
      t.event = "ambulance-arrived") ∧
    (∃ created arrived,
      FirstOfKind (sampleRecord "pat" "arrived" milestoneTimeline).timeline "created" created ∧
      FirstOfKind (sampleRecord "pat" "arrived" milestoneTimeline).timeline
        "ambulance-arrived" arrived ∧
      (sampleRecord "pat" "arrived"
          milestoneTimeline).updateResponseTimes.responseTime.totalResponseTime =
        some (((arrived.timestamp - created.timestamp : Int) : ℚ) / 1000)) ∧
    (sampleRecord "pat" "arrived"
        milestoneTimeline).updateResponseTimes.responseTime.totalResponseTime
      = some (961 / 2) :=
  ⟨⟨_, List.mem_cons_self _ _, rfl⟩,
   ⟨_, List.mem_cons_of_mem _ (List.mem_cons_of_mem _ (List.mem_cons_self _ _)), rfl⟩,
   totalResponseTime_exact (sampleRecord "pat" "arrived" milestoneTimeline)
     ⟨_, List.mem_cons_self _ _, rfl⟩
     ⟨_, List.mem_cons_of_mem _ (List.mem_cons_of_mem _ (List.mem_cons_self _ _)), rfl⟩,
   by
     simp [Emergency.updateResponseTimes, sampleRecord, milestoneTimeline]
     norm_num⟩

/-! ## C11: `updateResponseTimes` is idempotent and writes only the metrics -/

/-- C11. For every record, applying `updateResponseTimes` twice gives the
same record as applying it once, and the result differs from the argument at
most in `responseTime`: putting the old metrics back gives the argument, so
the timeline, the status and every other path are unchanged. -/
theorem updateResponseTimes_idempotent (e : Emergency) :
    e.updateResponseTimes.updateResponseTimes = e.updateResponseTimes ∧
    { e.updateResponseTimes with responseTime := e.responseTime } = e ∧
    e.updateResponseTimes.timeline = e.timeline ∧
    e.updateResponseTimes.status = e.status := by
  refine ⟨?_, ?_, updateResponseTimes_timeline e, updateResponseTimes_status e⟩
  · unfold Emergency.updateResponseTimes
    by_cases h : 2 ≤ e.timeline.length
    · simp only [h, if_true]
      cases e.timeline.find? (fun t => t.event == "created") <;>
        cases e.timeline.find? (fun t => t.event == "assigned") <;>
          cases e.timeline.find? (fun t => t.event == "ambulance-arrived") <;> rfl
    · simp only [h, if_false]
  · unfold Emergency.updateResponseTimes
    split <;> rfl

/-! ## C12: which events the metrics are computed from -/

/-- C12. `updateResponseTimes` computes each metric from the earliest event of
each of its two kinds: `alertToAssignment` from `created` and `assigned`,
`assignmentToArrival` from `assigned` and `ambulance-arrived`,
`totalResponseTime` from `created` and `ambulance-arrived`; when both kinds
occur the metric is set to the difference of the two earliest timestamps
divided by 1000, whatever later events of the same kinds follow, and when one
of the two kinds does not occur the metric is left as it was (unset stays
unset). -/
theorem updateResponseTimes_milestones (e : Emergency) :
    (∀ c a, FirstOfKind e.timeline "created" c → FirstOfKind e.timeline "assigned" a →
      e.updateResponseTimes.responseTime.alertToAssignment =
        some (((a.timestamp - c.timestamp : Int) : ℚ) / 1000)) ∧
    (∀ a v, FirstOfKind e.timeline "assigned" a →
      FirstOfKind e.timeline "ambulance-arrived" v →
      e.updateResponseTimes.responseTime.assignmentToArrival =
        some (((v.timestamp - a.timestamp : Int) : ℚ) / 1000)) ∧
    (∀ c v, FirstOfKind e.timeline "created" c →
      FirstOfKind e.timeline "ambulance-arrived" v →
      e.updateResponseTimes.responseTime.totalResponseTime =
        some (((v.timestamp - c.timestamp : Int) : ℚ) / 1000)) ∧
    (((∀ t ∈ e.timeline, t.event ≠ "created") ∨ (∀ t ∈ e.timeline, t.event ≠ "assigned")) →
      e.updateResponseTimes.responseTime.alertToAssignment =
        e.responseTime.alertToAssignment) ∧
    (((∀ t ∈ e.timeline, t.event ≠ "assigned") ∨
        (∀ t ∈ e.timeline, t.event ≠ "ambulance-arrived")) →
      e.updateResponseTimes.responseTime.assignmentToArrival =
        e.responseTime.assignmentToArrival) ∧
    (((∀ t ∈ e.timeline, t.event ≠ "created") ∨
        (∀ t ∈ e.timeline, t.event ≠ "ambulance-arrived")) →
      e.updateResponseTimes.responseTime.totalResponseTime =
        e.responseTime.totalResponseTime) := by
  have hlen : ∀ (k1 k2 : String) (x y : TimelineEvent), k1 ≠ k2 →
      FirstOfKind e.timeline k1 x → FirstOfKind e.timeline k2 y → 2 ≤ e.timeline.length := by
    intro k1 k2 x y hne hx hy
    apply two_le_length_of_two_kinds e.timeline x y (firstOfKind_mem hx) (firstOfKind_mem hy)
    obtain ⟨_, _, _, h1, _⟩ := hx
    obtain ⟨_, _, _, h2, _⟩ := hy
    rw [h1, h2]
    exact hne
  refine ⟨?_, ?_, ?_, ?_, ?_, ?_⟩
  · intro c a hc ha
    have h2 := hlen _ _ c a (by decide) hc ha
    unfold Emergency.updateResponseTimes
    simp only [h2, if_true, (firstOfKind_find? hc), (firstOfKind_find? ha)]
    cases e.timeline.find? (fun t => t.event == "ambulance-arrived") <;> rfl
  · intro a v ha hv
    have h2 := hlen _ _ a v (by decide) ha hv
    unfold Emergency.updateResponseTimes
    simp only [h2, if_true, (firstOfKind_find? ha), (firstOfKind_find? hv)]
    cases e.timeline.find? (fun t => t.event == "created") <;> rfl
  · intro c v hc hv
    have h2 := hlen _ _ c v (by decide) hc hv
    unfold Emergency.updateResponseTimes
    simp only [h2, if_true, (firstOfKind_find? hc), (firstOfKind_find? hv)]
  · intro h
    unfold Emergency.updateResponseTimes
    split
    · rcases h with h | h
      · simp only [find?_absent _ _ h]
        cases e.timeline.find? (fun t => t.event == "assigned") <;>
          cases e.timeline.find? (fun t => t.event == "ambulance-arrived") <;> rfl
      · simp only [find?_absent _ _ h]
        cases e.timeline.find? (fun t => t.event == "created") <;>
          cases e.timeline.find? (fun t => t.event == "ambulance-arrived") <;> rfl
    · rfl
  · intro h
    unfold Emergency.updateResponseTimes
    split
    · rcases h with h | h
      · simp only [find?_absent _ _ h]
        cases e.timeline.find? (fun t => t.event == "created") <;>
          cases e.timeline.find? (fun t => t.event == "ambulance-arrived") <;> rfl
      · simp only [find?_absent _ _ h]
        cases e.timeline.find? (fun t => t.event == "created") <;>
          cases e.timeline.find? (fun t => t.event == "assigned") <;> rfl
    · rfl
  · intro h
    unfold Emergency.updateResponseTimes
    split
    · rcases h with h | h
      · simp only [find?_absent _ _ h]
        cases e.timeline.find? (fun t => t.event == "assigned") <;>
          cases e.timeline.find? (fun t => t.event == "ambulance-arrived") <;> rfl
      · simp only [find?_absent _ _ h]
        cases e.timeline.find? (fun t => t.event == "created") <;>
          cases e.timeline.find? (fun t => t.event == "assigned") <;> rfl
    · rfl

/-- C12 (witness). On a timeline where `assigned` occurs at 61000 ms and again
at 90000 ms after `created` at 1000 ms, the earliest events are the ones at
1000 ms and 61000 ms and `alertToAssignment` is 60 s: the later duplicate is
ignored. -/
theorem updateResponseTimes_milestones_witness :
    FirstOfKind (sampleRecord "pat" "assigned" duplicateTimeline).timeline "created"
      { event := "created", timestamp := 1000, description := "Emergency alert created",
        userId := some "pat", userType := none } ∧
    FirstOfKind (sampleRecord "pat" "assigned" duplicateTimeline).timeline "assigned"
      { event := "assigned", timestamp := 61000,
        description := "Ambulance assigned: Max Driver",
        userId := some "adm", userType := none } ∧
    (sampleRecord "pat" "assigned"
        duplicateTimeline).updateResponseTimes.responseTime.alertToAssignment
      = some ((((61000 : Int) - 1000 : Int) : ℚ) / 1000) := by
  have hc : FirstOfKind (sampleRecord "pat" "assigned" duplicateTimeline).timeline "created"
      { event := "created", timestamp := 1000, description := "Emergency alert created",
        userId := some "pat", userType := none } :=
    ⟨[], _, rfl, rfl, by simp⟩
  have ha : FirstOfKind (sampleRecord "pat" "assigned" duplicateTimeline).timeline "assigned"
      { event := "assigned", timestamp := 61000,
        description := "Ambulance assigned: Max Driver",
        userId := some "adm", userType := none } :=
    ⟨[{ event := "created", timestamp := 1000, description := "Emergency alert created",
        userId := some "pat", userType := none }], _, rfl, rfl, by simp⟩
  exact ⟨hc, ha, (updateResponseTimes_milestones _).1 _ _ hc ha⟩

/-! ## C13: the scenario `assigned`, `en-route`, `arrived`, `completed` -/

/-- C13 (the code at the failing input). From the fresh record, the
update-status request for `assigned` by an administrator stores the status
`assigned` and is answered by the `catch` branch: `io` is `undefined`, so the
socket call after `save` throws. The next request, for `en-route`, is answered
by the `catch` branch as well, this time before anything is written, and the
stored status stays `assigned`: the handler pushes the status name as the kind
of the timeline event, and `en-route` (like `arrived`) is not a member of the
`timeline.event` enumeration. Schema validation set aside, the documents the
handler builds along the whole sequence end with `completedAt` set and
`alertToAssignment` computed, but with `assignmentToArrival` and
`totalResponseTime` unset: the arrival is recorded under the kind `arrived`,
and `updateResponseTimes` looks for `ambulance-arrived`. -/
theorem status_sequence_stops_at_assigned :
    (updateStatus (sampleCtx "adm") (sampleDb freshRecord) "e1"
        { status := some "assigned", notes := none }).1 = serverError ∧
    ((updateStatus (sampleCtx "adm") (sampleDb freshRecord) "e1"
        { status := some "assigned", notes := none }).2.emergencies "e1").map
        (fun e => e.status) = some "assigned" ∧
    (updateStatus (sampleCtx "adm")
        (updateStatus (sampleCtx "adm") (sampleDb freshRecord) "e1"
          { status := some "assigned", notes := none }).2 "e1"
        { status := some "en-route", notes := none }).1 = serverError ∧
    ((updateStatus (sampleCtx "adm")
        (updateStatus (sampleCtx "adm") (sampleDb freshRecord) "e1"
          { status := some "assigned", notes := none }).2 "e1"
        { status := some "en-route", notes := none }).2.emergencies "e1").map
        (fun e => e.status) = some "assigned" ∧
    "en-route" ∉ timelineEventEnum ∧ "arrived" ∉ timelineEventEnum ∧
    scenarioDoc.status = "completed" ∧
    scenarioDoc.timeline.map (fun t => t.event) =
      ["created", "assigned", "assigned", "en-route", "en-route", "arrived", "arrived",
       "completed", "completed"] ∧
    scenarioDoc.completedAt = some 1001 ∧
    scenarioDoc.responseTime.alertToAssignment.isSome = true ∧
    scenarioDoc.responseTime.assignmentToArrival = none ∧
    scenarioDoc.responseTime.totalResponseTime = none := by
  refine ⟨by decide, by decide, by decide, by decide, by decide, by decide, by decide,
    by decide, by decide, by decide, by decide, by decide⟩
/-! ## C15: validation of a creation request -/

/-- C15 (the code against the design). The validation chain of create is
compared with `missingOrMalformedFields`, the required fields that are
missing or malformed in the design's sense. Whenever create answers
`ValidationError`, some required field is missing or malformed, the failure
carries `createErrors` and the database is the one given. The converse fails
for the type: the request whose type is `banana` and whose other fields are
valid has the malformed field `type`, yet the chain lists no violation and the
answer is not `ValidationError`. For a type that is absent, empty or one of
the eight enumerated types the two agree: create answers `ValidationError`
exactly when a required field is missing or malformed, and lists one violation
for every such field. -/
theorem create_validation_misses_malformed_type (c : Ctx) (db : Db) (body : CreateBody) :
    ((create c db body).1.kind = some ErrorKind.validationError →
      missingOrMalformedFields body ≠ [] ∧
      create c db body = (.failure .validationError (createErrors body), db)) ∧
    ((notEmpty body.type = false ∨ isIn typeEnum body.type = true) →
      ((create c db body).1.kind = some ErrorKind.validationError ↔
        missingOrMalformedFields body ≠ []) ∧
      (createErrors body).length = (missingOrMalformedFields body).length) ∧
    (missingOrMalformedFields { scenarioBody with type := some "banana" } = ["type"] ∧
      createErrors { scenarioBody with type := some "banana" } = [] ∧
      (create (sampleCtx "pat") (sampleDb freshRecord)
          { scenarioBody with type := some "banana" }).1.kind
        ≠ some ErrorKind.validationError ∧
      createErrors { scenarioBody with type := none, priority := some "soon" } =
        ["Emergency type is required", "Priority level is required"]) := by
  have hkind : (create c db body).1.kind = some ErrorKind.validationError ↔
      createErrors body ≠ [] := by
    rw [create_eq]
    by_cases h : createErrors body = []
    · simp only [h, if_true]
      cases findById db db.users c.actorId <;> simp [Response.kind, serverError]
    · simp [h, Response.kind]
  have hin : ∀ t : String, isIn typeEnum (some t) = true → notEmpty (some t) = true := by
    intro t ht
    simp only [isIn, typeEnum, List.contains_cons, List.contains_nil, Bool.or_false,
      Bool.or_eq_true, beq_iff_eq] at ht
    simp only [notEmpty, bne_iff_ne, ne_eq]
    rcases ht with h | h | h | h | h | h | h | h <;> rw [h] <;> decide
  refine ⟨?_, ?_, by decide, by decide, by decide, by decide⟩
  · intro h
    refine ⟨?_, ?_⟩
    · have h2 := hkind.mp h
      intro h3
      apply h2
      unfold missingOrMalformedFields at h3
      unfold createErrors
      have ht : notEmpty body.type = true := by
        cases hty : body.type with
        | none => simp [hty, isIn] at h3
        | some t =>
          apply hin t
          by_contra hc
          simp [hty, hc] at h3
      simp only [severityEnum, priorityEnum] at h3
      by_cases hs : isIn ["low", "medium", "high", "critical"] body.severity = true <;>
        by_cases hp : isIn ["routine", "urgent", "emergency", "immediate"] body.priority
          = true <;>
        by_cases hd : notEmpty body.description = true <;>
        by_cases hla : body.latitude.isSome = true <;>
        by_cases hlo : body.longitude.isSome = true <;>
        simp_all
    · rw [create_eq, if_neg (hkind.mp h)]
  · intro hty
    have hagree : notEmpty body.type = isIn typeEnum body.type := by
      rcases hty with h | h
      · rw [h]
        cases hb : body.type with
        | none => rfl
        | some t =>
          cases hi : isIn typeEnum (some t) with
          | false => rfl
          | true =>
            rw [hb, hin t hi] at h
            cases h
      · rw [h]
        cases hb : body.type with
        | none => simp [hb, isIn] at h
        | some t =>
          rw [hb] at h
          exact hin t h
    rw [hkind]
    unfold createErrors missingOrMalformedFields
    simp only [severityEnum, priorityEnum]
    by_cases ht : isIn typeEnum body.type = true <;>
      by_cases hs : isIn ["low", "medium", "high", "critical"] body.severity = true <;>
      by_cases hp : isIn ["routine", "urgent", "emergency", "immediate"] body.priority
        = true <;>
      by_cases hd : notEmpty body.description = true <;>
      by_cases hla : body.latitude.isSome = true <;>
      by_cases hlo : body.longitude.isSome = true <;>
      simp [hagree, ht, hs, hp, hd, hla, hlo]

/-! ## C16: a type outside the enumeration -/

/-- C16 (the code at the failing input). A creation request whose type is
`banana`, not one of the eight enumerated types, and whose other fields are
valid passes the validation chain (no violation is listed) and is not answered
with `ValidationError`: the validator of `type` is `notEmpty()` and the type
only meets its enumeration in `save`, whose rejection the `catch` branch
answers. The same request with severity `banana` is answered with
`ValidationError`. -/
theorem create_unknown_type_not_validationError :
    "banana" ∉ typeEnum ∧
    createErrors { scenarioBody with type := some "banana" } = [] ∧
    (create (sampleCtx "pat") (sampleDb freshRecord)
        { scenarioBody with type := some "banana" }).1 = serverError ∧
    (create (sampleCtx "pat") (sampleDb freshRecord)
        { scenarioBody with type := some "banana" }).1.kind
      ≠ some ErrorKind.validationError ∧
    (create (sampleCtx "pat") (sampleDb freshRecord)
        { scenarioBody with severity := some "banana" }).1
      = .failure .validationError ["Severity level is required"] := by
  refine ⟨by decide, by decide, by decide, by decide, by decide⟩

/-! ## C17: what create returns for a valid request -/

/-- C17 (the code at the failing input). The scenario request (type cardiac,
severity critical, priority immediate, valid coordinates) by an existing
patient passes the validation chain, and create answers with the `catch`
branch and stores nothing: the document built by `new Emergency(...)` has no
`emergencyId`, the schema requires one, and the first `save` validates the
document before the `pre('save')` hook that would generate it. The document
create would return, were its `save` calls to resolve, has the generated
identifier, status `pending` and a timeline of exactly one event, of kind
`created` and attributed to the actor. -/
theorem create_valid_request_fails :
    createErrors scenarioBody = [] ∧
    (sampleDb freshRecord).users (sampleCtx "pat").actorId
      = some (sampleUser "Pat" "Smith" "patient") ∧
    (newEmergency (sampleCtx "pat") (sampleUser "Pat" "Smith" "patient")
        scenarioBody).emergencyId = "" ∧
    schemaValid (newEmergency (sampleCtx "pat") (sampleUser "Pat" "Smith" "patient")
        scenarioBody) = false ∧
    (create (sampleCtx "pat") (sampleDb freshRecord) scenarioBody).1 = serverError ∧
    (create (sampleCtx "pat") (sampleDb freshRecord) scenarioBody).2.emergencies
        (sampleCtx "pat").newId = none ∧
    (createFinalDoc (sampleCtx "pat") (sampleUser "Pat" "Smith" "patient")
        scenarioBody).emergencyId = "EMG-1001-Z9Y8X" ∧
    (createFinalDoc (sampleCtx "pat") (sampleUser "Pat" "Smith" "patient")
        scenarioBody).status = "pending" ∧
    (createFinalDoc (sampleCtx "pat") (sampleUser "Pat" "Smith" "patient")
        scenarioBody).timeline =
      [{ event := "created", timestamp := 1002, description := "Emergency alert created",
         userId := some "pat", userType := none }] := by
  refine ⟨by decide, by decide, by decide, by decide, by decide, by decide, by decide,
    by decide, by decide⟩

/-! ## C14: completion and cancellation stamps -/

/-- C14 (counterexample). From the fresh record, an update-status request for
`completed` followed by one for `assigned`, both by an administrator, leaves a
stored record whose status is `assigned` and whose `completedAt` is set; and
a second request for `completed`, made later, replaces the stamp 1001 by
5001. -/
theorem completedAt_outlives_completed :
    freshRecord.status = "pending" ∧ freshRecord.completedAt = none ∧
    ((updateStatus (sampleCtx "adm")
        (updateStatus (sampleCtx "adm") (sampleDb freshRecord) "e1"
          { status := some "completed", notes := none }).2 "e1"
        { status := some "assigned", notes := none }).2.emergencies "e1").map
        (fun e => (e.status, e.completedAt)) = some ("assigned", some 1001) ∧
    ((updateStatus (sampleCtx "adm") (sampleDb freshRecord) "e1"
          { status := some "completed", notes := none }).2.emergencies "e1").map
        (fun e => (e.status, e.completedAt)) = some ("completed", some 1001) ∧
    ((updateStatus (laterCtx "adm")
        (updateStatus (sampleCtx "adm") (sampleDb freshRecord) "e1"
          { status := some "completed", notes := none }).2 "e1"
        { status := some "completed", notes := none }).2.emergencies "e1").map
        (fun e => (e.status, e.completedAt)) = some ("completed", some 5001) := by
  refine ⟨by decide, by decide, by decide, by decide, by decide⟩

/-- C14 (amended). Start from a database in which every record whose status
is `completed` has `completedAt` set and every record whose status is
`cancelled` has `cancelledAt` set (a freshly created record is such a record).
After any sequence of create, update-status, assign-ambulance and cancel
requests the same holds of every stored record, and every record of the
starting database is still stored with each stamp it had still set. -/
theorem stamps_follow_status (db0 db : Db) (h0 : Db.All Stamped db0)
    (hr : Reachable db0 db) :
    Db.All Stamped db ∧ Db.Rel KeepsStamps db0 db := by
  induction hr with
  | start => exact ⟨h0, dbRel_refl keepsStamps_refl db0⟩
  | byCreate c body _ ih =>
    rw [create_db]
    exact ih
  | byUpdateStatus c id body _ ih =>
    obtain ⟨h1, h2⟩ := updateStatus_stamps c _ id body ih.1
    exact ⟨h1, @dbRel_trans KeepsStamps (fun _ _ _ => keepsStamps_trans) _ _ _ ih.2 h2⟩
  | byAssignAmbulance c id body _ ih =>
    obtain ⟨h1, h2⟩ := assignAmbulance_stamps c _ id body ih.1
    exact ⟨h1, @dbRel_trans KeepsStamps (fun _ _ _ => keepsStamps_trans) _ _ _ ih.2 h2⟩
  | byCancel c id _ ih =>
    obtain ⟨h1, h2⟩ := cancel_stamps c _ id ih.1
    exact ⟨h1, @dbRel_trans KeepsStamps (fun _ _ _ => keepsStamps_trans) _ _ _ ih.2 h2⟩

/-- C14 (witness). The database holding the fresh record satisfies the
hypothesis, the database reached by `completed` then `assigned` is reachable
from it, and the record stored there has a status other than `completed` and
its completion stamp still set. -/
theorem stamps_follow_status_witness :
    Db.All Stamped (sampleDb freshRecord) ∧
    Reachable (sampleDb freshRecord)
      (updateStatus (sampleCtx "adm")
        (updateStatus (sampleCtx "adm") (sampleDb freshRecord) "e1"
          { status := some "completed", notes := none }).2 "e1"
        { status := some "assigned", notes := none }).2 ∧
    Db.All Stamped
      (updateStatus (sampleCtx "adm")
        (updateStatus (sampleCtx "adm") (sampleDb freshRecord) "e1"
          { status := some "completed", notes := none }).2 "e1"
        { status := some "assigned", notes := none }).2 := by
  have h0 : Db.All Stamped (sampleDb freshRecord) := by
    intro k e he
    simp only [sampleDb] at he
    split at he
    · cases he
      unfold Stamped
      decide
    · cases he
  have hr : Reachable (sampleDb freshRecord)
      (updateStatus (sampleCtx "adm")
        (updateStatus (sampleCtx "adm") (sampleDb freshRecord) "e1"
          { status := some "completed", notes := none }).2 "e1"
        { status := some "assigned", notes := none }).2 :=
    Reachable.byUpdateStatus _ _ _ (Reachable.byUpdateStatus _ _ _ Reachable.start)
  exact ⟨h0, hr, (stamps_follow_status _ _ h0 hr).1⟩
/-! ## C18: the seeded contact notifications -/

/-- C18 (the code at the failing input). No create request succeeds, and none
changes the database: the loop that seeds `contactsNotified` (routes lines
84-94) is never reached, because the first `save` rejects the new document
(its `emergencyId` is required and still empty when the schema is validated)
and, past the two `save` calls, the socket call on the undefined `io` throws.
The loop itself seeds the entries: `notifyContacts` appends one entry
per contact, in order, each copying the contact's name, relationship and phone
with `notificationStatus` equal to `pending`. At the failing input, a valid
request by the sample patient who has two registered contacts, the answer is
the 500 of the `catch` branch and no record is stored. -/
theorem create_never_seeds_contacts (c : Ctx) (db : Db) (body : CreateBody) :
    (create c db body).1.isSuccess = false ∧
    (create c db body).2 = db ∧
    (∀ (e : Emergency) (contacts : List EmergencyContact),
      (notifyContacts e contacts).contactsNotified =
        e.contactsNotified ++ contacts.map (fun k =>
          { name := k.name, relationship := k.relationship, phone := k.phone,
            notificationStatus := "pending" })) ∧
    (contactsDb.users (sampleCtx "pat").actorId = some sampleUserWithContacts ∧
      sampleUserWithContacts.emergencyContacts.length = 2 ∧
      createErrors scenarioBody = [] ∧
      (create (sampleCtx "pat") contactsDb scenarioBody).1 = serverError ∧
      (create (sampleCtx "pat") contactsDb scenarioBody).2.emergencies
        (sampleCtx "pat").newId = none) := by
  refine ⟨?_, create_db c db body, fun _ _ => rfl, by decide, by decide, by decide, by decide,
    by decide⟩
  rw [create_eq]
  split
  · split <;> rfl
  · rfl

/-! ## C19: who may update the location, and what an update writes -/

/-- C19. For an existing emergency and a body with both coordinates: an
existing actor is refused with `Forbidden` exactly when the actor is not the
subject and has neither the type admin nor the type ambulance; the subject is
never refused; a refused request returns the database it was given, so the
location is unchanged; a request that writes stores the record with `location`
holding the requested coordinates and accuracy and the time of the request,
with status and timeline as they were; and the request of an authorized actor
writes whenever the stored record is schema-valid. -/
theorem updateLocation_authorization (c : Ctx) (db : Db) (id : String) (e : Emergency)
    (body : UpdateLocationBody) (lat lon : Int)
    (he : db.emergencies id = some e)
    (hlat : body.latitude = some lat) (hlon : body.longitude = some lon) :
    (∀ u, db.users c.actorId = some u →
      ((updateLocation c db id body).1.kind = some ErrorKind.forbidden ↔
        ¬ (e.patientId = c.actorId ∨ u.userType = "admin" ∨ u.userType = "ambulance"))) ∧
    (e.patientId = c.actorId →
      (updateLocation c db id body).1.kind ≠ some ErrorKind.forbidden) ∧
    ((updateLocation c db id body).1.kind = some ErrorKind.forbidden →
      (updateLocation c db id body).2 = db) ∧
    ((updateLocation c db id body).2 ≠ db →
      ∃ saved, (updateLocation c db id body).2.emergencies id = some saved ∧
        saved.location =
          { latitude := lat, longitude := lon, accuracy := body.accuracy,
            timestamp := some (c.clock 0) } ∧
        saved.status = e.status ∧ saved.timeline = e.timeline) ∧
    (∀ u, db.users c.actorId = some u →
      (e.patientId = c.actorId ∨ u.userType = "admin" ∨ u.userType = "ambulance") →
      schemaValid e = true →
      ∃ saved, (updateLocation c db id body).2.emergencies id = some saved ∧
        saved.location =
          { latitude := lat, longitude := lon, accuracy := body.accuracy,
            timestamp := some (c.clock 0) } ∧
        saved.status = e.status ∧ saved.timeline = e.timeline) := by
  have hsave : ∀ P : Response × Db → Prop,
      P (serverError,
         { db with
           emergencies := Function.update db.emergencies id
             (some (updateLocationSaved c e lat lon body.accuracy)) }) →
      P (serverError, db) → P (updateLocationSave c db id e lat lon body.accuracy) := by
    intro P h1 h2
    rw [updateLocationSave_eq]
    split
    · exact h1
    · exact h2
  have hsaved : (updateLocationSaved c e lat lon body.accuracy).location =
        { latitude := lat, longitude := lon, accuracy := body.accuracy,
          timestamp := some (c.clock 0) } ∧
      (updateLocationSaved c e lat lon body.accuracy).status = e.status ∧
      (updateLocationSaved c e lat lon body.accuracy).timeline = e.timeline := by
    simp [updateLocationSaved, preSave_existing, updateLocationDoc]
  rw [updateLocation_eq c db id e body lat lon he hlat hlon]
  refine ⟨?_, ?_, ?_, ?_, ?_⟩
  · intro u hu
    by_cases hp : e.patientId = c.actorId
    · simp only [hp, if_true, true_or, not_true, iff_false]
      exact updateLocationSave_kind c db id e lat lon body.accuracy
    · simp only [hp, if_false, findById_doc db db.users c.actorId u hu, false_or]
      by_cases hr : u.userType = "admin" ∨ u.userType = "ambulance"
      · simp only [hr, if_true, not_true, iff_false]
        exact updateLocationSave_kind c db id e lat lon body.accuracy
      · simp [hr, Response.kind]
  · intro hp
    simp only [hp, if_true]
    exact updateLocationSave_kind c db id e lat lon body.accuracy
  · split
    · intro h
      exact absurd h (updateLocationSave_kind c db id e lat lon body.accuracy)
    · split
      · intro _
        rfl
      · intro _
        rfl
      · split
        · intro h
          exact absurd h (updateLocationSave_kind c db id e lat lon body.accuracy)
        · intro _
          rfl
  · have hgoal : (updateLocationSave c db id e lat lon body.accuracy).2 ≠ db →
        ∃ saved, (updateLocationSave c db id e lat lon body.accuracy).2.emergencies id
            = some saved ∧
          saved.location =
            { latitude := lat, longitude := lon, accuracy := body.accuracy,
              timestamp := some (c.clock 0) } ∧
          saved.status = e.status ∧ saved.timeline = e.timeline := by
      apply hsave (fun p => p.2 ≠ db →
        ∃ saved, p.2.emergencies id = some saved ∧
          saved.location =
            { latitude := lat, longitude := lon, accuracy := body.accuracy,
              timestamp := some (c.clock 0) } ∧
          saved.status = e.status ∧ saved.timeline = e.timeline)
      · intro _
        exact ⟨_, by simp, hsaved⟩
      · intro h
        exact absurd rfl h
    split
    · exact hgoal
    · split
      · intro h
        exact absurd rfl h
      · intro h
        exact absurd rfl h
      · split
        · exact hgoal
        · intro h
          exact absurd rfl h
  · intro u hu hauth hv
    have hok : ∃ saved, (updateLocationSave c db id e lat lon body.accuracy).2.emergencies id
          = some saved ∧
        saved.location =
          { latitude := lat, longitude := lon, accuracy := body.accuracy,
            timestamp := some (c.clock 0) } ∧
        saved.status = e.status ∧ saved.timeline = e.timeline := by
      rw [updateLocationSave_eq, if_pos hv]
      exact ⟨_, by simp, hsaved⟩
    by_cases hp : e.patientId = c.actorId
    · simp only [hp, if_true]
      exact hok
    · have hr : u.userType = "admin" ∨ u.userType = "ambulance" := by
        rcases hauth with h | h
        · exact absurd h hp
        · exact h
      simp only [hp, if_false, findById_doc db db.users c.actorId u hu, hr, if_true]
      exact hok

/-- C19 (witness). The ambulance user updates the location of the fresh
record: the stored location holds the requested coordinates, and the status
and the timeline are those of the fresh record. -/
theorem updateLocation_authorization_witness :
    (sampleDb freshRecord).emergencies "e1" = some freshRecord ∧
    (sampleDb freshRecord).users (sampleCtx "amb").actorId
      = some (sampleUser "Max" "Driver" "ambulance") ∧
    ∃ saved,
      (updateLocation (sampleCtx "amb") (sampleDb freshRecord) "e1"
          { latitude := some 48200000, longitude := some 11600000,
            accuracy := some 15 }).2.emergencies "e1" = some saved ∧
      saved.location =
        { latitude := 48200000, longitude := 11600000, accuracy := some 15,
          timestamp := some ((sampleCtx "amb").clock 0) } ∧
      saved.status = freshRecord.status ∧ saved.timeline = freshRecord.timeline :=
  ⟨rfl, rfl,
   (updateLocation_authorization (sampleCtx "amb") (sampleDb freshRecord) "e1" freshRecord
      { latitude := some 48200000, longitude := some 11600000, accuracy := some 15 }
      48200000 11600000 rfl rfl rfl).2.2.2.2
      (sampleUser "Max" "Driver" "ambulance") rfl (Or.inr (Or.inr rfl)) (by decide)⟩
/-! ## C20: chat messages -/

/-- C20. A chat request whose text is empty or absent is answered with
`ValidationError` and returns the database it was given, whatever the
emergency and the actor. A request with a non-empty text by an existing actor
on an existing, schema-valid emergency stores the record with exactly one
message appended at the end of `chatMessages` (the actor's id, the actor's
user type, the text, the time of the request, `isRead` false), the earlier
messages kept in order and nothing else changed; on a record that is not
schema-valid the database is unchanged. -/
theorem postChatMessage_appends (c : Ctx) (db : Db) (id : String) :
    postChatMessage c db id (some "") =
      (.failure .validationError ["Message is required"], db) ∧
    postChatMessage c db id none =
      (.failure .validationError ["Message is required"], db) ∧
    (∀ e u text, db.emergencies id = some e → db.users c.actorId = some u → text ≠ "" →
      (schemaValid e = true →
        (postChatMessage c db id (some text)).2.emergencies id =
          some { e with
            chatMessages := e.chatMessages ++
              [{ senderId := c.actorId, senderType := u.userType, message := text,
                 timestamp := c.clock 0, isRead := false }] }) ∧
      (schemaValid e ≠ true → (postChatMessage c db id (some text)).2 = db) ∧
      (postChatMessage c db id (some text)).1.kind ≠ some ErrorKind.validationError) := by
  refine ⟨by simp [postChatMessage], by simp [postChatMessage], ?_⟩
  intro e u text he hu ht
  rw [postChatMessage_eq c db id e u text he hu ht]
  refine ⟨?_, ?_, ?_⟩
  · intro hv
    rw [if_pos hv]
    simp [postChatMessageSaved, preSave_existing, postChatMessageDoc]
  · intro hv
    rw [if_neg hv]
  · split <;> simp [serverError, Response.kind]

/-- C20 (witness). The doctor posts `on my way` on the fresh record, which has
no messages: the stored chat holds that one message. -/
theorem postChatMessage_appends_witness :
    (sampleDb freshRecord).emergencies "e1" = some freshRecord ∧
    (sampleDb freshRecord).users (sampleCtx "doc").actorId
      = some (sampleUser "Dan" "Jones" "doctor") ∧
    schemaValid freshRecord = true ∧
    ((postChatMessage (sampleCtx "doc") (sampleDb freshRecord) "e1"
        (some "on my way")).2.emergencies "e1").map (fun e => e.chatMessages) =
      some [{ senderId := "doc", senderType := "doctor", message := "on my way",
              timestamp := 1000, isRead := false }] := by
  have h := ((postChatMessage_appends (sampleCtx "doc") (sampleDb freshRecord) "e1").2.2
    freshRecord (sampleUser "Dan" "Jones" "doctor") "on my way" rfl rfl (by decide)).1
    (by decide)
  refine ⟨rfl, rfl, by decide, ?_⟩
  rw [h]
  rfl

/-! ## C21: who may cancel -/

/-- C21. For an existing emergency: an existing actor is refused with
`Forbidden` exactly when the actor is not the subject and does not have the
type admin; the subject is never refused; a refused request returns the
database it was given; and when a cancel request succeeds the stored record is
the document `cancelSaved`, whose status is `cancelled` and whose
`cancelledAt` is the time of the request. -/
theorem cancel_authorization (c : Ctx) (db : Db) (id : String) (e : Emergency)
    (he : db.emergencies id = some e) :
    (∀ u, db.users c.actorId = some u →
      ((cancel c db id).1.kind = some ErrorKind.forbidden ↔
        ¬ (e.patientId = c.actorId ∨ u.userType = "admin"))) ∧
    (e.patientId = c.actorId → (cancel c db id).1.kind ≠ some ErrorKind.forbidden) ∧
    ((cancel c db id).1.kind = some ErrorKind.forbidden → (cancel c db id).2 = db) ∧
    ((cancel c db id).1.isSuccess = true →
      (cancel c db id).2.emergencies id = some (cancelSaved c e)) ∧
    (cancelSaved c e).status = "cancelled" ∧
    (cancelSaved c e).cancelledAt = some (c.clock 0) := by
  refine ⟨?_, ?_, ?_, ?_, ?_, ?_⟩
  · intro u hu
    rw [cancel_eq c db id e he]
    by_cases hp : e.patientId = c.actorId
    · simp only [hp, if_true, true_or, not_true, iff_false]
      exact cancelSave_kind c db id e
    · simp only [hp, if_false, findById_doc db db.users c.actorId u hu, false_or]
      by_cases hr : u.userType = "admin"
      · simp only [hr, if_true, not_true, iff_false]
        exact cancelSave_kind c db id e
      · simp [hr, Response.kind]
  · intro hp
    rw [cancel_eq c db id e he, if_pos hp]
    exact cancelSave_kind c db id e
  · rw [cancel_eq c db id e he]
    split
    · intro h
      exact absurd h (cancelSave_kind c db id e)
    · split
      · intro _
        rfl
      · intro _
        rfl
      · split
        · intro h
          exact absurd h (cancelSave_kind c db id e)
        · intro _
          rfl
  · intro hok
    rw [cancel_not_success c db id] at hok
    cases hok
  · simp [cancelSaved, preSave_existing, cancelDoc, Emergency.addTimelineEvent]
  · simp [cancelSaved, preSave_existing, cancelDoc, Emergency.addTimelineEvent]

/-- C21 (witness). A doctor who is not the subject of the fresh record is
refused, and the patient who is its subject is not. -/
theorem cancel_authorization_witness :
    (sampleDb freshRecord).emergencies "e1" = some freshRecord ∧
    (cancel (sampleCtx "doc") (sampleDb freshRecord) "e1").1.kind
      = some ErrorKind.forbidden ∧
    (cancel (sampleCtx "pat") (sampleDb freshRecord) "e1").1.kind
      ≠ some ErrorKind.forbidden :=
  ⟨rfl,
   ((cancel_authorization (sampleCtx "doc") (sampleDb freshRecord) "e1" freshRecord rfl).1
      (sampleUser "Dan" "Jones" "doctor") rfl).mpr (by decide),
   (cancel_authorization (sampleCtx "pat") (sampleDb freshRecord) "e1" freshRecord rfl).2.1
      rfl⟩

/-! ## C22: the identifier -/

/-- C22. The identifier is written in one place, the `pre('save')` hook, and
only for a new document that has none: there it becomes `EMG-`, the value of
`Date.now()`, `-` and the random suffix, which is the identifier of the
document create builds. On a document that has an identifier, and on every
document that is not new, the hook leaves the identifier as it is; and every
handler keeps every stored emergency under its `_id` with the identifier it
had, as do the documents the handlers build. -/
theorem identifier_generated_once (c : Ctx) (db : Db) (id : String) :
    (∀ (m : Bool) (i : Int) (r : String) (t : Int) (e : Emergency), e.emergencyId = "" →
      (preSave true m i r t e).emergencyId = "EMG-" ++ toString i ++ "-" ++ r) ∧
    (∀ (n m : Bool) (i : Int) (r : String) (t : Int) (e : Emergency), e.emergencyId ≠ "" →
      (preSave n m i r t e).emergencyId = e.emergencyId) ∧
    (∀ (m : Bool) (i : Int) (r : String) (t : Int) (e : Emergency),
      (preSave false m i r t e).emergencyId = e.emergencyId) ∧
    (∀ user body, (newEmergency c user body).emergencyId = "" ∧
      (createFinalDoc c user body).emergencyId
        = "EMG-" ++ toString (c.clock 1) ++ "-" ++ c.random) ∧
    (∀ body, Db.Rel KeepsIdentity db (updateStatus c db id body).2) ∧
    (∀ body, Db.Rel KeepsIdentity db (assignAmbulance c db id body).2) ∧
    (∀ body, Db.Rel KeepsIdentity db (updateLocation c db id body).2) ∧
    (∀ message, Db.Rel KeepsIdentity db (postChatMessage c db id message).2) ∧
    Db.Rel KeepsIdentity db (cancel c db id).2 ∧
    (∀ (e : Emergency) (s : String) (notes : Option String) (a : String) (amb u : User)
        (eta lat lon : Int) (acc : Option Int) (text : String),
      KeepsIdentity e (updateStatusSaved c e s notes) ∧
      KeepsIdentity e (assignAmbulanceSaved c e a amb eta) ∧
      KeepsIdentity e (updateLocationSaved c e lat lon acc) ∧
      KeepsIdentity e (postChatMessageSaved c e u text) ∧
      KeepsIdentity e (cancelSaved c e)) := by
  have hframe := handlers_frame c db id
  have hmono : ∀ db2, Db.Rel Frame db db2 → Db.Rel KeepsIdentity db db2 :=
    fun _ h => dbRel_mono (fun _ _ hf => hf.1) h
  refine ⟨?_, ?_, ?_, ?_, fun body => hmono _ (hframe.2.1 body),
    fun body => hmono _ (hframe.2.2.1 body), fun body => hmono _ (hframe.2.2.2.1 body),
    fun message => hmono _ (hframe.2.2.2.2.1 message), hmono _ hframe.2.2.2.2.2, ?_⟩
  · intro m i r t e he
    cases m <;> simp [preSave, he]
  · intro n m i r t e he
    have hb : (e.emergencyId == "") = false := by simpa using he
    cases n <;> cases m <;> simp [preSave, hb]
  · intro m i r t e
    rw [preSave_existing]
  · intro user body
    refine ⟨rfl, ?_⟩
    unfold createFinalDoc
    simp only [preSave_existing]
    simp [preSave, newEmergency, Emergency.addTimelineEvent]
  · intro e s notes a amb u eta lat lon acc text
    exact ⟨(frame_updateStatusSaved c e s notes).1, (frame_assignAmbulanceSaved c e a amb eta).1,
      (frame_updateLocationSaved c e lat lon acc).1, (frame_postChatMessageSaved c e u text).1,
      (frame_cancelSaved c e).1⟩

/-! ## C23: the status stays in its enumeration -/

/-- C23. Start from a database in which the status of every stored emergency
is a member of the status enumeration (the schema default `pending` of a new
record is one). After any sequence of requests to the six handlers the same
holds of every stored emergency. An update-status request whose status is
absent or not a member of the enumeration is answered with `ValidationError`
and returns the database it was given. -/
theorem status_stays_enumerated (db0 db : Db)
    (h0 : Db.All (fun e => e.status ∈ statusEnum) db0)
    (hr : ReachableByAny db0 db) :
    Db.All (fun e => e.status ∈ statusEnum) db ∧
    (∀ (c : Ctx) (id : String) (body : UpdateStatusBody),
      (body.status = none ∨ ∃ s, body.status = some s ∧ s ∉ statusEnum) →
        updateStatus c db id body =
          (.failure .validationError ["Status is required"], db)) ∧
    (∀ (c : Ctx) (user : User) (body : CreateBody),
      (newEmergency c user body).status ∈ statusEnum) := by
  refine ⟨?_, fun c id body h => updateStatus_invalid_status c db id body h, ?_⟩
  · induction hr with
    | start => exact h0
    | byCreate c body _ ih => exact (handlers_keep_statusEnum c _ "" ih).1 body
    | byUpdateStatus c id body _ ih => exact (handlers_keep_statusEnum c _ id ih).2.1 body
    | byAssignAmbulance c id body _ ih =>
      exact (handlers_keep_statusEnum c _ id ih).2.2.1 body
    | byUpdateLocation c id body _ ih =>
      exact (handlers_keep_statusEnum c _ id ih).2.2.2.1 body
    | byPostChatMessage c id message _ ih =>
      exact (handlers_keep_statusEnum c _ id ih).2.2.2.2.1 message
    | byCancel c id _ ih => exact (handlers_keep_statusEnum c _ id ih).2.2.2.2.2
  · intro c user body
    simp [newEmergency, statusEnum]

/-- C23 (witness). From the database holding the fresh record, an
update-status request for `completed` followed by a chat message reaches a
database whose stored statuses are all enumerated, and there an update-status
request for `resolved` is answered with `ValidationError`. -/
theorem status_stays_enumerated_witness :
    Db.All (fun e => e.status ∈ statusEnum) (sampleDb freshRecord) ∧
    ReachableByAny (sampleDb freshRecord)
      (postChatMessage (sampleCtx "doc")
        (updateStatus (sampleCtx "adm") (sampleDb freshRecord) "e1"
          { status := some "completed", notes := none }).2 "e1" (some "hello")).2 ∧
    Db.All (fun e => e.status ∈ statusEnum)
      (postChatMessage (sampleCtx "doc")
        (updateStatus (sampleCtx "adm") (sampleDb freshRecord) "e1"
          { status := some "completed", notes := none }).2 "e1" (some "hello")).2 ∧
    (updateStatus (sampleCtx "adm")
        (postChatMessage (sampleCtx "doc")
          (updateStatus (sampleCtx "adm") (sampleDb freshRecord) "e1"
            { status := some "completed", notes := none }).2 "e1" (some "hello")).2
        "e1" { status := some "resolved", notes := none }).1.kind
      = some ErrorKind.validationError := by
  have h0 : Db.All (fun e => e.status ∈ statusEnum) (sampleDb freshRecord) := by
    intro k e he
    simp only [sampleDb] at he
    split at he
    · cases he
      decide
    · cases he
  have hr : ReachableByAny (sampleDb freshRecord)
      (postChatMessage (sampleCtx "doc")
        (updateStatus (sampleCtx "adm") (sampleDb freshRecord) "e1"
          { status := some "completed", notes := none }).2 "e1" (some "hello")).2 :=
    ReachableByAny.byPostChatMessage _ _ _
      (ReachableByAny.byUpdateStatus _ _ _ ReachableByAny.start)
  have h := status_stays_enumerated _ _ h0 hr
  refine ⟨h0, hr, h.1, ?_⟩
  rw [h.2.1 (sampleCtx "adm") "e1" { status := some "resolved", notes := none }
    (Or.inr ⟨"resolved", rfl, by decide⟩)]
  rfl

/-! ## C24: an ambulance assignment is never cleared -/

/-- C24. For each of update-status, assign-ambulance, update-location and the
chat handler: every stored emergency that has an ambulance assignment before
the request is stored after it, under the same `_id`, with an ambulance
assignment; the same holds of the documents these handlers build, and
assign-ambulance is the only one of them that writes the assignment. -/
theorem assignment_never_cleared (c : Ctx) (db : Db) (id : String) :
    (∀ body, Db.Rel KeepsAssignment db (updateStatus c db id body).2) ∧
    (∀ body, Db.Rel KeepsAssignment db (assignAmbulance c db id body).2) ∧
    (∀ body, Db.Rel KeepsAssignment db (updateLocation c db id body).2) ∧
    (∀ message, Db.Rel KeepsAssignment db (postChatMessage c db id message).2) ∧
    (∀ (e : Emergency) (s : String) (notes : Option String) (a : String) (amb u : User)
        (eta lat lon : Int) (acc : Option Int) (text : String),
      (updateStatusSaved c e s notes).assignedAmbulance = e.assignedAmbulance ∧
      (assignAmbulanceSaved c e a amb eta).assignedAmbulance = some
        { ambulanceId := a, driverName := amb.fullName, driverPhone := amb.phone,
          estimatedArrival := eta, currentLocation := none } ∧
      (updateLocationSaved c e lat lon acc).assignedAmbulance = e.assignedAmbulance ∧
      (postChatMessageSaved c e u text).assignedAmbulance = e.assignedAmbulance) := by
  have hframe := handlers_frame c db id
  have hmono : ∀ db2, Db.Rel Frame db db2 → Db.Rel KeepsAssignment db db2 :=
    fun _ h => dbRel_mono (fun _ _ hf => hf.2) h
  refine ⟨fun body => hmono _ (hframe.2.1 body), fun body => hmono _ (hframe.2.2.1 body),
    fun body => hmono _ (hframe.2.2.2.1 body),
    fun message => hmono _ (hframe.2.2.2.2.1 message), ?_⟩
  intro e s notes a amb u eta lat lon acc text
  refine ⟨?_, ?_, ?_, ?_⟩
  · rw [updateStatusSaved, preSave_existing]
    exact updateStatusDoc_assignedAmbulance c e s notes
  · simp [assignAmbulanceSaved, preSave_existing, assignAmbulanceDoc,
      Emergency.addTimelineEvent]
  · simp [updateLocationSaved, preSave_existing, updateLocationDoc]
  · simp [postChatMessageSaved, preSave_existing, postChatMessageDoc]

/-- C24 (witness). An update-status request for `completed` on the record to
which `amb` is assigned: the record stored afterwards still has an
assignment. -/
theorem assignment_never_cleared_witness :
    (sampleDb assignedRecord).emergencies "e1" = some assignedRecord ∧
    assignedRecord.assignedAmbulance.isSome = true ∧
    ∃ e2,
      (updateStatus (sampleCtx "adm") (sampleDb assignedRecord) "e1"
          { status := some "completed", notes := none }).2.emergencies "e1" = some e2 ∧
      e2.assignedAmbulance.isSome = true := by
  obtain ⟨e2, h1, h2⟩ :=
    (assignment_never_cleared (sampleCtx "adm") (sampleDb assignedRecord) "e1").1
      { status := some "completed", notes := none } "e1" assignedRecord rfl
  exact ⟨rfl, rfl, e2, h1, h2 rfl⟩

/-! ## C25: what an appended timeline event records -/

/-- C25 (counterexample). An update-status request from `pending` to
`assigned` by the administrator `adm` appends two events: the handler's, with
`userId` set and no `userType`, and the hook's, with neither `userId` nor
`userType`. -/
theorem appended_events_lack_userType :
    ((updateStatus (sampleCtx "adm") (sampleDb freshRecord) "e1"
        { status := some "assigned", notes := none }).2.emergencies "e1").map
        (fun e => (e.timeline.drop freshRecord.timeline.length).map
          (fun t => (t.event, t.userId, t.userType))) =
      some [("assigned", some "adm", none), ("assigned", none, none)] := by
  decide

/-- C25 (amended). Every event appended through `addTimelineEvent`, which is
how create, update-status, assign-ambulance and cancel append, records the
event kind, the time of the call, the description and the actor's id as
`userId`, and no `userType`; every event appended by the `pre('save')` hook
records the status as event kind, the time and a description, and neither
`userId` nor `userType`. The documents the four handlers build append exactly
such events. -/
theorem appended_events_fields (c : Ctx) :
    (∀ (e : Emergency) (event description userId : String) (now : Int),
      (e.addTimelineEvent event description userId now).timeline =
        e.timeline ++
          [{ event := event, timestamp := now, description := description,
             userId := some userId, userType := none }]) ∧
    (∀ (n m : Bool) (i : Int) (r : String) (t : Int) (e : Emergency),
      (preSave n m i r t e).timeline =
        e.timeline ++
          (if m = true then
            [{ event := e.status, timestamp := t,
               description := "Emergency status changed to " ++ e.status,
               userId := none, userType := none }]
           else [])) ∧
    (∀ (e : Emergency) (s : String) (notes : Option String),
      ∃ appended, (updateStatusSaved c e s notes).timeline = e.timeline ++ appended ∧
        ∀ t ∈ appended, t.userType = none ∧ (t.userId = some c.actorId ∨ t.userId = none)) ∧
    (∀ (e : Emergency) (a : String) (amb : User) (eta : Int),
      ∃ appended, (assignAmbulanceSaved c e a amb eta).timeline = e.timeline ++ appended ∧
        ∀ t ∈ appended, t.userType = none ∧ (t.userId = some c.actorId ∨ t.userId = none)) ∧
    (∀ e : Emergency,
      ∃ appended, (cancelSaved c e).timeline = e.timeline ++ appended ∧
        ∀ t ∈ appended, t.userType = none ∧ (t.userId = some c.actorId ∨ t.userId = none)) ∧
    (∀ (user : User) (body : CreateBody),
      (createFinalDoc c user body).timeline =
        [{ event := "created", timestamp := c.clock 2,
           description := "Emergency alert created",
           userId := some c.actorId, userType := none }]) := by
  refine ⟨fun _ _ _ _ _ => rfl, preSave_timeline, ?_, ?_, ?_, ?_⟩
  · intro e s notes
    refine ⟨_, by rw [updateStatusSaved_timeline, List.append_assoc], ?_⟩
    intro t ht
    rcases List.mem_append.mp ht with h | h
    · rw [List.mem_singleton] at h
      subst h
      exact ⟨rfl, Or.inl rfl⟩
    · split at h
      · simp at h
      · rw [List.mem_singleton] at h
        subst h
        exact ⟨rfl, Or.inr rfl⟩
  · intro e a amb eta
    refine ⟨_, by rw [assignAmbulanceSaved_timeline, List.append_assoc], ?_⟩
    intro t ht
    rcases List.mem_append.mp ht with h | h
    · rw [List.mem_singleton] at h
      subst h
      exact ⟨rfl, Or.inl rfl⟩
    · split at h
      · simp at h
      · rw [List.mem_singleton] at h
        subst h
        exact ⟨rfl, Or.inr rfl⟩
  · intro e
    refine ⟨_, by rw [cancelSaved_timeline, List.append_assoc], ?_⟩
    intro t ht
    rcases List.mem_append.mp ht with h | h
    · rw [List.mem_singleton] at h
      subst h
      exact ⟨rfl, Or.inl rfl⟩
    · split at h
      · simp at h
      · rw [List.mem_singleton] at h
        subst h
        exact ⟨rfl, Or.inr rfl⟩
  · intro user body
    unfold createFinalDoc
    simp only [preSave_existing]
    simp [preSave, newEmergency, Emergency.addTimelineEvent]

/-! ## C27: appended event kinds and the schema enumeration -/

/-- C27 (the code at the failing input). Of the seven statuses only `assigned`
and `completed` are members of the `timeline.event` enumeration. An
update-status request for `en-route` on the fresh record builds a document
whose appended event has the kind `en-route`; the document fails schema
validation and the request is answered by the `catch` branch. The same holds
of a cancel request by the subject, whose appended event has the kind
`cancelled`. The `pre('save')` hook pushes the status itself as an event
kind. -/
theorem appended_kind_outside_enumeration :
    statusEnum.filter (fun s => timelineEventEnum.contains s) = ["assigned", "completed"] ∧
    (updateStatusDoc (sampleCtx "adm") freshRecord "en-route" none).timeline.map
        (fun t => t.event) = ["created", "en-route"] ∧
    schemaValid freshRecord = true ∧
    schemaValid (updateStatusDoc (sampleCtx "adm") freshRecord "en-route" none) = false ∧
    (updateStatus (sampleCtx "adm") (sampleDb freshRecord) "e1"
        { status := some "en-route", notes := none }).1 = serverError ∧
    (cancelDoc (sampleCtx "pat") freshRecord).timeline.map (fun t => t.event)
      = ["created", "cancelled"] ∧
    schemaValid (cancelDoc (sampleCtx "pat") freshRecord) = false ∧
    (cancel (sampleCtx "pat") (sampleDb freshRecord) "e1").1 = serverError ∧
    (preSave false true 0 "Z9Y8X" 1001
        { freshRecord with status := "in-transit" }).timeline.map (fun t => t.event)
      = ["created", "in-transit"] := by
  refine ⟨by decide, by decide, by decide, by decide, by decide, by decide, by decide,
    by decide, by decide⟩

/-! ## C29: `isActive` and the active query -/

/-- C29. For every record whose status is a member of the status
enumeration, `isActive` is true exactly when the status is neither `completed`
nor `cancelled`; and the query of `GET /active` selects a record exactly when
`isActive` is true of it, its status list being the list `isActive` tests. -/
theorem isActive_iff_not_terminal (e : Emergency) (h : e.status ∈ statusEnum) :
    (e.isActive = true ↔ (e.status ≠ "completed" ∧ e.status ≠ "cancelled")) ∧
    matchesActiveQuery e = e.isActive ∧
    (e.status ∈ activeQueryStatuses ↔ e.isActive = true) ∧
    activeQueryStatuses = statusEnum.filter (fun s => s != "completed" && s != "cancelled") := by
  refine ⟨?_, rfl, ?_, by decide⟩
  · simp only [statusEnum, List.mem_cons, List.mem_singleton, List.not_mem_nil, or_false]
      at h
    rcases h with h | h | h | h | h | h | h <;> rw [Emergency.isActive, h] <;> decide
  · simp [Emergency.isActive, activeQueryStatuses]

/-- C29 (witness). A record whose status is `in-transit` is active and is
selected by the query. -/
theorem isActive_iff_not_terminal_witness :
    (sampleRecord "pat" "in-transit" sampleTimeline).status ∈ statusEnum ∧
    (sampleRecord "pat" "in-transit" sampleTimeline).isActive = true ∧
    matchesActiveQuery (sampleRecord "pat" "in-transit" sampleTimeline) = true :=
  ⟨by decide,
   (isActive_iff_not_terminal (sampleRecord "pat" "in-transit" sampleTimeline)
      (by decide)).1.mpr ⟨by decide, by decide⟩,
   by
     rw [(isActive_iff_not_terminal (sampleRecord "pat" "in-transit" sampleTimeline)
       (by decide)).2.1]
     decide⟩

/-! ## C30: the chat handler checks no role -/

/-- C30 (the code at the failing input). The chat handler checks no role and
no ownership: it never answers `Forbidden`, and for every existing,
schema-valid emergency, whatever its status (`completed` and `cancelled`
included), every existing actor, whatever the actor's type and whoever the
subject is, and every non-empty text, the stored chat ends with the text, sent
under the actor's id with the actor's own user type as sender type. The
request is not answered with success, though: `io` is `undefined` in
`routes/emergency.js`, the socket call after `save` throws, and the `catch`
branch answers 500 with the message already stored. No chat request is
answered with success. -/
theorem postChatMessage_unrestricted_but_fails (c : Ctx) (db : Db) (id : String) :
    (∀ message, (postChatMessage c db id message).1.kind ≠ some ErrorKind.forbidden) ∧
    (∀ message, (postChatMessage c db id message).1.isSuccess = false) ∧
    (∀ e u text, db.emergencies id = some e → db.users c.actorId = some u → text ≠ "" →
      schemaValid e = true →
        (postChatMessage c db id (some text)).1 = serverError ∧
        ∃ saved, (postChatMessage c db id (some text)).2.emergencies id = some saved ∧
          saved.status = e.status ∧
          saved.chatMessages.getLast? =
            some { senderId := c.actorId, senderType := u.userType, message := text,
                   timestamp := c.clock 0, isRead := false }) := by
  refine ⟨?_, ?_, ?_⟩
  · intro message
    unfold postChatMessage
    repeat' split
    all_goals simp [Response.kind, serverError]
  · intro message
    unfold postChatMessage
    repeat' split
    all_goals simp_all [Response.isSuccess, serverError, emit_io]
  · intro e u text he hu ht hv
    rw [postChatMessage_eq c db id e u text he hu ht, if_pos hv]
    refine ⟨rfl, postChatMessageSaved c e u text, by simp, ?_, ?_⟩
    · simp [postChatMessageSaved, preSave_existing, postChatMessageDoc]
    · simp [postChatMessageSaved, preSave_existing, postChatMessageDoc]

/-- C30 (witness). A doctor, who is neither the subject nor a responder, posts
on a `cancelled` record: the message is stored with the sender type `doctor`,
and the answer is the 500 of the `catch` branch. -/
theorem postChatMessage_unrestricted_but_fails_witness :
    (sampleDb (sampleRecord "pat" "cancelled" sampleTimeline)).emergencies "e1"
      = some (sampleRecord "pat" "cancelled" sampleTimeline) ∧
    (sampleDb (sampleRecord "pat" "cancelled" sampleTimeline)).users (sampleCtx "doc").actorId
      = some (sampleUser "Dan" "Jones" "doctor") ∧
    schemaValid (sampleRecord "pat" "cancelled" sampleTimeline) = true ∧
    (postChatMessage (sampleCtx "doc") (sampleDb (sampleRecord "pat" "cancelled" sampleTimeline))
        "e1" (some "any news?")).1 = serverError ∧
    ∃ saved,
      (postChatMessage (sampleCtx "doc")
          (sampleDb (sampleRecord "pat" "cancelled" sampleTimeline))
          "e1" (some "any news?")).2.emergencies "e1" = some saved ∧
      saved.status = "cancelled" ∧
      saved.chatMessages.getLast? =
        some { senderId := "doc", senderType := "doctor", message := "any news?",
               timestamp := 1000, isRead := false } :=
  ⟨rfl, rfl, by decide,
   (postChatMessage_unrestricted_but_fails (sampleCtx "doc")
      (sampleDb (sampleRecord "pat" "cancelled" sampleTimeline)) "e1").2.2
      (sampleRecord "pat" "cancelled" sampleTimeline) (sampleUser "Dan" "Jones" "doctor")
      "any news?" rfl rfl (by decide) (by decide)⟩

end MedEmo
